import Mathlib

/-!
# FAT12/16/32 driver core: shallow embedding and verified properties

The C sources under `src/src` are embedded as pure Lean functions.

* Machine integers are `Nat`; `uint32_t`/`uint16_t`/`uint8_t` truncation is written out
  with `u32`/`u16`/`u8` wherever the C code can wrap or narrow.
* Buffers (`fat_cache`, sector buffers) are `List Nat` holding one byte per element;
  a `uint16_t`/`uint32_t` access through a cast pointer is little-endian composition
  (the sources state the little-endian assumption in `fat_table.c`).
* Functions that mutate `*volume` or `*file` return the new value explicitly.
* Pointer arguments are never null in the embedding, so the `!ptr` parameter checks of
  the sources have no counterpart.
* `for` loops with a computed bound recurse on the number of iterations left. `while` loops
  without such a bound (`while(1)`, `while(true)`, `while(remaining > 0)`) take a
  `fuel : Nat`; the result `none` means that the loop has not returned within `fuel`
  iterations, and `some r` that it has returned `r`.
-/

namespace Fat

/-! ## Types and constants (`fat_types.h`, `fat_volume.h`) -/

/-- Modelled from the spec: `fat_error_t` of the absent `fat_types.h`; the constructors are
the status names used by the sources (§7 of the specification lists their meaning). -/
inductive fat_error_t where
  | FAT_OK
  | FAT_ERR_INVALID_PARAM
  | FAT_ERR_INVALID_CLUSTER
  | FAT_ERR_CORRUPTED
  | FAT_ERR_DEVICE_ERROR
  | FAT_ERR_NO_MEMORY
  | FAT_ERR_DISK_FULL
  | FAT_ERR_NOT_FOUND
  | FAT_ERR_ALREADY_EXISTS
  | FAT_ERR_NOT_A_DIRECTORY
  | FAT_ERR_READ_ONLY
  | FAT_ERR_DIRECTORY_NOT_EMPTY
  | FAT_ERR_EOF
  | FAT_ERR_UNSUPPORTED_FAT_TYPE
  deriving DecidableEq, Repr

export fat_error_t (FAT_OK FAT_ERR_INVALID_PARAM FAT_ERR_INVALID_CLUSTER FAT_ERR_CORRUPTED
  FAT_ERR_DEVICE_ERROR FAT_ERR_NO_MEMORY FAT_ERR_DISK_FULL FAT_ERR_NOT_FOUND
  FAT_ERR_ALREADY_EXISTS FAT_ERR_NOT_A_DIRECTORY FAT_ERR_READ_ONLY
  FAT_ERR_DIRECTORY_NOT_EMPTY FAT_ERR_EOF FAT_ERR_UNSUPPORTED_FAT_TYPE)

/-- Modelled from the spec: the FAT type tag of the volume descriptor (§3: FAT type is one of
FAT12, FAT16, FAT32); the `default:` branches of the sources are unreachable for it. -/
inductive fat_type_t where
  | FAT_TYPE_FAT12
  | FAT_TYPE_FAT16
  | FAT_TYPE_FAT32
  deriving DecidableEq, Repr

export fat_type_t (FAT_TYPE_FAT12 FAT_TYPE_FAT16 FAT_TYPE_FAT32)

deriving instance DecidableEq for Except

/-- Truncation to `uint32_t`. -/
def u32 (n : Nat) : Nat := n % 4294967296

/-- Truncation to `uint16_t`. -/
def u16 (n : Nat) : Nat := n % 65536

/-- Truncation to `uint8_t`. -/
def u8 (n : Nat) : Nat := n % 256

/-- Modelled from the spec: first valid data cluster (§3: reserved values 0 and 1; first valid
data cluster is 2). -/
def FAT_FIRST_VALID_CLUSTER : Nat := 2

/-- Modelled from the spec: value of a free FAT entry (§3: Free = 0). -/
def FAT_FREE : Nat := 0

/-- Modelled from the spec: FAT12 end-of-chain threshold (§3: EOC if at least 0xFF8). -/
def FAT12_EOC : Nat := 0xFF8

/-- Modelled from the spec: FAT16 end-of-chain threshold (§3: EOC if at least 0xFFF8). -/
def FAT16_EOC : Nat := 0xFFF8

/-- Modelled from the spec: FAT32 end-of-chain threshold (§3: EOC if at least 0x0FFFFFF8). -/
def FAT32_EOC : Nat := 0x0FFFFFF8

/-- Modelled from the spec: FAT12 bad-cluster value (§3: BAD if equal to 0xFF7). -/
def FAT12_BAD : Nat := 0xFF7

/-- Modelled from the spec: FAT16 bad-cluster value (§3: BAD if equal to 0xFFF7). -/
def FAT16_BAD : Nat := 0xFFF7

/-- Modelled from the spec: FAT32 bad-cluster value (§3: BAD if equal to 0x0FFFFFF7). -/
def FAT32_BAD : Nat := 0x0FFFFFF7

/-- Modelled from the spec: the block device port (§4.1, `fat_block_device.h`): the two sector
callbacks are supplied by the mounting code. The device is a byte store addressed in sectors
of `sector_size` bytes; `read_ok`/`write_ok` say whether the callbacks report success
(return 0). -/
structure fat_block_device_t where
  sector_size : Nat
  data : Nat → Nat
  read_ok : Bool
  write_ok : Bool

/-- Modelled from the spec: the mounted-volume descriptor `fat_volume_t` of the absent
`fat_volume.h` (§3, Volume descriptor); the field names are the ones the sources access. -/
structure fat_volume_t where
  type : fat_type_t
  bytes_per_sector : Nat
  sectors_per_cluster : Nat
  bytes_per_cluster : Nat
  reserved_sector_count : Nat
  num_fats : Nat
  fat_size_sectors : Nat
  root_entry_count : Nat
  root_dir_sectors : Nat
  data_begin_sector : Nat
  root_cluster : Nat
  total_clusters : Nat
  fat_cache : List Nat
  fat_dirty : Bool
  device : fat_block_device_t

/-! ## FAT table (`fat_table.c`) -/

/-- Load of a `uint16_t` through `*(uint16_t*)(&buf[off])` on a little-endian host. -/
def load16 (buf : List Nat) (off : Nat) : Nat :=
  buf.getD off 0 + 256 * buf.getD (off + 1) 0

/-- Load of a `uint32_t` through `*(uint32_t*)(&buf[off])` on a little-endian host. -/
def load32 (buf : List Nat) (off : Nat) : Nat :=
  buf.getD off 0 + 256 * buf.getD (off + 1) 0 + 65536 * buf.getD (off + 2) 0
    + 16777216 * buf.getD (off + 3) 0

/-- Store of a `uint16_t` through `*(uint16_t*)(&buf[off]) = v` on a little-endian host. -/
def store16 (buf : List Nat) (off v : Nat) : List Nat :=
  (buf.set off (v % 256)).set (off + 1) (v / 256 % 256)

/-- Store of a `uint32_t` through `*(uint32_t*)(&buf[off]) = v` on a little-endian host. -/
def store32 (buf : List Nat) (off v : Nat) : List Nat :=
  (((buf.set off (v % 256)).set (off + 1) (v / 256 % 256)).set (off + 2)
    (v / 65536 % 256)).set (off + 3) (v / 16777216 % 256)

/-- `is_valid_cluster` of `fat_table.c`. -/
def is_valid_cluster (volume : fat_volume_t) (cluster : Nat) : Bool :=
  decide (cluster ≥ FAT_FIRST_VALID_CLUSTER) &&
    decide (cluster < u32 (FAT_FIRST_VALID_CLUSTER + volume.total_clusters))

/-- `fat_read_entry` of `fat_table.c`: the value stored through `*value`, or the error. -/
def fat_read_entry (volume : fat_volume_t) (cluster : Nat) : Except fat_error_t Nat :=
  if !is_valid_cluster volume cluster then
    .error FAT_ERR_INVALID_CLUSTER
  else
    match volume.type with
    | FAT_TYPE_FAT12 =>
      let byte_offset := u32 (cluster * 3) / 2
      let entry := load16 volume.fat_cache byte_offset
      if cluster &&& 1 ≠ 0 then
        .ok (entry >>> 4)
      else
        .ok (entry &&& 0x0FFF)
    | FAT_TYPE_FAT16 =>
      let byte_offset := u32 (cluster * 2)
      .ok (load16 volume.fat_cache byte_offset)
    | FAT_TYPE_FAT32 =>
      let byte_offset := u32 (cluster * 4)
      let raw_value := load32 volume.fat_cache byte_offset
      .ok (raw_value &&& 0x0FFFFFFF)

/-- `fat_write_entry` of `fat_table.c`: the updated volume (cache and dirty flag), or the
error, in which case the volume has not been touched. -/
def fat_write_entry (volume : fat_volume_t) (cluster value : Nat) :
    Except fat_error_t fat_volume_t :=
  if !is_valid_cluster volume cluster then
    .error FAT_ERR_INVALID_CLUSTER
  else
    match volume.type with
    | FAT_TYPE_FAT12 =>
      let byte_offset := u32 (cluster * 3) / 2
      let entry := load16 volume.fat_cache byte_offset
      let value := value &&& 0x0FFF
      let entry :=
        if cluster &&& 1 ≠ 0 then
          u16 ((entry &&& 0x0FFF) ||| u32 (value <<< 4))
        else
          u16 ((entry &&& 0xF000) ||| value)
      .ok { volume with fat_cache := store16 volume.fat_cache byte_offset entry,
                        fat_dirty := true }
    | FAT_TYPE_FAT16 =>
      let byte_offset := u32 (cluster * 2)
      let value := value &&& 0xFFFF
      .ok { volume with fat_cache := store16 volume.fat_cache byte_offset (u16 value),
                        fat_dirty := true }
    | FAT_TYPE_FAT32 =>
      let byte_offset := u32 (cluster * 4)
      let current_entry := load32 volume.fat_cache byte_offset
      let value := value &&& 0x0FFFFFFF
      let new_entry := (current_entry &&& 0x0FFFFFFF) ||| value
      .ok { volume with fat_cache := store32 volume.fat_cache byte_offset new_entry,
                        fat_dirty := true }

/-! ## Cluster engine (`fat_cluster.c`) -/

/-- `fat_get_next_cluster` of `fat_cluster.c`: the raw successor value. -/
def fat_get_next_cluster (volume : fat_volume_t) (cluster : Nat) : Except fat_error_t Nat :=
  match fat_read_entry volume cluster with
  | .error err => .error err
  | .ok value => .ok value

/-- `fat_is_eoc` of `fat_cluster.c`. -/
def fat_is_eoc (volume : fat_volume_t) (value : Nat) : Bool :=
  match volume.type with
  | FAT_TYPE_FAT12 => decide (value ≥ FAT12_EOC)
  | FAT_TYPE_FAT16 => decide (value ≥ FAT16_EOC)
  | FAT_TYPE_FAT32 => decide (value ≥ FAT32_EOC)

/-- `fat_is_bad` of `fat_cluster.c`. -/
def fat_is_bad (volume : fat_volume_t) (value : Nat) : Bool :=
  match volume.type with
  | FAT_TYPE_FAT12 => decide (value = FAT12_BAD)
  | FAT_TYPE_FAT16 => decide (value = FAT16_BAD)
  | FAT_TYPE_FAT32 => decide (value = FAT32_BAD)

/-- The `switch(volume->type)` that selects `eoc_marker` in `fat_allocate_cluster`,
`fat_allocate_and_link_cluster` and `fat_extend_file`. -/
def eoc_marker (volume : fat_volume_t) : Nat :=
  match volume.type with
  | FAT_TYPE_FAT12 => FAT12_EOC
  | FAT_TYPE_FAT16 => FAT16_EOC
  | FAT_TYPE_FAT32 => FAT32_EOC

/-- The `for` loop of `fat_allocate_cluster`; `n` is the number of iterations left, that is
`FAT_LAST_VALID_CLUSTER - current_cluster`. -/
def fat_allocate_cluster_loop (volume : fat_volume_t) :
    Nat → Nat → Except fat_error_t (fat_volume_t × Nat)
  | 0, _ => .error FAT_ERR_DISK_FULL
  | n + 1, current_cluster =>
    match fat_read_entry volume current_cluster with
    | .error _ => fat_allocate_cluster_loop volume n (current_cluster + 1)
    | .ok value =>
      if value ≠ FAT_FREE then
        match fat_write_entry volume current_cluster (eoc_marker volume) with
        | .error err => .error err
        | .ok volume => .ok (volume, current_cluster)
      else
        fat_allocate_cluster_loop volume n (current_cluster + 1)

/-- `fat_allocate_cluster` of `fat_cluster.c`: the updated volume and the cluster stored
through `*cluster`, or the error. -/
def fat_allocate_cluster (volume : fat_volume_t) : Except fat_error_t (fat_volume_t × Nat) :=
  let FAT_LAST_VALID_CLUSTER := u32 (FAT_FIRST_VALID_CLUSTER + volume.total_clusters)
  fat_allocate_cluster_loop volume (FAT_LAST_VALID_CLUSTER - FAT_FIRST_VALID_CLUSTER)
    FAT_FIRST_VALID_CLUSTER

/-- The `while(iterations < max_iterations)` loop of `fat_free_chain`; `n` is
`max_iterations - iterations`. -/
def fat_free_chain_loop : Nat → fat_volume_t → Nat → fat_error_t × fat_volume_t
  | 0, volume, _ => (FAT_ERR_CORRUPTED, volume)
  | n + 1, volume, current_cluster =>
    match fat_read_entry volume current_cluster with
    | .error err => (err, volume)
    | .ok next_cluster =>
      match fat_write_entry volume current_cluster FAT_FREE with
      | .error err => (err, volume)
      | .ok volume =>
        if fat_is_eoc volume next_cluster then (FAT_OK, volume)
        else if fat_is_bad volume next_cluster then (FAT_OK, volume)
        else if next_cluster < FAT_FIRST_VALID_CLUSTER ||
            next_cluster ≥ u32 (FAT_FIRST_VALID_CLUSTER + volume.total_clusters) then
          (FAT_ERR_CORRUPTED, volume)
        else fat_free_chain_loop n volume next_cluster

/-- `fat_free_chain` of `fat_cluster.c`: the status and the volume as left behind. -/
def fat_free_chain (volume : fat_volume_t) (start_cluster : Nat) : fat_error_t × fat_volume_t :=
  if start_cluster < FAT_FIRST_VALID_CLUSTER ||
      start_cluster ≥ u32 (FAT_FIRST_VALID_CLUSTER + volume.total_clusters) then
    (FAT_ERR_INVALID_CLUSTER, volume)
  else
    fat_free_chain_loop volume.total_clusters volume start_cluster

/-- The `while(iterations < max_iterations)` loop of `fat_free_chain` with its counter
`iterations` kept as a variable: one test of the loop condition per unit of fuel (`none`:
the loop has not returned within the fuel). Besides the status and the volume the result
carries the final value of `iterations` and the number of calls of `fat_write_entry` made,
started from `writes`. -/
def fat_free_chain_counted_loop (max_iterations : Nat) :
    Nat → fat_volume_t → Nat → Nat → Nat → Option (fat_error_t × fat_volume_t × Nat × Nat)
  | 0, _, _, _, _ => none
  | fuel + 1, volume, current_cluster, iterations, writes =>
    if iterations < max_iterations then
      let iterations := u32 (iterations + 1)
      match fat_read_entry volume current_cluster with
      | .error err => some (err, volume, iterations, writes)
      | .ok next_cluster =>
        let writes := writes + 1
        match fat_write_entry volume current_cluster FAT_FREE with
        | .error err => some (err, volume, iterations, writes)
        | .ok volume =>
          if fat_is_eoc volume next_cluster then some (FAT_OK, volume, iterations, writes)
          else if fat_is_bad volume next_cluster then some (FAT_OK, volume, iterations, writes)
          else if next_cluster < FAT_FIRST_VALID_CLUSTER ||
              next_cluster ≥ u32 (FAT_FIRST_VALID_CLUSTER + volume.total_clusters) then
            some (FAT_ERR_CORRUPTED, volume, iterations, writes)
          else
            fat_free_chain_counted_loop max_iterations fuel volume next_cluster iterations
              writes
    else some (FAT_ERR_CORRUPTED, volume, iterations, writes)

/-- `fat_free_chain` of `fat_cluster.c` with the loop counter kept: status, volume, the
number of loop iterations and the number of `fat_write_entry` calls. -/
def fat_free_chain_counted (volume : fat_volume_t) (start_cluster : Nat) (fuel : Nat) :
    Option (fat_error_t × fat_volume_t × Nat × Nat) :=
  if start_cluster < FAT_FIRST_VALID_CLUSTER ||
      start_cluster ≥ u32 (FAT_FIRST_VALID_CLUSTER + volume.total_clusters) then
    some (FAT_ERR_INVALID_CLUSTER, volume, 0, 0)
  else
    fat_free_chain_counted_loop volume.total_clusters fuel volume start_cluster 0 0

/-- The `while(true)` loop of `fat_validate_chain`, one iteration per unit of fuel. -/
def fat_validate_chain_loop (volume : fat_volume_t) : Nat → Nat → Nat → Option fat_error_t
  | 0, _, _ => none
  | fuel + 1, tortoise, hare =>
    -- move slow pointer
    match fat_read_entry volume tortoise with
    | .error err => some err
    | .ok tortoise_next =>
      if fat_is_eoc volume tortoise_next then some FAT_OK
      else if tortoise_next < FAT_FIRST_VALID_CLUSTER ||
          tortoise_next ≥ u32 (FAT_FIRST_VALID_CLUSTER + volume.total_clusters) then
        some FAT_ERR_CORRUPTED
      else
        let tortoise := tortoise_next
        -- move fast pointer
        match fat_read_entry volume hare with
        | .error err => some err
        | .ok hare_next =>
          if fat_is_eoc volume hare_next then some FAT_OK
          else if hare_next < FAT_FIRST_VALID_CLUSTER ||
              hare_next ≥ u32 (FAT_FIRST_VALID_CLUSTER + volume.total_clusters) then
            some FAT_ERR_CORRUPTED
          else
            let hare := hare_next
            -- second step
            match fat_read_entry volume hare with
            | .error err => some err
            | .ok hare_next =>
              if fat_is_eoc volume hare_next then some FAT_OK
              else if hare_next < FAT_FIRST_VALID_CLUSTER ||
                  hare_next ≥ u32 (FAT_FIRST_VALID_CLUSTER + volume.total_clusters) then
                some FAT_OK
              else
                let hare := hare_next
                if tortoise = hare then some FAT_ERR_CORRUPTED
                else fat_validate_chain_loop volume fuel tortoise hare

/-- `fat_validate_chain` of `fat_cluster.c`, with `fuel` iterations of its loop. -/
def fat_validate_chain (volume : fat_volume_t) (start_cluster : Nat) (fuel : Nat) :
    Option fat_error_t :=
  if start_cluster < FAT_FIRST_VALID_CLUSTER ||
      start_cluster ≥ u32 (FAT_FIRST_VALID_CLUSTER + volume.total_clusters) then
    some FAT_ERR_INVALID_CLUSTER
  else
    fat_validate_chain_loop volume fuel start_cluster start_cluster

/-! ## Block device port (`fat_block_device.h`) -/

/-- Modelled from the spec: the `read_sectors` callback of a device (§4.1): `count` sectors
starting at `sector`, or `none` when the device reports an error. -/
def read_sectors (device : fat_block_device_t) (sector count : Nat) : Option (List Nat) :=
  if device.read_ok then
    some ((List.range (count * device.sector_size)).map
      fun k => device.data (sector * device.sector_size + k))
  else
    none

/-- Modelled from the spec: the `write_sectors` callback of a device (§4.1): the device after
`count` sectors starting at `sector` have been taken from `buffer`, or `none` when the device
reports an error. -/
def write_sectors (device : fat_block_device_t) (sector count : Nat) (buffer : List Nat) :
    Option fat_block_device_t :=
  if device.write_ok then
    some { device with
      data := fun a =>
        if sector * device.sector_size ≤ a ∧ a < (sector + count) * device.sector_size then
          buffer.getD (a - sector * device.sector_size) 0
        else
          device.data a }
  else
    none

/-- `memcpy(&dst[off], src, len)` into a heap buffer `dst`: the bytes of `dst` at
`off .. off+len-1` are replaced. Bytes that the C call would store past the end of `dst`
(a heap overflow, undefined in C) land outside the buffer and are not represented. -/
def memcpy_at (dst : List Nat) (off : Nat) (src : List Nat) (len : Nat) : List Nat :=
  (List.range dst.length).map fun k =>
    if off ≤ k ∧ k < off + len then src.getD (k - off) 0 else dst.getD k 0

/-- Subtraction of `uint32_t` values. -/
def sub32 (a b : Nat) : Nat := (u32 a + 4294967296 - u32 b) % 4294967296

/-! ## Directory entries (`fat_dir.h`, `fat_dir.c`) -/

/-- The packed 32-byte `fat_dir_entry_t` of `fat_dir.h`, kept as its bytes; the same bytes are
viewed as `fat_lfn_entry_t` by the LFN code. The fields are the accessors below. -/
structure fat_dir_entry_t where
  bytes : List Nat
  deriving DecidableEq, Repr

/-- `&buffer[off]` cast to `fat_dir_entry_t *`: the 32 bytes at `off`. -/
def entry_at (buffer : List Nat) (off : Nat) : fat_dir_entry_t :=
  ⟨(List.range 32).map fun k => buffer.getD (off + k) 0⟩

namespace fat_dir_entry_t

/-- Field `name[11]` (offset 0). -/
def name (e : fat_dir_entry_t) : List Nat := (List.range 11).map fun k => e.bytes.getD k 0

/-- Field `attr` (offset 11). -/
def attr (e : fat_dir_entry_t) : Nat := e.bytes.getD 11 0

/-- Field `first_cluster_high` (offset 20). -/
def first_cluster_high (e : fat_dir_entry_t) : Nat := load16 e.bytes 20

/-- Field `first_cluster_low` (offset 26). -/
def first_cluster_low (e : fat_dir_entry_t) : Nat := load16 e.bytes 26

/-- Field `file_size` (offset 28). -/
def file_size (e : fat_dir_entry_t) : Nat := load32 e.bytes 28

/-- Assignment to field `first_cluster_high`. -/
def set_first_cluster_high (e : fat_dir_entry_t) (v : Nat) : fat_dir_entry_t :=
  ⟨store16 e.bytes 20 (u16 v)⟩

/-- Assignment to field `first_cluster_low`. -/
def set_first_cluster_low (e : fat_dir_entry_t) (v : Nat) : fat_dir_entry_t :=
  ⟨store16 e.bytes 26 (u16 v)⟩

/-- Assignment to field `file_size`. -/
def set_file_size (e : fat_dir_entry_t) (v : Nat) : fat_dir_entry_t :=
  ⟨store32 e.bytes 28 (u32 v)⟩

end fat_dir_entry_t

/-- `fat_read_dir_entry` of `fat_dir.c`. -/
def fat_read_dir_entry (volume : fat_volume_t) (sector offset : Nat) :
    Except fat_error_t fat_dir_entry_t :=
  if offset % 32 ≠ 0 then .error FAT_ERR_INVALID_PARAM
  else if offset ≥ volume.bytes_per_sector then .error FAT_ERR_INVALID_PARAM
  else
    match read_sectors volume.device sector 1 with
    | none => .error FAT_ERR_DEVICE_ERROR
    | some sector_buffer => .ok (entry_at sector_buffer offset)

/-- `fat_write_dir_entry` of `fat_dir.c`: the volume with the updated device, or the error. -/
def fat_write_dir_entry (volume : fat_volume_t) (sector offset : Nat) (entry : fat_dir_entry_t) :
    Except fat_error_t fat_volume_t :=
  if offset % 32 ≠ 0 then .error FAT_ERR_INVALID_PARAM
  else if offset ≥ volume.bytes_per_sector then .error FAT_ERR_INVALID_PARAM
  else
    match read_sectors volume.device sector 1 with
    | none => .error FAT_ERR_DEVICE_ERROR
    | some sector_buffer =>
      let sector_buffer := memcpy_at sector_buffer offset entry.bytes 32
      match write_sectors volume.device sector 1 sector_buffer with
      | none => .error FAT_ERR_DEVICE_ERROR
      | some device => .ok { volume with device := device }

/-- `fat_get_entry_cluster` of `fat_dir.c`. -/
def fat_get_entry_cluster (volume : fat_volume_t) (entry : fat_dir_entry_t) : Nat :=
  if volume.type = FAT_TYPE_FAT32 then
    u32 (entry.first_cluster_high <<< 16) ||| entry.first_cluster_low
  else
    entry.first_cluster_low

/-- `fat_set_entry_cluster` of `fat_dir.c`. -/
def fat_set_entry_cluster (volume : fat_volume_t) (entry : fat_dir_entry_t) (cluster : Nat) :
    fat_dir_entry_t :=
  let entry := entry.set_first_cluster_low (cluster &&& 0xFFFF)
  if volume.type = FAT_TYPE_FAT32 then
    entry.set_first_cluster_high ((cluster >>> 16) &&& 0xFFFF)
  else
    entry.set_first_cluster_high 0

/-! ## Cluster to sector (`fat_root.c`) -/

/-- `fat_cluster_to_sector` of `fat_root.c`. -/
def fat_cluster_to_sector (volume : fat_volume_t) (cluster : Nat) : Nat :=
  if cluster < FAT_FIRST_VALID_CLUSTER then 0
  else
    let cluster_offset := cluster - FAT_FIRST_VALID_CLUSTER
    let sector_offset := u32 (cluster_offset * volume.sectors_per_cluster)
    let first_sector := u32 (volume.data_begin_sector + sector_offset)
    first_sector

/-! ## File handle (`fat_file.h`) -/

/-- Modelled from the spec: open flag `RDONLY` of the absent `fat_types.h` (§6: a bitfield;
the flags are taken as distinct single bits). -/
def FAT_O_RDONLY : Nat := 0x01

/-- Modelled from the spec: open flag `WRONLY` of the absent `fat_types.h` (§6). -/
def FAT_O_WRONLY : Nat := 0x02

/-- Modelled from the spec: open flag `RDWR` of the absent `fat_types.h` (§6). -/
def FAT_O_RDWR : Nat := 0x04

/-- Modelled from the spec: open flag `CREATE` of the absent `fat_types.h` (§6). -/
def FAT_O_CREATE : Nat := 0x08

/-- Modelled from the spec: open flag `TRUNC` of the absent `fat_types.h` (§6). -/
def FAT_O_TRUNC : Nat := 0x10

/-- Modelled from the spec: seek origin `SET` of the absent `fat_types.h` (§6). -/
def FAT_SEEK_SET : Nat := 0

/-- Modelled from the spec: seek origin `CUR` of the absent `fat_types.h` (§6). -/
def FAT_SEEK_CUR : Nat := 1

/-- Modelled from the spec: seek origin `END` of the absent `fat_types.h` (§6). -/
def FAT_SEEK_END : Nat := 2

/-- Modelled from the spec: `UINT32_MAX` of `<limits.h>`/`<stdint.h>`. -/
def UINT32_MAX : Nat := 4294967295

/-- `fat_file_t` of `fat_file.h`. The C handle points to its volume; here the handle carries
the volume, so that the effects of an operation on the FAT cache and on the device are part
of the handle it returns. -/
structure fat_file_t where
  volume : fat_volume_t
  dir_entry : fat_dir_entry_t
  current_cluster : Nat
  position : Nat
  dir_cluster : Nat
  dir_entry_offset : Nat
  flags : Nat
  modified : Bool
  cluster_offset : Nat

/-- The `int` returned by `fat_read`/`fat_write`: `.ok n` is the byte count `n`, `.error e`
is the negated error code `-e`. -/
abbrev io_result := Except fat_error_t Nat

/-! ## Reading (`fat_file_read.c`) -/

/-- `fat_calculate_cluster_position` of `fat_file_read.c`: `(cluster_index, cluster_offset)`. -/
def fat_calculate_cluster_position (volume : fat_volume_t) (position : Nat) : Nat × Nat :=
  (position / volume.bytes_per_cluster, position % volume.bytes_per_cluster)

/-- The `for` loop of `fat_walk_cluster_chain`; the first argument is `target_index - i`. -/
def fat_walk_cluster_chain_loop (volume : fat_volume_t) : Nat → Nat → Except fat_error_t Nat
  | 0, current_cluster => .ok current_cluster
  | n + 1, current_cluster =>
    if current_cluster < 2 || current_cluster ≥ u32 (volume.total_clusters + 2) then
      .error FAT_ERR_INVALID_CLUSTER
    else if fat_is_eoc volume current_cluster then
      .error FAT_ERR_EOF
    else
      match fat_get_next_cluster volume current_cluster with
      | .error err => .error err
      | .ok current_cluster => fat_walk_cluster_chain_loop volume n current_cluster

/-- `fat_walk_cluster_chain` of `fat_file_read.c`. -/
def fat_walk_cluster_chain (volume : fat_volume_t) (start_cluster target_index : Nat) :
    Except fat_error_t Nat :=
  fat_walk_cluster_chain_loop volume target_index start_cluster

/-- `fat_seek_to_position` of `fat_file_read.c` (and, identically, of `fat_file_seek.c`). -/
def fat_seek_to_position (file : fat_file_t) (target_position : Nat) :
    fat_error_t × fat_file_t :=
  if target_position > file.dir_entry.file_size then (FAT_ERR_INVALID_PARAM, file)
  else
    let (target_cluster_index, target_cluster_offset) :=
      fat_calculate_cluster_position file.volume target_position
    let (current_cluster_index, _) :=
      fat_calculate_cluster_position file.volume file.position
    let new_cluster : Except fat_error_t Nat :=
      if target_cluster_index = current_cluster_index then
        .ok file.current_cluster
      else if target_cluster_index > current_cluster_index then
        let clusters_to_advance := target_cluster_index - current_cluster_index
        fat_walk_cluster_chain file.volume file.current_cluster clusters_to_advance
      else
        let start_cluster := fat_get_entry_cluster file.volume file.dir_entry
        fat_walk_cluster_chain file.volume start_cluster target_cluster_index
    match new_cluster with
    | .error err => (err, file)
    | .ok new_cluster =>
      (FAT_OK, { file with position := target_position, current_cluster := new_cluster,
                           cluster_offset := target_cluster_offset })

/-- `fat_read_cluster_data` of `fat_file_read.c`: the `length` bytes copied to `buffer`
(`malloc` is taken to succeed). -/
def fat_read_cluster_data (volume : fat_volume_t) (cluster offset length : Nat) :
    Except fat_error_t (List Nat) :=
  if length = 0 then .error FAT_ERR_INVALID_PARAM
  else if cluster < 2 || cluster ≥ u32 (volume.total_clusters + 2) then
    .error FAT_ERR_INVALID_PARAM
  else if offset ≥ volume.bytes_per_cluster then .error FAT_ERR_INVALID_PARAM
  else
    let length :=
      if offset + length > volume.bytes_per_cluster then volume.bytes_per_cluster - offset
      else length
    let first_sector := fat_cluster_to_sector volume cluster
    let start_sector := u32 (first_sector + offset / volume.bytes_per_sector)
    let end_sector := u32 (first_sector + (offset + length - 1) / volume.bytes_per_sector)
    let sectors_to_read := u32 (sub32 end_sector start_sector + 1)
    match read_sectors volume.device start_sector sectors_to_read with
    | none => .error FAT_ERR_DEVICE_ERROR
    | some sector_buffer =>
      let buffer_offset := offset % volume.bytes_per_sector
      .ok ((List.range length).map fun k => sector_buffer.getD (buffer_offset + k) 0)

/-- The `while(remaining > 0)` loop of `fat_read` followed by the function's tail; `out` are
the bytes stored to `output_buffer[0 .. bytes_read)`. One iteration per unit of fuel. -/
def fat_read_loop : Nat → fat_file_t → Nat → Nat → List Nat →
    Option (io_result × fat_file_t × List Nat)
  | fuel, file, remaining, bytes_read, out =>
    let finish (file : fat_file_t) (bytes_read : Nat) (out : List Nat) :
        Option (io_result × fat_file_t × List Nat) :=
      some (.ok bytes_read, { file with position := u32 (file.position + bytes_read) }, out)
    if remaining = 0 then finish file bytes_read out
    else
      match fuel with
      | 0 => none
      | fuel + 1 =>
        let cluster_remaining := sub32 file.volume.bytes_per_cluster file.cluster_offset
        let chunk_size := if remaining < cluster_remaining then remaining else cluster_remaining
        match fat_read_cluster_data file.volume file.current_cluster file.cluster_offset
            chunk_size with
        | .error err => some (if bytes_read > 0 then .ok bytes_read else .error err, file, out)
        | .ok data =>
          let out := out ++ data
          let bytes_read := bytes_read + chunk_size
          let remaining := remaining - chunk_size
          let file := { file with cluster_offset := u32 (file.cluster_offset + chunk_size) }
          if file.cluster_offset ≥ file.volume.bytes_per_cluster && remaining > 0 then
            match fat_get_next_cluster file.volume file.current_cluster with
            | .error _ => finish file bytes_read out
            | .ok next_cluster =>
              if fat_is_eoc file.volume next_cluster then finish file bytes_read out
              else
                fat_read_loop fuel { file with current_cluster := next_cluster,
                                               cluster_offset := 0 } remaining bytes_read out
          else
            fat_read_loop fuel file remaining bytes_read out

/-- `fat_read` of `fat_file_read.c`: the returned `int`, the handle afterwards and the bytes
delivered to `buffer`. -/
def fat_read (file : fat_file_t) (size : Nat) (fuel : Nat) :
    Option (io_result × fat_file_t × List Nat) :=
  if size = 0 then some (.error FAT_ERR_INVALID_PARAM, file, [])
  else if file.flags &&& (FAT_O_RDONLY ||| FAT_O_RDWR) = 0 then
    some (.error FAT_ERR_INVALID_PARAM, file, [])
  else if file.position ≥ file.dir_entry.file_size then some (.ok 0, file, [])
  else
    let available := file.dir_entry.file_size - file.position
    let size := if size > available then available else size
    if size = 0 then some (.ok 0, file, [])
    else
      match fat_seek_to_position file file.position with
      | (.FAT_OK, file) => fat_read_loop fuel file size 0 []
      | (err, file) => some (.error err, file, [])

/-! ## Writing (`fat_file_write.c`) -/

/-- `fat_calculate_clusters_needed` of `fat_file_write.c`. -/
def fat_calculate_clusters_needed (volume : fat_volume_t) (file_size : Nat) : Nat :=
  if file_size = 0 then 1
  else u32 (file_size + volume.bytes_per_cluster - 1) / volume.bytes_per_cluster

/-- The `while(1)` loop of `fat_find_last_cluster`, one iteration per unit of fuel. -/
def fat_find_last_cluster_loop (volume : fat_volume_t) :
    Nat → Nat → Option (Except fat_error_t Nat)
  | 0, _ => none
  | fuel + 1, current_cluster =>
    match fat_read_entry volume current_cluster with
    | .error err => some (.error err)
    | .ok fat_entry =>
      if fat_is_eoc volume fat_entry then some (.ok current_cluster)
      else
        let current_cluster := fat_entry
        if current_cluster < 2 || current_cluster ≥ u32 (volume.total_clusters + 2) then
          some (.error FAT_ERR_CORRUPTED)
        else fat_find_last_cluster_loop volume fuel current_cluster

/-- `fat_find_last_cluster` of `fat_file_write.c`; its parameter check rejects every
non-zero `start_cluster` (`|| start_cluster`). -/
def fat_find_last_cluster (volume : fat_volume_t) (start_cluster : Nat) (fuel : Nat) :
    Option (Except fat_error_t Nat) :=
  if start_cluster ≠ 0 then some (.error FAT_ERR_INVALID_PARAM)
  else fat_find_last_cluster_loop volume fuel start_cluster

/-- `fat_allocate_and_link_cluster` of `fat_file_write.c`: the volume as left behind and the
cluster stored through `*new_cluster`, or the error. -/
def fat_allocate_and_link_cluster (volume : fat_volume_t) (prev_cluster : Nat) :
    fat_volume_t × Except fat_error_t Nat :=
  if prev_cluster < 2 then (volume, .error FAT_ERR_INVALID_PARAM)
  else
    match fat_allocate_cluster volume with
    | .error err => (volume, .error err)
    | .ok (volume, allocated_cluster) =>
      match fat_write_entry volume allocated_cluster (eoc_marker volume) with
      | .error err =>
        let volume := (fat_write_entry volume allocated_cluster FAT_FREE).toOption.getD volume
        (volume, .error err)
      | .ok volume =>
        match fat_write_entry volume prev_cluster allocated_cluster with
        | .error err =>
          let volume := (fat_write_entry volume allocated_cluster FAT_FREE).toOption.getD volume
          let volume :=
            (fat_write_entry volume prev_cluster (eoc_marker volume)).toOption.getD volume
          (volume, .error err)
        | .ok volume => (volume, .ok allocated_cluster)

/-- The `for` loop of `fat_extend_file`; the first argument is `clusters_to_add - i`. -/
def fat_extend_file_loop : Nat → fat_volume_t → Nat → fat_error_t × fat_volume_t
  | 0, volume, _ => (FAT_OK, volume)
  | n + 1, volume, current_last =>
    match fat_allocate_and_link_cluster volume current_last with
    | (volume, .error err) => (err, volume)
    | (volume, .ok new_cluster) => fat_extend_file_loop n volume new_cluster

/-- `fat_extend_file` of `fat_file_write.c`. -/
def fat_extend_file (file : fat_file_t) (new_size : Nat) (fuel : Nat) :
    Option (fat_error_t × fat_file_t) :=
  if new_size ≤ file.dir_entry.file_size then some (FAT_ERR_INVALID_PARAM, file)
  else
    let clusters_needed := fat_calculate_clusters_needed file.volume new_size
    let current_clusters := fat_calculate_clusters_needed file.volume file.dir_entry.file_size
    if clusters_needed ≤ current_clusters then some (FAT_OK, file)
    else
      let clusters_to_add := clusters_needed - current_clusters
      let start_cluster := fat_get_entry_cluster file.volume file.dir_entry
      if start_cluster = 0 then
        match fat_allocate_cluster file.volume with
        | .error err => some (err, file)
        | .ok (volume, start_cluster) =>
          let volume :=
            (fat_write_entry volume start_cluster (eoc_marker volume)).toOption.getD volume
          let file := { file with
            volume := volume,
            dir_entry := fat_set_entry_cluster volume file.dir_entry start_cluster,
            current_cluster := start_cluster }
          let clusters_to_add := clusters_to_add - 1
          let last_cluster := start_cluster
          match fat_extend_file_loop clusters_to_add file.volume last_cluster with
          | (err, volume) => some (err, { file with volume := volume })
      else
        match fat_find_last_cluster file.volume start_cluster fuel with
        | none => none
        | some (.error err) => some (err, file)
        | some (.ok last_cluster) =>
          match fat_extend_file_loop clusters_to_add file.volume last_cluster with
          | (err, volume) => some (err, { file with volume := volume })

/-- `fat_write_cluster_data` of `fat_file_write.c`: the status and the volume with the device
as left behind (`malloc` is taken to succeed). `buffer` holds the bytes from the `buffer`
pointer on. -/
def fat_write_cluster_data (volume : fat_volume_t) (cluster offset : Nat) (buffer : List Nat)
    (length : Nat) : fat_error_t × fat_volume_t :=
  if length = 0 then (FAT_ERR_INVALID_PARAM, volume)
  else if cluster < 2 || cluster ≥ u32 (volume.total_clusters + 2) then
    (FAT_ERR_INVALID_CLUSTER, volume)
  else if offset ≥ volume.bytes_per_cluster then (FAT_ERR_INVALID_PARAM, volume)
  else
    let length :=
      if offset + length > volume.bytes_per_cluster then volume.bytes_per_cluster - offset
      else length
    let first_sector := fat_cluster_to_sector volume cluster
    let start_sector := u32 (first_sector + offset / volume.bytes_per_sector)
    let end_sector := u32 (first_sector + (offset + length - 1) / volume.bytes_per_sector)
    let sectors_to_write := u32 (sub32 end_sector start_sector + 1)
    let sector_start_offset := u32 (offset * volume.bytes_per_sector)
    let complete_sectors := sector_start_offset = 0 ∧
      length = u32 (sectors_to_write * volume.bytes_per_sector)
    if complete_sectors then
      match write_sectors volume.device start_sector sectors_to_write buffer with
      | none => (FAT_ERR_DEVICE_ERROR, volume)
      | some device => (FAT_OK, { volume with device := device })
    else
      match read_sectors volume.device start_sector sectors_to_write with
      | none => (FAT_ERR_DEVICE_ERROR, volume)
      | some sector_buffer =>
        let sector_buffer := memcpy_at sector_buffer sector_start_offset buffer length
        match write_sectors volume.device start_sector sectors_to_write sector_buffer with
        | none => (FAT_ERR_DEVICE_ERROR, volume)
        | some device => (FAT_OK, { volume with device := device })

/-- The `while(remaining > 0)` loop of `fat_write` followed by the function's tail;
`input` holds the bytes from `&input_buffer[bytes_written]` on. One iteration per unit of
fuel. -/
def fat_write_loop : Nat → fat_file_t → List Nat → Nat → Nat → Option (io_result × fat_file_t)
  | fuel, file, input, remaining, bytes_written =>
    let finish (file : fat_file_t) (bytes_written : Nat) : Option (io_result × fat_file_t) :=
      let file := { file with position := u32 (file.position + bytes_written) }
      let file :=
        if file.position > file.dir_entry.file_size then
          { file with dir_entry := file.dir_entry.set_file_size file.position }
        else file
      some (.ok bytes_written, { file with modified := true })
    if remaining = 0 then finish file bytes_written
    else
      match fuel with
      | 0 => none
      | fuel + 1 =>
        let cluster_remaining := sub32 file.volume.bytes_per_cluster file.cluster_offset
        let chunk_size := if remaining < cluster_remaining then remaining else cluster_remaining
        match fat_write_cluster_data file.volume file.current_cluster file.cluster_offset
            input chunk_size with
        | (.FAT_OK, volume) =>
          let file := { file with volume := volume }
          let bytes_written := bytes_written + chunk_size
          let remaining := remaining - chunk_size
          let input := input.drop chunk_size
          let file := { file with cluster_offset := u32 (file.cluster_offset + chunk_size) }
          if file.cluster_offset ≥ file.volume.bytes_per_cluster && remaining > 0 then
            match fat_get_next_cluster file.volume file.current_cluster with
            | .error _ => finish file bytes_written
            | .ok next_cluster =>
              if fat_is_eoc file.volume next_cluster then finish file bytes_written
              else
                fat_write_loop fuel { file with current_cluster := next_cluster,
                                                cluster_offset := 0 } input remaining
                  bytes_written
          else
            fat_write_loop fuel file input remaining bytes_written
        | (err, volume) =>
          some (if bytes_written > 0 then .ok bytes_written else .error err,
                { file with volume := volume })

/-- `fat_write` of `fat_file_write.c`: the returned `int` and the handle afterwards. -/
def fat_write (file : fat_file_t) (buffer : List Nat) (size : Nat) (fuel : Nat) :
    Option (io_result × fat_file_t) :=
  if size = 0 then some (.error FAT_ERR_INVALID_PARAM, file)
  else if file.flags &&& (FAT_O_WRONLY ||| FAT_O_RDWR) = 0 then
    some (.error FAT_ERR_INVALID_PARAM, file)
  else
    let write_end_position := u32 (file.position + size)
    let extended : Option (Option fat_error_t × fat_file_t × Nat) :=
      if write_end_position > file.dir_entry.file_size then
        match fat_extend_file file write_end_position fuel with
        | none => none
        | some (.FAT_OK, file) => some (none, file, size)
        | some (err, file) =>
          if file.position ≥ file.dir_entry.file_size then some (some err, file, size)
          else some (none, file, file.dir_entry.file_size - file.position)
      else some (none, file, size)
    match extended with
    | none => none
    | some (some err, file, _) => some (.error err, file)
    | some (none, file, size) =>
      match fat_seek_to_position file file.position with
      | (.FAT_OK, file) => fat_write_loop fuel file buffer size 0
      | (err, file) => some (.error err, file)

/-! ## Seeking (`fat_file_seek.c`) -/

/-- `fat_validate_seek_parameters` of `fat_file_seek.c`. -/
def fat_validate_seek_parameters (file : fat_file_t) (_offset : Int) (whence : Nat) : Bool :=
  if whence ≠ FAT_SEEK_SET ∧ whence ≠ FAT_SEEK_CUR ∧ whence ≠ FAT_SEEK_END then false
  else if file.position > file.dir_entry.file_size then false
  else true

/-- `fat_calculate_target_position` of `fat_file_seek.c`; `new_position` is an `int64_t`,
which holds every sum of a `uint32_t` and an `int32_t` exactly. -/
def fat_calculate_target_position (file : fat_file_t) (offset : Int) (whence : Nat) :
    Except fat_error_t Nat :=
  let new_position : Except fat_error_t Int :=
    if whence = FAT_SEEK_SET then
      if offset < 0 then .error FAT_ERR_INVALID_PARAM else .ok offset
    else if whence = FAT_SEEK_CUR then .ok ((file.position : Int) + offset)
    else if whence = FAT_SEEK_END then .ok ((file.dir_entry.file_size : Int) + offset)
    else .error FAT_ERR_INVALID_PARAM
  match new_position with
  | .error err => .error err
  | .ok new_position =>
    if new_position < 0 then .error FAT_ERR_INVALID_PARAM
    else if new_position > (UINT32_MAX : Int) then .error FAT_ERR_INVALID_PARAM
    else .ok new_position.toNat

/-- `fat_optimize_cluster_seek` of `fat_file_seek.c`. -/
def fat_optimize_cluster_seek (file : fat_file_t) (target_position : Nat) :
    fat_error_t × fat_file_t :=
  let target_cluster_index := target_position / file.volume.bytes_per_cluster
  let target_cluster_offset := target_position % file.volume.bytes_per_cluster
  let current_cluster_index := file.position / file.volume.bytes_per_cluster
  let new_cluster : Except fat_error_t Nat :=
    if target_cluster_index = current_cluster_index then
      .ok file.current_cluster
    else if target_cluster_index > current_cluster_index then
      let clusters_to_advance := target_cluster_index - current_cluster_index
      if current_cluster_index < clusters_to_advance / 2 then
        let start_cluster := fat_get_entry_cluster file.volume file.dir_entry
        fat_walk_cluster_chain file.volume start_cluster target_cluster_index
      else
        fat_walk_cluster_chain file.volume file.current_cluster clusters_to_advance
    else
      let start_cluster := fat_get_entry_cluster file.volume file.dir_entry
      fat_walk_cluster_chain file.volume start_cluster target_cluster_index
  match new_cluster with
  | .error err => (err, file)
  | .ok new_cluster =>
    (FAT_OK, { file with current_cluster := new_cluster,
                         cluster_offset := target_cluster_offset })

/-- `fat_seek` of `fat_file_seek.c`; `offset` is an `int32_t`. -/
def fat_seek (file : fat_file_t) (offset : Int) (whence : Nat) : fat_error_t × fat_file_t :=
  if !fat_validate_seek_parameters file offset whence then (FAT_ERR_INVALID_PARAM, file)
  else
    match fat_calculate_target_position file offset whence with
    | .error err => (err, file)
    | .ok target_position =>
      if target_position = file.position then (FAT_OK, file)
      else if file.dir_entry.file_size = 0 then
        if target_position = 0 then
          (FAT_OK, { file with position := 0, cluster_offset := 0 })
        else
          (FAT_OK, { file with position := target_position, cluster_offset := 0 })
      else
        match fat_optimize_cluster_seek file target_position with
        | (.FAT_OK, file) => (FAT_OK, { file with position := target_position })
        | (err, file) => (err, file)

/-- `fat_tell` of `fat_file_seek.c`. -/
def fat_tell (file : fat_file_t) : Nat := file.position

/-! ## Long file names (`fat_lfn.c`) -/

/-- Modelled from the spec: first name byte of an end-of-directory slot (§3: 0x00). -/
def FAT_DIR_ENTRY_FREE : Nat := 0x00

/-- Modelled from the spec: first name byte of a deleted slot (§3: 0xE5). -/
def FAT_DIR_ENTRY_DELETED : Nat := 0xE5

/-- Modelled from the spec: attribute value of an LFN component (§3: 0x0F). -/
def FAT_ATTR_LONG_NAME : Nat := 0x0F

/-- Modelled from the spec: attribute bit volume-id (§3: 0x08). -/
def FAT_ATTR_VOLUME_ID : Nat := 0x08

namespace fat_dir_entry_t

/-- Field `order` of the `fat_lfn_entry_t` view (offset 0). -/
def order (e : fat_dir_entry_t) : Nat := e.bytes.getD 0 0

/-- Field `name1[10]` of the `fat_lfn_entry_t` view (offset 1). -/
def name1 (e : fat_dir_entry_t) : List Nat := (List.range 10).map fun k => e.bytes.getD (1 + k) 0

/-- Field `checksum` of the `fat_lfn_entry_t` view (offset 13). -/
def checksum (e : fat_dir_entry_t) : Nat := e.bytes.getD 13 0

/-- Field `name2[12]` of the `fat_lfn_entry_t` view (offset 14). -/
def name2 (e : fat_dir_entry_t) : List Nat :=
  (List.range 12).map fun k => e.bytes.getD (14 + k) 0

/-- Field `name3[4]` of the `fat_lfn_entry_t` view (offset 28). -/
def name3 (e : fat_dir_entry_t) : List Nat := (List.range 4).map fun k => e.bytes.getD (28 + k) 0

end fat_dir_entry_t

/-- One of the three extraction loops of `fat_parse_lfn` over a name field holding `n`
characters from index `i` on: `.error` carries the characters at an early `return FAT_OK`
(terminator or padding met), `.ok` the characters when the loop runs to its end. -/
def fat_parse_lfn_field (field : List Nat) : Nat → Nat → List Nat → Except (List Nat) (List Nat)
  | 0, _, acc => .ok acc
  | n + 1, i, acc =>
    let ch := field.getD i 0 ||| (field.getD (i + 1) 0 <<< 8)
    if ch = 0x0000 ∨ ch = 0xFFFF then .error acc
    else fat_parse_lfn_field field n (i + 2) (acc ++ [ch])

/-- `fat_parse_lfn` of `fat_lfn.c`: the characters stored to `name_buffer`; `chars_written`
is their number. -/
def fat_parse_lfn (lfn_entry : fat_dir_entry_t) : Except fat_error_t (List Nat) :=
  if lfn_entry.attr ≠ FAT_ATTR_LONG_NAME then .error FAT_ERR_INVALID_PARAM
  else
    match fat_parse_lfn_field lfn_entry.name1 5 0 [] with
    | .error acc => .ok acc
    | .ok acc =>
      match fat_parse_lfn_field lfn_entry.name2 6 0 acc with
      | .error acc => .ok acc
      | .ok acc =>
        match fat_parse_lfn_field lfn_entry.name3 2 0 acc with
        | .error acc => .ok acc
        | .ok acc => .ok acc

/-- `fat_calculate_lfn_checksum` of `fat_lfn.c`. -/
def fat_calculate_lfn_checksum (short_name : List Nat) : Nat :=
  (List.range 11).foldl
    (fun checksum i =>
      u8 ((if checksum &&& 1 ≠ 0 then 0x80 else 0) + (checksum >>> 1) + short_name.getD i 0))
    0

/-- The cluster-chain walk inside `fat_read_lfn_sequence`; the first argument is
`cluster_index - i`. -/
def fat_read_lfn_walk (volume : fat_volume_t) : Nat → Nat → Except fat_error_t Nat
  | 0, target_cluster => .ok target_cluster
  | n + 1, target_cluster =>
    match fat_get_next_cluster volume target_cluster with
    | .error _ => .error FAT_ERR_CORRUPTED
    | .ok target_cluster =>
      if fat_is_eoc volume target_cluster then .error FAT_ERR_CORRUPTED
      else fat_read_lfn_walk volume n target_cluster

/-- The state of the backward loop of `fat_read_lfn_sequence` when the loop is left. -/
structure lfn_scan_t where
  utf16_buffer : List Nat
  found_first : Bool
  current_index : Nat

/-- The `while(current_index > 0)` loop of `fat_read_lfn_sequence`; the first argument is
`current_index`. The 256-element `utf16_buffer` is an unbounded list. -/
def fat_read_lfn_sequence_loop (volume : fat_volume_t) (dir_cluster expected_checksum : Nat) :
    Nat → Nat → Bool → List Nat → Except fat_error_t lfn_scan_t
  | 0, _, found_first, utf16_buffer => .ok ⟨utf16_buffer, found_first, 0⟩
  | current_index + 1, expected_order, found_first, utf16_buffer =>
    let is_root_fat1216 := dir_cluster = 0 ∧ volume.type ≠ FAT_TYPE_FAT32
    let entries_per_cluster := volume.bytes_per_cluster / 32
    let location : Except fat_error_t (Nat × Nat) :=
      if is_root_fat1216 then
        let entries_per_sector := volume.bytes_per_sector / 32
        let root_start := u32 (volume.reserved_sector_count +
          u32 (volume.num_fats * volume.fat_size_sectors))
        .ok (u32 (root_start + current_index / entries_per_sector),
             current_index % entries_per_sector)
      else
        let cluster_index := current_index / entries_per_cluster
        let entry_offset := current_index % entries_per_cluster
        match fat_read_lfn_walk volume cluster_index dir_cluster with
        | .error err => .error err
        | .ok target_cluster =>
          let sector := u32 (volume.data_begin_sector +
            u32 (sub32 target_cluster 2 * volume.sectors_per_cluster))
          .ok (u32 (sector + entry_offset / volume.bytes_per_sector),
               entry_offset % volume.bytes_per_sector)
    match location with
    | .error err => .error err
    | .ok (sector, entry_offset) =>
      match fat_read_dir_entry volume sector entry_offset with
      | .error err => .error err
      | .ok lfn_entry =>
        if lfn_entry.attr ≠ FAT_ATTR_LONG_NAME then
          .ok ⟨utf16_buffer, found_first, current_index⟩
        else if lfn_entry.checksum ≠ expected_checksum then .error FAT_ERR_CORRUPTED
        else
          let first := lfn_entry.order &&& 0x40 ≠ 0
          let found_first := if first then true else found_first
          let expected_order := if first then lfn_entry.order &&& 0x3F else expected_order
          if lfn_entry.order &&& 0x3F ≠ expected_order then .error FAT_ERR_CORRUPTED
          else
            match fat_parse_lfn lfn_entry with
            | .error err => .error err
            | .ok entry_chars =>
              let utf16_buffer := entry_chars ++ utf16_buffer
              let expected_order := u8 (expected_order + 255)
              if expected_order = 0 then .ok ⟨utf16_buffer, found_first, current_index⟩
              else
                fat_read_lfn_sequence_loop volume dir_cluster expected_checksum current_index
                  expected_order found_first utf16_buffer

/-- `fat_read_lfn_sequence` of `fat_lfn.c`: the file name stored to `filename_buffer`
(without its terminating NUL) and the value stored back to `*entry_index`. -/
def fat_read_lfn_sequence (volume : fat_volume_t) (dir_cluster entry_index buffer_size
    expected_checksum : Nat) : Except fat_error_t (List Nat × Nat) :=
  if buffer_size = 0 then .error FAT_ERR_INVALID_PARAM
  else
    match fat_read_lfn_sequence_loop volume dir_cluster expected_checksum entry_index 1 false []
    with
    | .error err => .error err
    | .ok scan =>
      if !scan.found_first then .error FAT_ERR_CORRUPTED
      else
        let filename := (scan.utf16_buffer.take (buffer_size - 1)).map fun ch =>
          if ch < 0x80 then ch else 0x3F
        .ok (filename, scan.current_index)

/-! ## Directory search (`fat_dir_search.c`) -/

/-- `tolower` of `<ctype.h>` in the "C" locale. -/
def tolower (c : Nat) : Nat := if 0x41 ≤ c ∧ c ≤ 0x5A then c + 0x20 else c

/-- The C string that starts at the beginning of a `char` array: the bytes before the first
NUL. -/
def cstring (bytes : List Nat) : List Nat := bytes.takeWhile fun b => b ≠ 0

/-- The loops `while(len > 0 && field[len-1] == ' ') len--` of `fat_compare_short_name`,
started with `len`. -/
def trim_trailing_spaces (field : List Nat) : Nat → Nat
  | 0 => 0
  | len + 1 => if field.getD len 0 = 0x20 then trim_trailing_spaces field len else len + 1

/-- The comparison loop `tolower(a[i]) != tolower(b[i])` over `i < strlen(a)`, used by
`fat_compare_short_name` and by the long-name comparison of `fat_find_entry`. -/
def equal_ignoring_case (a b : List Nat) : Bool :=
  (List.range a.length).all fun i => tolower (a.getD i 0) = tolower (b.getD i 0)

/-- `fat_compare_short_name` of `fat_dir_search.c`; `filename` holds the bytes of the C string
without its terminating NUL. -/
def fat_compare_short_name (short_name : List Nat) (filename : List Nat) : Bool :=
  let name_len := trim_trailing_spaces short_name 8
  let name_part := short_name.take name_len
  let ext_len := trim_trailing_spaces (short_name.drop 8) 3
  let ext_part := (short_name.drop 8).take ext_len
  let full_name :=
    if ext_len > 0 then cstring name_part ++ [0x2E] ++ cstring ext_part
    else cstring name_part
  if filename.length ≠ full_name.length then false
  else equal_ignoring_case filename full_name

/-- Outcome of the `for` loop over the entries of one buffer: the enclosing function has
returned `r`, or the loop was left with the given `entry_idx`. -/
inductive scan_t (α : Type) where
  | returned (r : α)
  | next (entry_idx : Nat)

/-- The `for(i = buffer_entry_idx; i < entries_in_buffer; i++)` loop of `fat_find_entry`; the
first argument is `entries_in_buffer - i`. -/
def fat_find_entry_scan (volume : fat_volume_t) (dir_cluster : Nat) (name : List Nat)
    (read_buffer : List Nat) :
    Nat → Nat → Nat → scan_t (Except fat_error_t (fat_dir_entry_t × Nat))
  | 0, _, entry_idx => .next entry_idx
  | n + 1, i, entry_idx =>
    let is_root_fat12 := dir_cluster = 0 ∧ volume.type ≠ FAT_TYPE_FAT32
    let max_root_entries := if is_root_fat12 then volume.root_entry_count else 0
    if is_root_fat12 ∧ entry_idx ≥ max_root_entries then .next entry_idx
    else
      let current_entry := entry_at read_buffer (i * 32)
      if current_entry.bytes.getD 0 0 = FAT_DIR_ENTRY_FREE then
        .returned (.error FAT_ERR_NOT_FOUND)
      else if current_entry.bytes.getD 0 0 = FAT_DIR_ENTRY_DELETED then
        fat_find_entry_scan volume dir_cluster name read_buffer n (i + 1) (u32 (entry_idx + 1))
      else if current_entry.attr = FAT_ATTR_LONG_NAME then
        fat_find_entry_scan volume dir_cluster name read_buffer n (i + 1) (u32 (entry_idx + 1))
      else if current_entry.attr &&& FAT_ATTR_VOLUME_ID ≠ 0 then
        fat_find_entry_scan volume dir_cluster name read_buffer n (i + 1) (u32 (entry_idx + 1))
      else if fat_compare_short_name current_entry.name name then
        .returned (.ok (current_entry, entry_idx))
      else
        let long_match : Bool :=
          if entry_idx > 0 then
            let checksum := fat_calculate_lfn_checksum current_entry.name
            match fat_read_lfn_sequence volume dir_cluster entry_idx 256 checksum with
            | .error _ => false
            | .ok (long_filename, _) =>
              decide (name.length = long_filename.length) &&
                equal_ignoring_case name long_filename
          else false
        if long_match then .returned (.ok (current_entry, entry_idx))
        else
          fat_find_entry_scan volume dir_cluster name read_buffer n (i + 1)
            (u32 (entry_idx + 1))

/-- The `while(1)` loop of `fat_find_entry`, one iteration (one buffer) per unit of fuel. -/
def fat_find_entry_loop (volume : fat_volume_t) (dir_cluster : Nat) (name : List Nat) :
    Nat → Nat → Nat → Option (Except fat_error_t (fat_dir_entry_t × Nat))
  | 0, _, _ => none
  | fuel + 1, current_cluster, entry_idx =>
    let is_root_fat12 := dir_cluster = 0 ∧ volume.type ≠ FAT_TYPE_FAT32
    let entries_per_cluster := volume.bytes_per_cluster / 32
    let entries_per_sector := volume.bytes_per_sector / 32
    let max_root_entries := if is_root_fat12 then volume.root_entry_count else 0
    let root_start_sector :=
      if is_root_fat12 then
        u32 (volume.reserved_sector_count + u32 (volume.num_fats * volume.fat_size_sectors))
      else 0
    let buffer : Except fat_error_t (List Nat × Nat) :=
      if is_root_fat12 then
        if entry_idx ≥ max_root_entries then .error FAT_ERR_NOT_FOUND
        else
          let sector := u32 (root_start_sector + entry_idx / entries_per_sector)
          match read_sectors volume.device sector 1 with
          | none => .error FAT_ERR_DEVICE_ERROR
          | some read_buffer => .ok (read_buffer, entries_per_sector)
      else
        if current_cluster = 0 ∨ fat_is_eoc volume current_cluster = true then
          .error FAT_ERR_NOT_FOUND
        else
          let sector := fat_cluster_to_sector volume current_cluster
          match read_sectors volume.device sector volume.sectors_per_cluster with
          | none => .error FAT_ERR_DEVICE_ERROR
          | some read_buffer => .ok (read_buffer, entries_per_cluster)
    match buffer with
    | .error err => some (.error err)
    | .ok (read_buffer, entries_in_buffer) =>
      let buffer_entry_idx := entry_idx % entries_in_buffer
      match fat_find_entry_scan volume dir_cluster name read_buffer
          (entries_in_buffer - buffer_entry_idx) buffer_entry_idx entry_idx with
      | .returned r => some r
      | .next entry_idx =>
        let next_cluster : Except fat_error_t Nat :=
          if ¬ is_root_fat12 then fat_get_next_cluster volume current_cluster
          else .ok current_cluster
        match next_cluster with
        | .error err => some (.error err)
        | .ok current_cluster =>
          let entry_idx :=
            if is_root_fat12 then u32 ((entry_idx / entries_per_sector + 1) * entries_per_sector)
            else u32 ((entry_idx / entries_per_cluster + 1) * entries_per_cluster)
          fat_find_entry_loop volume dir_cluster name fuel current_cluster entry_idx

/-- `fat_find_entry` of `fat_dir_search.c`: the entry copied to `*entry` and the index stored
to `*entry_index`, or the error (`malloc` is taken to succeed). -/
def fat_find_entry (volume : fat_volume_t) (dir_cluster : Nat) (name : List Nat) (fuel : Nat) :
    Option (Except fat_error_t (fat_dir_entry_t × Nat)) :=
  fat_find_entry_loop volume dir_cluster name fuel dir_cluster 0

/-- The type of `fat_dir_iterator_callback` (`fat_dir_search.h`): entry, long name (or NULL),
entry index and the user data `σ`; it returns its status and the user data afterwards. -/
abbrev fat_dir_iterator_callback (σ : Type) :=
  fat_dir_entry_t → Option (List Nat) → Nat → σ → fat_error_t × σ

/-- The `for(i = buffer_entry_idx; i < entries_in_buffer; i++)` loop of
`fat_iterate_directory`; the first argument is `entries_in_buffer - i`. -/
def fat_iterate_directory_scan {σ : Type} (volume : fat_volume_t) (dir_cluster : Nat)
    (callback : fat_dir_iterator_callback σ) (read_buffer : List Nat) :
    Nat → Nat → Nat → σ → scan_t fat_error_t × σ
  | 0, _, entry_idx, user_data => (.next entry_idx, user_data)
  | n + 1, i, entry_idx, user_data =>
    let is_root_fat12 := dir_cluster = 0 ∧ volume.type ≠ FAT_TYPE_FAT32
    let max_root_entries := if is_root_fat12 then volume.root_entry_count else 0
    if is_root_fat12 ∧ entry_idx ≥ max_root_entries then (.next entry_idx, user_data)
    else
      let current_entry := entry_at read_buffer (i * 32)
      if current_entry.bytes.getD 0 0 = FAT_DIR_ENTRY_FREE then
        (.returned FAT_OK, user_data)
      else if current_entry.bytes.getD 0 0 = FAT_DIR_ENTRY_DELETED then
        fat_iterate_directory_scan volume dir_cluster callback read_buffer n (i + 1)
          (u32 (entry_idx + 1)) user_data
      else if current_entry.attr = FAT_ATTR_LONG_NAME then
        fat_iterate_directory_scan volume dir_cluster callback read_buffer n (i + 1)
          (u32 (entry_idx + 1)) user_data
      else if current_entry.attr &&& FAT_ATTR_VOLUME_ID ≠ 0 then
        fat_iterate_directory_scan volume dir_cluster callback read_buffer n (i + 1)
          (u32 (entry_idx + 1)) user_data
      else
        let long_name : Option (List Nat) :=
          if entry_idx > 0 then
            let checksum := fat_calculate_lfn_checksum current_entry.name
            match fat_read_lfn_sequence volume dir_cluster entry_idx 256 checksum with
            | .error _ => none
            | .ok (long_filename, _) => some long_filename
          else none
        match callback current_entry long_name entry_idx user_data with
        | (.FAT_OK, user_data) =>
          fat_iterate_directory_scan volume dir_cluster callback read_buffer n (i + 1)
            (u32 (entry_idx + 1)) user_data
        | (err, user_data) => (.returned err, user_data)

/-- The `while(1)` loop of `fat_iterate_directory`, one iteration (one buffer) per unit of
fuel. In `buffer`, `.error status` stands for leaving the function with `status` before
the entries are scanned (`break` followed by the final `return FAT_OK`, or a device error). -/
def fat_iterate_directory_loop {σ : Type} (volume : fat_volume_t) (dir_cluster : Nat)
    (callback : fat_dir_iterator_callback σ) :
    Nat → Nat → Nat → σ → Option (fat_error_t × σ)
  | 0, _, _, _ => none
  | fuel + 1, current_cluster, entry_idx, user_data =>
    let is_root_fat12 := dir_cluster = 0 ∧ volume.type ≠ FAT_TYPE_FAT32
    let entries_per_cluster := volume.bytes_per_cluster / 32
    let entries_per_sector := volume.bytes_per_sector / 32
    let max_root_entries := if is_root_fat12 then volume.root_entry_count else 0
    let root_start_sector :=
      if is_root_fat12 then
        u32 (volume.reserved_sector_count + u32 (volume.num_fats * volume.fat_size_sectors))
      else 0
    let buffer : Except fat_error_t (List Nat × Nat) :=
      if is_root_fat12 then
        if entry_idx ≥ max_root_entries then .error FAT_OK
        else
          let sector := u32 (root_start_sector + entry_idx / entries_per_sector)
          match read_sectors volume.device sector 1 with
          | none => .error FAT_ERR_DEVICE_ERROR
          | some read_buffer => .ok (read_buffer, entries_per_sector)
      else
        if current_cluster = 0 ∨ fat_is_eoc volume current_cluster = true then
          .error FAT_OK
        else
          let sector := fat_cluster_to_sector volume current_cluster
          match read_sectors volume.device sector volume.sectors_per_cluster with
          | none => .error FAT_ERR_DEVICE_ERROR
          | some read_buffer => .ok (read_buffer, entries_per_cluster)
    match buffer with
    | .error status => some (status, user_data)
    | .ok (read_buffer, entries_in_buffer) =>
      let buffer_entry_idx := entry_idx % entries_in_buffer
      match fat_iterate_directory_scan volume dir_cluster callback read_buffer
          (entries_in_buffer - buffer_entry_idx) buffer_entry_idx entry_idx user_data with
      | (.returned r, user_data) => some (r, user_data)
      | (.next entry_idx, user_data) =>
        let next_cluster : Except fat_error_t Nat :=
          if ¬ is_root_fat12 then fat_get_next_cluster volume current_cluster
          else .ok current_cluster
        match next_cluster with
        | .error err => some (err, user_data)
        | .ok current_cluster =>
          let entry_idx :=
            if is_root_fat12 then u32 ((entry_idx / entries_per_sector + 1) * entries_per_sector)
            else u32 ((entry_idx / entries_per_cluster + 1) * entries_per_cluster)
          fat_iterate_directory_loop volume dir_cluster callback fuel current_cluster
            entry_idx user_data

/-- `fat_iterate_directory` of `fat_dir_search.c`: the status and the user data after the
calls of `callback` (`malloc` is taken to succeed). -/
def fat_iterate_directory {σ : Type} (volume : fat_volume_t) (dir_cluster : Nat)
    (callback : fat_dir_iterator_callback σ) (user_data : σ) (fuel : Nat) :
    Option (fat_error_t × σ) :=
  fat_iterate_directory_loop volume dir_cluster callback fuel dir_cluster 0 user_data

/-- State of the `for` loop of `fat_find_free_entry` when the loop is left, or the result
with which the function has returned. -/
inductive free_scan_t where
  | returned (r : Except fat_error_t Nat)
  | next (entry_idx consecutive_free first_free_idx current_cluster : Nat)

/-- The `for(i = buffer_entry_idx; i < entries_in_buffer; i++)` loop of
`fat_find_free_entry`; the first argument is `entries_in_buffer - i`. The steps commented
`move to next cluster` stand inside this loop in the source. -/
def fat_find_free_entry_scan (volume : fat_volume_t) (dir_cluster num_entries : Nat)
    (read_buffer : List Nat) : Nat → Nat → Nat → Nat → Nat → Nat → free_scan_t
  | 0, _, entry_idx, consecutive_free, first_free_idx, current_cluster =>
    .next entry_idx consecutive_free first_free_idx current_cluster
  | n + 1, i, entry_idx, consecutive_free, first_free_idx, current_cluster =>
    let is_root_fat12 := dir_cluster = 0 ∧ volume.type ≠ FAT_TYPE_FAT32
    let entries_per_cluster := volume.bytes_per_cluster / 32
    let entries_per_sector := volume.bytes_per_sector / 32
    let max_root_entries := if is_root_fat12 then volume.root_entry_count else 0
    if is_root_fat12 ∧ entry_idx ≥ max_root_entries then
      .next entry_idx consecutive_free first_free_idx current_cluster
    else
      let current_entry := entry_at read_buffer (i * 32)
      let is_free := current_entry.bytes.getD 0 0 = FAT_DIR_ENTRY_FREE ∨
        current_entry.bytes.getD 0 0 = FAT_DIR_ENTRY_DELETED
      -- `.error idx` stands for `*entry_index = idx; return FAT_OK`
      let checked : Except Nat (Nat × Nat × Nat) :=
        if is_free then
          let first_free_idx := if consecutive_free = 0 then entry_idx else first_free_idx
          let consecutive_free := u32 (consecutive_free + 1)
          if consecutive_free ≥ num_entries then .error first_free_idx
          else .ok (u32 (entry_idx + 1), 0, first_free_idx)
        else .ok (entry_idx, consecutive_free, first_free_idx)
      match checked with
      | .error first_free_idx => .returned (.ok first_free_idx)
      | .ok (entry_idx, consecutive_free, first_free_idx) =>
        let next_cluster : Except fat_error_t Nat :=
          if ¬ is_root_fat12 then fat_get_next_cluster volume current_cluster
          else .ok current_cluster
        match next_cluster with
        | .error err => .returned (.error err)
        | .ok current_cluster =>
          let entry_idx :=
            if is_root_fat12 then u32 ((entry_idx / entries_per_sector + 1) * entries_per_sector)
            else u32 ((entry_idx / entries_per_cluster + 1) * entries_per_cluster)
          fat_find_free_entry_scan volume dir_cluster num_entries read_buffer n (i + 1)
            entry_idx consecutive_free first_free_idx current_cluster

/-- The `while(1)` loop of `fat_find_free_entry`, one iteration (one buffer) per unit of
fuel. -/
def fat_find_free_entry_loop (volume : fat_volume_t) (dir_cluster num_entries : Nat) :
    Nat → Nat → Nat → Nat → Nat → Option (Except fat_error_t Nat)
  | 0, _, _, _, _ => none
  | fuel + 1, current_cluster, entry_idx, consecutive_free, first_free_idx =>
    let is_root_fat12 := dir_cluster = 0 ∧ volume.type ≠ FAT_TYPE_FAT32
    let entries_per_cluster := volume.bytes_per_cluster / 32
    let entries_per_sector := volume.bytes_per_sector / 32
    let max_root_entries := if is_root_fat12 then volume.root_entry_count else 0
    let root_start_sector :=
      if is_root_fat12 then
        u32 (volume.reserved_sector_count + u32 (volume.num_fats * volume.fat_size_sectors))
      else 0
    let buffer : Except fat_error_t (List Nat × Nat) :=
      if is_root_fat12 then
        if entry_idx ≥ max_root_entries then .error FAT_ERR_DISK_FULL
        else
          let sector := u32 (root_start_sector + entry_idx / entries_per_sector)
          match read_sectors volume.device sector 1 with
          | none => .error FAT_ERR_DEVICE_ERROR
          | some read_buffer => .ok (read_buffer, entries_per_sector)
      else
        if current_cluster = 0 ∨ fat_is_eoc volume current_cluster = true then
          .error FAT_ERR_DISK_FULL
        else
          let sector := fat_cluster_to_sector volume current_cluster
          match read_sectors volume.device sector volume.sectors_per_cluster with
          | none => .error FAT_ERR_DEVICE_ERROR
          | some read_buffer => .ok (read_buffer, entries_per_cluster)
    match buffer with
    | .error err => some (.error err)
    | .ok (read_buffer, entries_in_buffer) =>
      let buffer_entry_idx := entry_idx % entries_in_buffer
      match fat_find_free_entry_scan volume dir_cluster num_entries read_buffer
          (entries_in_buffer - buffer_entry_idx) buffer_entry_idx entry_idx consecutive_free
          first_free_idx current_cluster with
      | .returned r => some r
      | .next entry_idx consecutive_free first_free_idx current_cluster =>
        fat_find_free_entry_loop volume dir_cluster num_entries fuel current_cluster entry_idx
          consecutive_free first_free_idx

/-- `fat_find_free_entry` of `fat_dir_search.c`: the index stored to `*entry_index`, or the
error (`malloc` is taken to succeed). -/
def fat_find_free_entry (volume : fat_volume_t) (dir_cluster num_entries : Nat) (fuel : Nat) :
    Option (Except fat_error_t Nat) :=
  if num_entries = 0 then some (.error FAT_ERR_INVALID_PARAM)
  else fat_find_free_entry_loop volume dir_cluster num_entries fuel dir_cluster 0 0 0

/-- One of the three fill loops of `fat_create_lfn_entries` over a name field of `n`
characters: `j` is `i/2`, `first` is the index in the long name of the field's first
character, `terminated` the flag shared by the three loops; the result is the bytes stored
to the field and the flag afterwards. -/
def fat_create_lfn_field (utf16_name : List Nat) (name_len first : Nat) :
    Nat → Nat → Bool → List Nat → List Nat × Bool
  | 0, _, terminated, field => (field, terminated)
  | n + 1, j, terminated, field =>
    let char_idx := first + j
    let (ch, terminated) :=
      if !terminated && decide (char_idx < name_len) then (utf16_name.getD char_idx 0, terminated)
      else if !terminated then (0x0000, true)
      else (0xFFFF, terminated)
    fat_create_lfn_field utf16_name name_len first n (j + 1) terminated
      (field ++ [ch &&& 0xFF, (ch >>> 8) &&& 0xFF])

/-- The body of the `for(entry_num ...)` loop of `fat_create_lfn_entries`: the 32 bytes of
`lfn_entries[entry_num]` (`memset` to 0, then the fields `order`, `name1`, `attr`, `type`,
`checksum`, `name2`, `first_cluster_low`, `name3` at their offsets). -/
def fat_create_lfn_entry (utf16_name : List Nat) (name_len checksum entries_needed
    entry_num : Nat) : fat_dir_entry_t :=
  let order := u8 (entries_needed - entry_num)
  let order := if entry_num = 0 then order ||| 0x40 else order
  let start_char := entry_num * 13
  let terminated := false
  let name1 := fat_create_lfn_field utf16_name name_len start_char 5 0 terminated []
  let name2 := fat_create_lfn_field utf16_name name_len (start_char + 5) 6 0 name1.2 []
  let name3 := fat_create_lfn_field utf16_name name_len (start_char + 11) 2 0 name2.2 []
  ⟨[order] ++ name1.1 ++ [FAT_ATTR_LONG_NAME, 0, checksum] ++ name2.1 ++ [0, 0] ++ name3.1⟩

/-- `fat_create_lfn_entries` of `fat_lfn.c`: the array `lfn_entries[0 .. entries_needed)`
and the value stored to `*num_entries`, or the error. `long_name` holds the bytes of the C
string without its terminating NUL. -/
def fat_create_lfn_entries (long_name short_name : List Nat) :
    Except fat_error_t (List fat_dir_entry_t × Nat) :=
  let name_len := long_name.length
  if name_len > 255 then .error FAT_ERR_INVALID_PARAM
  else
    let utf16_name := long_name.map fun c => u16 (u8 c)
    let checksum := fat_calculate_lfn_checksum short_name
    let entries_needed := u8 ((name_len + 12) / 13)
    .ok ((List.range entries_needed).map fun entry_num =>
          fat_create_lfn_entry utf16_name name_len checksum entries_needed entry_num,
         entries_needed)

namespace fat_dir_entry_t

/-- Field `type` of the `fat_lfn_entry_t` view (offset 12). -/
def lfn_type (e : fat_dir_entry_t) : Nat := e.bytes.getD 12 0

end fat_dir_entry_t

/-! ## Path resolution (`fat_path.c`) -/

/-- Modelled from the spec: attribute bit read-only (§3: 0x01). -/
def FAT_ATTR_READ_ONLY : Nat := 0x01

/-- Modelled from the spec: attribute bit directory (§3: 0x10). -/
def FAT_ATTR_DIRECTORY : Nat := 0x10

/-- The value of a byte held in a plain `char`. Plain `char` is taken to be signed, as in
the x86 and x86-64 ABIs: bytes from 0x80 on are negative. -/
def char_value (b : Nat) : Int := if b < 128 then (b : Int) else (b : Int) - 256

/-- The string literal `"<>:\"|?*"` of `fat_validate_component` and
`fat_validate_filename`. -/
def invalid_chars : List Nat := [0x3C, 0x3E, 0x3A, 0x22, 0x7C, 0x3F, 0x2A]

/-- The character loop shared by `fat_validate_component` and `fat_validate_filename`:
`false` at the first character with `c < 32` or `strchr(invalid_chars, c) != NULL`. -/
def fat_validate_chars : List Nat → Bool
  | [] => true
  | c :: rest =>
    if char_value c < 32 then false
    else if invalid_chars.contains c then false
    else fat_validate_chars rest

/-- `fat_validate_component` of `fat_path.c`; `component` holds the bytes of the C string
without its terminating NUL. -/
def fat_validate_component (component : List Nat) : Bool :=
  if component.length = 0 then false
  else if component.length > 255 then false
  else if component = [0x2E] ∨ component = [0x2E, 0x2E] then true
  else fat_validate_chars component

/-- The tokens that successive calls of `strtok(s, delim)` return for a one-character
delimiter string: the maximal runs of other characters; `cur` is the run being read. -/
def strtok_tokens (delim : Nat) : List Nat → List Nat → List (List Nat)
  | [], cur => if cur = [] then [] else [cur]
  | c :: rest, cur =>
    if c = delim then
      if cur = [] then strtok_tokens delim rest [] else cur :: strtok_tokens delim rest []
    else strtok_tokens delim rest (cur ++ [c])

/-- The second `while(token != NULL && index < count)` loop of `fat_split_path`. -/
def fat_split_path_copy : List (List Nat) → Except fat_error_t (List (List Nat))
  | [] => .ok []
  | token :: rest =>
    if !fat_validate_component token then .error FAT_ERR_INVALID_PARAM
    else
      match fat_split_path_copy rest with
      | .error err => .error err
      | .ok components => .ok (token :: components)

/-- `fat_split_path` of `fat_path.c`: the array `*components` (`*num_components` is its
length), or the error (`malloc` is taken to succeed). -/
def fat_split_path (path : List Nat) : Except fat_error_t (List (List Nat)) :=
  if path.length = 0 ∨ path = [0x2F] then .ok []
  else
    let tokens := strtok_tokens 0x2F path []
    let count := tokens.length
    if count = 0 then .ok []
    else fat_split_path_copy tokens

/-- `fat_get_root_dir_cluster` of `fat_root.c`. -/
def fat_get_root_dir_cluster (volume : fat_volume_t) : Nat :=
  if volume.type = FAT_TYPE_FAT32 then volume.root_cluster else 0

namespace fat_dir_entry_t

/-- The entry after `memset(entry, 0, sizeof(fat_dir_entry_t))`. -/
def zero : fat_dir_entry_t := ⟨List.replicate 32 0⟩

/-- The entry after `memcpy(entry->name, name, 11)`. -/
def set_name (e : fat_dir_entry_t) (name : List Nat) : fat_dir_entry_t :=
  ⟨memcpy_at e.bytes 0 name 11⟩

/-- Assignment to field `attr` (offset 11). -/
def set_attr (e : fat_dir_entry_t) (v : Nat) : fat_dir_entry_t := ⟨e.bytes.set 11 (u8 v)⟩

end fat_dir_entry_t

/-- The directory entry that `fat_find_in_directory` and `fat_resolve_path` synthesise:
zeroed, with the given name, the directory attribute and the given first cluster. -/
def synthetic_directory_entry (volume : fat_volume_t) (name : List Nat) (cluster : Nat) :
    fat_dir_entry_t :=
  fat_set_entry_cluster volume
    ((fat_dir_entry_t.zero.set_name name).set_attr FAT_ATTR_DIRECTORY) cluster

/-- `fat_find_in_directory` of `fat_path.c`: the entry and the entry index, or the error. -/
def fat_find_in_directory (volume : fat_volume_t) (dir_cluster : Nat) (component : List Nat)
    (fuel : Nat) : Option (Except fat_error_t (fat_dir_entry_t × Nat)) :=
  if component = [0x2E] then
    some (.ok (synthetic_directory_entry volume
      [0x2E, 0x20, 0x20, 0x20, 0x20, 0x20, 0x20, 0x20, 0x20, 0x20, 0x20] dir_cluster, 0))
  else if component = [0x2E, 0x2E] then
    if dir_cluster = fat_get_root_dir_cluster volume then
      let parent_cluster := fat_get_root_dir_cluster volume
      some (.ok (synthetic_directory_entry volume
        [0x2E, 0x2E, 0x20, 0x20, 0x20, 0x20, 0x20, 0x20, 0x20, 0x20, 0x20] parent_cluster, 1))
    else
      fat_find_entry volume dir_cluster [0x2E, 0x2E] fuel
  else
    fat_find_entry volume dir_cluster component fuel

/-- The `for` loop of `fat_resolve_path` over the components still to visit, followed by the
function's tail: the entry, `*parent_cluster` and `*entry_index`, or the error. -/
def fat_resolve_path_loop (volume : fat_volume_t) (fuel : Nat) :
    List (List Nat) → Nat → Nat → fat_dir_entry_t → Nat →
    Option (Except fat_error_t (fat_dir_entry_t × Nat × Nat))
  | [], _, prev_cluster, current_entry, current_index =>
    some (.ok (current_entry, prev_cluster, current_index))
  | component :: rest, current_cluster, _, _, _ =>
    match fat_find_in_directory volume current_cluster component fuel with
    | none => none
    | some (.error err) => some (.error err)
    | some (.ok (current_entry, current_index)) =>
      if rest ≠ [] then
        if current_entry.attr &&& FAT_ATTR_DIRECTORY = 0 then
          some (.error FAT_ERR_NOT_A_DIRECTORY)
        else
          fat_resolve_path_loop volume fuel rest
            (fat_get_entry_cluster volume current_entry) current_cluster current_entry
            current_index
      else
        fat_resolve_path_loop volume fuel rest current_cluster current_cluster current_entry
          current_index

/-- `fat_resolve_path` of `fat_path.c`: the entry, `*parent_cluster` and `*entry_index`, or
the error. `fuel` bounds each directory search. -/
def fat_resolve_path (volume : fat_volume_t) (path : List Nat) (fuel : Nat) :
    Option (Except fat_error_t (fat_dir_entry_t × Nat × Nat)) :=
  match fat_split_path path with
  | .error err => some (.error err)
  | .ok components =>
    if components.length = 0 then
      some (.ok (synthetic_directory_entry volume
        [0x52, 0x4F, 0x4F, 0x54, 0x20, 0x20, 0x20, 0x20, 0x20, 0x20, 0x20]
        (fat_get_root_dir_cluster volume), fat_get_root_dir_cluster volume, 0))
    else
      let current_cluster := fat_get_root_dir_cluster volume
      fat_resolve_path_loop volume fuel components current_cluster current_cluster
        fat_dir_entry_t.zero 0

/-! ## Opening (`fat_file.c`) -/

/-- `fat_validate_open_flags` of `fat_file.c`; `entry` is `none` for a NULL pointer. -/
def fat_validate_open_flags (flags : Nat) (entry : Option fat_dir_entry_t) : Bool :=
  let access_mode := flags &&& (FAT_O_RDONLY ||| FAT_O_WRONLY ||| FAT_O_RDWR)
  if access_mode = (FAT_O_RDONLY ||| FAT_O_WRONLY) then false
  else if access_mode = 0 then false
  else
    let entry_ok : Bool :=
      match entry with
      | none => true
      | some entry =>
        if entry.attr &&& FAT_ATTR_DIRECTORY ≠ 0 then false
        else if entry.attr &&& FAT_ATTR_READ_ONLY ≠ 0 ∧
            flags &&& (FAT_O_WRONLY ||| FAT_O_RDWR) ≠ 0 then false
        else true
    if !entry_ok then false
    else if flags &&& FAT_O_CREATE ≠ 0 ∧ flags &&& (FAT_O_WRONLY ||| FAT_O_RDWR) = 0 then false
    else true

/-- `fat_init_file_handle` of `fat_file.c`: the initialised handle (the function returns
`FAT_OK`). -/
def fat_init_file_handle (volume : fat_volume_t) (dir_entry : fat_dir_entry_t)
    (dir_cluster dir_entry_offset flags : Nat) : fat_file_t :=
  let file : fat_file_t :=
    { volume := volume, dir_entry := dir_entry, current_cluster := 0, position := 0,
      dir_cluster := dir_cluster, dir_entry_offset := dir_entry_offset, flags := flags,
      modified := false, cluster_offset := 0 }
  let file := { file with current_cluster := fat_get_entry_cluster volume dir_entry }
  if flags &&& FAT_O_TRUNC ≠ 0 then
    { file with dir_entry := file.dir_entry.set_file_size 0, modified := true }
  else file

/-- `fat_open` of `fat_file.c`: the status and the handle stored to `*file` (`none` for
NULL); `malloc` is taken to succeed. `fuel` bounds each directory search. -/
def fat_open (volume : fat_volume_t) (path : List Nat) (flags : Nat) (fuel : Nat) :
    Option (fat_error_t × Option fat_file_t) :=
  if !fat_validate_open_flags flags none then some (FAT_ERR_INVALID_PARAM, none)
  else
    match fat_resolve_path volume path fuel with
    | none => none
    | some (.error err) =>
      if err = FAT_ERR_NOT_FOUND then
        if flags &&& FAT_O_CREATE ≠ 0 then some (FAT_ERR_NOT_FOUND, none)
        else some (FAT_ERR_NOT_FOUND, none)
      else some (err, none)
    | some (.ok (dir_entry, parent_cluster, entry_index)) =>
      if !fat_validate_open_flags flags (some dir_entry) then some (FAT_ERR_INVALID_PARAM, none)
      else
        some (FAT_OK,
          some (fat_init_file_handle volume dir_entry parent_cluster entry_index flags))

/-! ## Creating (`fat_file_create.c`) -/

/-- `toupper` of `<ctype.h>` in the "C" locale. -/
def toupper (c : Nat) : Nat := if 0x61 ≤ c ∧ c ≤ 0x7A then c - 0x20 else c

/-- `isalnum` of `<ctype.h>` in the "C" locale (false for every byte from 0x80 on). -/
def isalnum (c : Nat) : Bool :=
  decide ((0x30 ≤ c ∧ c ≤ 0x39) ∨ (0x41 ≤ c ∧ c ≤ 0x5A) ∨ (0x61 ≤ c ∧ c ≤ 0x7A))

/-- `strchr(s, c)` for a character `c` other than NUL: the index of the first occurrence,
`none` for NULL. -/
def strchr (s : List Nat) (c : Nat) : Option Nat :=
  if s.contains c then some (s.indexOf c) else none

/-- The array `reserved[]` of `fat_validate_filename`: CON, PRN, AUX, NUL, COM1..COM9,
LPT1..LPT9. -/
def reserved_names : List (List Nat) :=
  [[0x43, 0x4F, 0x4E], [0x50, 0x52, 0x4E], [0x41, 0x55, 0x58], [0x4E, 0x55, 0x4C]] ++
  (List.range 9).map (fun k => [0x43, 0x4F, 0x4D, 0x31 + k]) ++
  (List.range 9).map (fun k => [0x4C, 0x50, 0x54, 0x31 + k])

/-- `fat_validate_filename` of `fat_file_create.c`. -/
def fat_validate_filename (filename : List Nat) : Bool :=
  if filename.length = 0 then false
  else if filename.length > 255 then false
  else if !fat_validate_chars filename then false
  else
    let base_name :=
      match strchr filename 0x2E with
      | some base_len => filename.take base_len
      | none => filename
    if reserved_names.contains base_name then false
    else true

/-- `fat_calculate_entries_needed` of `fat_file_create.c`. -/
def fat_calculate_entries_needed (filename : List Nat) : Nat :=
  let len := filename.length
  let perfect_83 : Bool :=
    if len ≤ 12 ∧ strchr filename 0x20 = none then
      let fits : Bool :=
        match strchr filename 0x2E with
        | none => true
        | some dot => decide (dot ≤ 8) && decide ((filename.drop (dot + 1)).length ≤ 3)
      if fits then
        filename.all fun c => c = 0x2E || isalnum c || c = 0x5F || c = 0x2D
      else false
    else false
  if perfect_83 then 1
  else
    let lfn_entries := u32 ((len + 12) / 13)
    u32 (lfn_entries + 1)

/-- The loop `process name` of `fat_generate_short_name`; the first argument is
`name_len - i`. The result is `short_name` and `base_pos` after the loop. -/
def fat_short_name_base (name_part : List Nat) : Nat → Nat → List Nat → Nat → List Nat × Nat
  | 0, _, short_name, base_pos => (short_name, base_pos)
  | n + 1, i, short_name, base_pos =>
    if base_pos ≥ 8 then (short_name, base_pos)
    else
      let c := toupper (name_part.getD i 0)
      if c = 0x20 ∨ c = 0x2E then fat_short_name_base name_part n (i + 1) short_name base_pos
      else
        let c := if c = 0x2B ∨ c = 0x2C ∨ c = 0x3B ∨ c = 0x3D ∨ c = 0x5B ∨ c = 0x5D
          then 0x5F else c
        if isalnum c ∨ [0x5F, 0x2D, 0x24, 0x25, 0x27, 0x40, 0x7E, 0x60, 0x21, 0x28, 0x29,
            0x7B, 0x7D, 0x5E, 0x23, 0x26].contains c then
          fat_short_name_base name_part n (i + 1) (short_name.set base_pos c) (base_pos + 1)
        else fat_short_name_base name_part n (i + 1) short_name base_pos

/-- The loop `process extension` of `fat_generate_short_name`; the first argument is
`ext_len - i`. The result is `short_name` and `ext_pos` after the loop. -/
def fat_short_name_ext (ext_part : List Nat) : Nat → Nat → List Nat → Nat → List Nat × Nat
  | 0, _, short_name, ext_pos => (short_name, ext_pos)
  | n + 1, i, short_name, ext_pos =>
    if ext_pos ≥ 3 then (short_name, ext_pos)
    else
      let c := toupper (ext_part.getD i 0)
      if isalnum c ∨ c = 0x5F ∨ c = 0x2D then
        fat_short_name_ext ext_part n (i + 1) (short_name.set (8 + ext_pos) c) (ext_pos + 1)
      else fat_short_name_ext ext_part n (i + 1) short_name ext_pos

/-- The string `snprintf(suffix_str, 8, "~%d", suffix)` produces. -/
def suffix_string (suffix : Nat) : List Nat :=
  ([0x7E] ++ (Nat.toDigits 10 suffix).map Char.toNat).take 7

/-- The loop `check for name collision` of `fat_generate_short_name`; the first argument
is `999999 + 1 - suffix`. `stack_tail` are the bytes that follow the 11-byte array
`short_name` in memory: the array is passed to `fat_find_entry` as a C string although it
has no terminating NUL. -/
def fat_short_name_unique (volume : fat_volume_t) (parent_cluster : Nat)
    (base_name ext_name : List Nat) (base_pos : Nat) (stack_tail : List Nat) (fuel : Nat) :
    Nat → Nat → Option (Except fat_error_t (List Nat))
  | 0, _ => some (.error FAT_ERR_ALREADY_EXISTS)
  | n + 1, suffix =>
    let short_name := List.replicate 11 0x20
    let short_name :=
      if suffix = 1 then
        memcpy_at short_name 0 base_name (cstring base_name).length
      else
        let suffix_str := suffix_string suffix
        let suffix_len := suffix_str.length
        let keep_len := if 8 > suffix_len then 8 - suffix_len else 0
        let copy_len := if base_pos < keep_len then base_pos else keep_len
        let short_name := memcpy_at short_name 0 base_name copy_len
        memcpy_at short_name copy_len suffix_str suffix_len
    let short_name :=
      if (cstring ext_name).length > 0 then
        memcpy_at short_name 8 ext_name (cstring ext_name).length
      else short_name
    match fat_find_entry volume parent_cluster (cstring (short_name ++ stack_tail)) fuel with
    | none => none
    | some (.error err) =>
      if err = FAT_ERR_NOT_FOUND then some (.ok short_name) else some (.error err)
    | some (.ok _) =>
      fat_short_name_unique volume parent_cluster base_name ext_name base_pos stack_tail fuel
        n (suffix + 1)

/-- `fat_generate_short_name` of `fat_file_create.c`: the 11 bytes left in `short_name`, or
the error. The characters of the name are stored to `short_name`, not to `base_name`, and
`ext_name` starts as `{4}`. -/
def fat_generate_short_name (long_name : List Nat) (volume : fat_volume_t)
    (parent_cluster : Nat) (stack_tail : List Nat) (fuel : Nat) :
    Option (Except fat_error_t (List Nat)) :=
  let short_name := List.replicate 11 0x20
  let last_dot := strchr long_name 0x2E
  let name_part := long_name
  let (name_len, ext_part) : Nat × Option (List Nat) :=
    match last_dot with
    | some dot =>
      if dot ≠ 0 then (dot, some (long_name.drop (dot + 1))) else (long_name.length, none)
    | none => (long_name.length, none)
  let base_name := List.replicate 9 0
  let (short_name, base_pos) := fat_short_name_base name_part name_len 0 short_name 0
  let (base_name, base_pos) :=
    if base_pos = 0 then
      (memcpy_at base_name 0 [0x4E, 0x4F, 0x4E, 0x41, 0x4D, 0x45, 0] 7, 6)
    else (base_name, base_pos)
  let ext_name := [4, 0, 0, 0]
  let _short_name :=
    match ext_part with
    | some ext_part => (fat_short_name_ext ext_part ext_part.length 0 short_name 0).1
    | none => short_name
  fat_short_name_unique volume parent_cluster base_name ext_name base_pos stack_tail fuel
    999999 1

/-- Modelled from the spec: the fields of `struct tm` of `<time.h>` that the sources read;
the value is what `localtime(&now)` points to. -/
structure tm_t where
  tm_sec : Nat
  tm_min : Nat
  tm_hour : Nat
  tm_mday : Nat
  tm_mon : Nat
  tm_year : Nat

/-- The `uint16_t fat_time` computed from `tm_info` in `fat_file.c` and
`fat_file_create.c`. -/
def fat_time_of (tm_info : tm_t) : Nat :=
  u16 (((tm_info.tm_hour &&& 0x1F) <<< 11) ||| ((tm_info.tm_min &&& 0x3F) <<< 5) |||
    ((tm_info.tm_sec / 2) &&& 0x1F))

/-- The `uint16_t fat_date` computed from `tm_info` in `fat_file.c` and
`fat_file_create.c`; `(tm_year - 80) & 0x7F` on a two's-complement `int` is the remainder
of `tm_year - 80` modulo 128. -/
def fat_date_of (tm_info : tm_t) : Nat :=
  u16 (((((tm_info.tm_year : Int) - 80) % 128).toNat <<< 9) |||
    (((tm_info.tm_mon + 1) &&& 0x0F) <<< 5) ||| (tm_info.tm_mday &&& 0x1F))

namespace fat_dir_entry_t

/-- The assignments to `create_time`, `create_date`, `write_time`, `write_date` and
`access_date` (offsets 14, 16, 22, 24, 18) made when `tm_info` is not NULL. -/
def set_create_times (e : fat_dir_entry_t) (tm_info : Option tm_t) : fat_dir_entry_t :=
  match tm_info with
  | none => e
  | some tm_info =>
    let fat_time := fat_time_of tm_info
    let fat_date := fat_date_of tm_info
    ⟨store16 (store16 (store16 (store16 (store16 e.bytes 14 fat_time) 16 fat_date) 22
      fat_time) 24 fat_date) 18 fat_date⟩

end fat_dir_entry_t

/-- `fat_initialize_file_cluster` of `fat_file_create.c`: the status and the volume as left
behind (`calloc` is taken to succeed; the result of zeroing the cluster is ignored). -/
def fat_initialize_file_cluster (volume : fat_volume_t) (cluster : Nat) :
    fat_error_t × fat_volume_t :=
  if cluster < 2 then (FAT_ERR_INVALID_PARAM, volume)
  else
    match fat_write_entry volume cluster (eoc_marker volume) with
    | .error err => (err, volume)
    | .ok volume =>
      let zero_buffer := List.replicate volume.bytes_per_cluster 0
      let first_sector := fat_cluster_to_sector volume cluster
      match write_sectors volume.device first_sector volume.sectors_per_cluster zero_buffer
      with
      | none => (FAT_OK, volume)
      | some device => (FAT_OK, { volume with device := device })

/-- The cluster-chain walks `for(j = 0; j < cluster_index; j++)` of
`fat_create_directory_entries`, `fat_find_lfn_entries` and `fat_delete_directory_entries`
that return the error of `fat_get_next_cluster`; the first argument is
`cluster_index - j`. -/
def fat_walk_to_cluster (volume : fat_volume_t) : Nat → Nat → Except fat_error_t Nat
  | 0, target_cluster => .ok target_cluster
  | n + 1, target_cluster =>
    match fat_get_next_cluster volume target_cluster with
    | .error err => .error err
    | .ok target_cluster => fat_walk_to_cluster volume n target_cluster

/-- Sector and byte offset of the slot `index` of the directory `parent_cluster`, as
`fat_create_directory_entries` (main entry), `fat_find_lfn_entries` and
`fat_delete_directory_entries` compute them. -/
def fat_entry_location (volume : fat_volume_t) (parent_cluster index : Nat) :
    Except fat_error_t (Nat × Nat) :=
  if parent_cluster = 0 ∧ volume.type ≠ FAT_TYPE_FAT32 then
    let entries_per_sector := volume.bytes_per_sector / 32
    let root_start := u32 (volume.reserved_sector_count +
      u32 (volume.num_fats * volume.fat_size_sectors))
    .ok (u32 (root_start + index / entries_per_sector),
         u32 (index % entries_per_sector * 32))
  else
    let entries_per_cluster := volume.bytes_per_cluster / 32
    let cluster_index := index / entries_per_cluster
    match fat_walk_to_cluster volume cluster_index parent_cluster with
    | .error err => .error err
    | .ok target_cluster =>
      .ok (fat_cluster_to_sector volume target_cluster,
           u32 (index % entries_per_cluster * 32))

/-- Sector and byte offset that the loop `write LFN` of `fat_create_directory_entries`
computes for the slot `current_index`; in the fixed-root branch the source has
`current_index & entries_per_sector`. -/
def fat_lfn_entry_location (volume : fat_volume_t) (parent_cluster current_index : Nat) :
    Except fat_error_t (Nat × Nat) :=
  if parent_cluster = 0 ∧ volume.type ≠ FAT_TYPE_FAT32 then
    let entries_per_sector := volume.bytes_per_sector / 32
    let root_start := u32 (volume.reserved_sector_count +
      u32 (volume.num_fats * volume.fat_size_sectors))
    .ok (u32 (root_start + current_index / entries_per_sector),
         u32 ((current_index &&& entries_per_sector) * 32))
  else
    let entries_per_cluster := volume.bytes_per_cluster / 32
    let cluster_index := current_index / entries_per_cluster
    match fat_walk_to_cluster volume cluster_index parent_cluster with
    | .error err => .error err
    | .ok target_cluster =>
      .ok (fat_cluster_to_sector volume target_cluster,
           u32 (current_index % entries_per_cluster * 32))

/-- The loop `write LFN` of `fat_create_directory_entries` over the entries still to write:
the volume and `current_index` afterwards, or the error together with the volume as left
behind. -/
def fat_write_lfn_entries (parent_cluster : Nat) :
    List fat_dir_entry_t → fat_volume_t → Nat → Except (fat_error_t × fat_volume_t)
      (fat_volume_t × Nat)
  | [], volume, current_index => .ok (volume, current_index)
  | lfn_entry :: rest, volume, current_index =>
    match fat_lfn_entry_location volume parent_cluster current_index with
    | .error err => .error (err, volume)
    | .ok (sector, offset) =>
      match fat_write_dir_entry volume sector offset lfn_entry with
      | .error err => .error (err, volume)
      | .ok volume => fat_write_lfn_entries parent_cluster rest volume (u32 (current_index + 1))

/-- `fat_create_directory_entries` of `fat_file_create.c`: the status and the volume as left
behind (`malloc` is taken to succeed). `tm_info` is the result of `localtime`, `none` for
NULL. -/
def fat_create_directory_entries (volume : fat_volume_t) (parent_cluster entry_index : Nat)
    (filename short_name : List Nat) (file_cluster attributes : Nat) (tm_info : Option tm_t) :
    fat_error_t × fat_volume_t :=
  let entries_needed := fat_calculate_entries_needed filename
  let current_index := entry_index
  let lfn_written : Except (fat_error_t × fat_volume_t) (fat_volume_t × Nat) :=
    if entries_needed > 1 then
      match fat_create_lfn_entries filename short_name with
      | .error err => .error (err, volume)
      | .ok (lfn_array, _) => fat_write_lfn_entries parent_cluster lfn_array volume current_index
    else .ok (volume, current_index)
  match lfn_written with
  | .error r => r
  | .ok (volume, current_index) =>
    let dir_entry := fat_dir_entry_t.zero
    let dir_entry := dir_entry.set_name short_name
    let dir_entry := dir_entry.set_attr attributes
    let dir_entry := dir_entry.set_create_times tm_info
    let dir_entry := fat_set_entry_cluster volume dir_entry file_cluster
    let dir_entry := dir_entry.set_file_size 0
    match fat_entry_location volume parent_cluster current_index with
    | .error err => (err, volume)
    | .ok (sector, offset) =>
      match fat_write_dir_entry volume sector offset dir_entry with
      | .error err => (err, volume)
      | .ok volume => (FAT_OK, volume)

/-- `strrchr(s, c)` for a character `c` other than NUL: the index of the last occurrence,
`none` for NULL. -/
def strrchr (s : List Nat) (c : Nat) : Option Nat :=
  if s.contains c then some (s.length - 1 - s.reverse.indexOf c) else none

/-- The handle that `fat_create` builds after the directory entries are written. -/
def fat_create_handle (volume : fat_volume_t) (short_name : List Nat) (attributes
    file_cluster parent_dir_cluster entry_index entries_needed : Nat) (tm_info : Option tm_t) :
    fat_file_t :=
  let dir_entry := fat_dir_entry_t.zero
  let dir_entry := dir_entry.set_name short_name
  let dir_entry := dir_entry.set_attr attributes
  let dir_entry := dir_entry.set_file_size 0
  let dir_entry := fat_set_entry_cluster volume dir_entry file_cluster
  let dir_entry := dir_entry.set_create_times tm_info
  { volume := volume, dir_entry := dir_entry, current_cluster := file_cluster, position := 0,
    dir_cluster := parent_dir_cluster,
    dir_entry_offset := sub32 (u32 (entry_index + entries_needed)) 1,
    flags := FAT_O_RDWR, modified := false, cluster_offset := 0 }

/-- `fat_create` of `fat_file_create.c`: the status, the volume as left behind and the
handle stored to `*file` (`none` for NULL); `malloc` is taken to succeed. `tm_info` is the
result of `localtime`, `stack_tail` the bytes following the local array `short_name`, `fuel`
bounds each directory search. -/
def fat_create (volume : fat_volume_t) (path : List Nat) (attributes : Nat)
    (tm_info : Option tm_t) (stack_tail : List Nat) (fuel : Nat) :
    Option (fat_error_t × fat_volume_t × Option fat_file_t) :=
  let (parent_path, filename) : List Nat × List Nat :=
    match strrchr path 0x2F with
    | some last_slash =>
      let parent_path := path.take last_slash
      let filename := path.drop (last_slash + 1)
      (if parent_path.length = 0 then [0x2F] else parent_path, filename)
    | none => ([0x2F], path)
  if !fat_validate_filename filename then some (FAT_ERR_INVALID_PARAM, volume, none)
  else
    match fat_resolve_path volume path fuel with
    | none => none
    | some (.ok _) => some (FAT_ERR_ALREADY_EXISTS, volume, none)
    | some (.error err) =>
      if err ≠ FAT_ERR_NOT_FOUND then some (err, volume, none)
      else
        match fat_resolve_path volume parent_path fuel with
        | none => none
        | some (.error err) => some (err, volume, none)
        | some (.ok (parent_entry, _, _)) =>
          if parent_entry.attr &&& FAT_ATTR_DIRECTORY = 0 then
            some (FAT_ERR_NOT_A_DIRECTORY, volume, none)
          else
            let parent_dir_cluster := fat_get_entry_cluster volume parent_entry
            let entries_needed := fat_calculate_entries_needed filename
            match fat_find_free_entry volume parent_dir_cluster entries_needed fuel with
            | none => none
            | some (.error err) => some (err, volume, none)
            | some (.ok entry_index) =>
              match fat_allocate_cluster volume with
              | .error err => some (err, volume, none)
              | .ok (volume, file_cluster) =>
                match fat_initialize_file_cluster volume file_cluster with
                | (.FAT_OK, volume) =>
                  match fat_generate_short_name filename volume parent_dir_cluster stack_tail
                      fuel with
                  | none => none
                  | some (.error err) =>
                    let volume :=
                      (fat_write_entry volume file_cluster FAT_FREE).toOption.getD volume
                    some (err, volume, none)
                  | some (.ok short_name) =>
                    match fat_create_directory_entries volume parent_dir_cluster entry_index
                        filename short_name file_cluster attributes tm_info with
                    | (.FAT_OK, volume) =>
                      some (FAT_OK, volume,
                        some (fat_create_handle volume short_name attributes file_cluster
                          parent_dir_cluster entry_index entries_needed tm_info))
                    | (err, volume) =>
                      let volume :=
                        (fat_write_entry volume file_cluster FAT_FREE).toOption.getD volume
                      some (err, volume, none)
                | (err, volume) =>
                  let volume :=
                    (fat_write_entry volume file_cluster FAT_FREE).toOption.getD volume
                  some (err, volume, none)

/-! ## Flushing and closing (`fat_volume.h`, `fat_file_close.c`) -/

/-- Modelled from the spec: the loop of `fat_flush` over the copies of the FAT still to
write (§4.2: rewrites all N copies of the FAT region); copy `i` starts at sector
`reserved_sector_count + i * fat_size_sectors`. -/
def fat_flush_copies (volume : fat_volume_t) :
    Nat → Nat → fat_block_device_t → Option fat_block_device_t
  | 0, _, device => some device
  | n + 1, i, device =>
    match write_sectors device (volume.reserved_sector_count + i * volume.fat_size_sectors)
        volume.fat_size_sectors volume.fat_cache with
    | none => none
    | some device => fat_flush_copies volume n (i + 1) device

/-- Modelled from the spec: `fat_flush` of the absent volume module (§4.2: if dirty,
rewrites all copies of the FAT region and clears the dirty flag; a device error is
reported as Device). -/
def fat_flush (volume : fat_volume_t) : fat_error_t × fat_volume_t :=
  if !volume.fat_dirty then (FAT_OK, volume)
  else
    match fat_flush_copies volume volume.num_fats 0 volume.device with
    | none => (FAT_ERR_DEVICE_ERROR, volume)
    | some device => (FAT_OK, { volume with device := device, fat_dirty := false })

/-- `fat_update_file_timestamps` of `fat_file.c`; `tm_info` is what `localtime` points
to. -/
def fat_update_file_timestamps (entry : fat_dir_entry_t) (tm_info : tm_t) : fat_dir_entry_t :=
  ⟨store16 (store16 entry.bytes 22 (fat_time_of tm_info)) 24 (fat_date_of tm_info)⟩

/-- `fat_validate_file_handle` of `fat_file_close.c`. -/
def fat_validate_file_handle (file : fat_file_t) : Bool :=
  if file.position > u32 (file.dir_entry.file_size + file.volume.bytes_per_cluster) then false
  else if file.dir_entry.file_size > 0xFFFFFFFF then false
  else true

/-- The cluster-chain walk of `fat_calculate_directory_entry_location`; the first argument
is `cluster_index - i`. -/
def fat_location_walk (volume : fat_volume_t) : Nat → Nat → Except fat_error_t Nat
  | 0, target_cluster => .ok target_cluster
  | n + 1, target_cluster =>
    match fat_get_next_cluster volume target_cluster with
    | .error _ => .error FAT_ERR_CORRUPTED
    | .ok target_cluster =>
      if fat_is_eoc volume target_cluster then .error FAT_ERR_CORRUPTED
      else fat_location_walk volume n target_cluster

/-- `fat_calculate_directory_entry_location` of `fat_file_close.c`: `(*sector, *offset)`. -/
def fat_calculate_directory_entry_location (file : fat_file_t) :
    Except fat_error_t (Nat × Nat) :=
  if file.dir_cluster = 0 ∧ file.volume.type ≠ FAT_TYPE_FAT32 then
    let entries_per_sector := file.volume.bytes_per_sector / 32
    let root_start_sector := u32 (file.volume.reserved_sector_count +
      u32 (file.volume.num_fats * file.volume.fat_size_sectors))
    .ok (u32 (root_start_sector + file.dir_entry_offset / entries_per_sector),
         u32 (file.dir_entry_offset % entries_per_sector * 32))
  else
    let entries_per_cluster := file.volume.bytes_per_cluster / 32
    let cluster_index := file.dir_entry_offset / entries_per_cluster
    let entry_in_cluster := file.dir_entry_offset % entries_per_cluster
    match fat_location_walk file.volume cluster_index file.dir_cluster with
    | .error err => .error err
    | .ok target_cluster =>
      let cluster_first_sector := fat_cluster_to_sector file.volume target_cluster
      let entries_per_sector := file.volume.bytes_per_sector / 32
      .ok (u32 (cluster_first_sector + entry_in_cluster / entries_per_sector),
           u32 (entry_in_cluster % entries_per_sector * 32))

/-- `fat_update_directory_entry` of `fat_file_close.c`: the status and the volume as left
behind. -/
def fat_update_directory_entry (file : fat_file_t) (entry : fat_dir_entry_t) :
    fat_error_t × fat_volume_t :=
  match fat_calculate_directory_entry_location file with
  | .error err => (err, file.volume)
  | .ok (sector, offset) =>
    match fat_write_dir_entry file.volume sector offset entry with
    | .error err => (err, file.volume)
    | .ok volume => (FAT_OK, volume)

/-- `fat_flush_file_data` of `fat_file_close.c`. -/
def fat_flush_file_data (file : fat_file_t) : fat_error_t × fat_volume_t :=
  fat_flush file.volume

/-- `fat_close` of `fat_file_close.c`: the status and the volume as left behind (the handle
is freed). `tm_info` is what `localtime` points to. -/
def fat_close (file : fat_file_t) (tm_info : tm_t) : fat_error_t × fat_volume_t :=
  if !fat_validate_file_handle file then (FAT_ERR_INVALID_PARAM, file.volume)
  else if file.modified then
    let file := { file with dir_entry := fat_update_file_timestamps file.dir_entry tm_info }
    let (err, volume) := fat_update_directory_entry file file.dir_entry
    let result := if err ≠ FAT_OK then err else FAT_OK
    let file := { file with volume := volume }
    let (err, volume) := fat_flush_file_data file
    let result := if err ≠ FAT_OK ∧ result = FAT_OK then err else result
    (result, volume)
  else (FAT_OK, file.volume)

/-! ## Deleting (`fat_file_delete.c`) -/

/-- `fat_validate_delete_permissions` of `fat_file_delete.c`. -/
def fat_validate_delete_permissions (entry : fat_dir_entry_t) : Bool :=
  if entry.attr &&& FAT_ATTR_READ_ONLY ≠ 0 then false
  else if entry.attr &&& FAT_ATTR_DIRECTORY ≠ 0 then false
  else if entry.attr &&& FAT_ATTR_VOLUME_ID ≠ 0 then false
  else true

/-- The cluster-chain walk inside the backward loop of `fat_find_lfn_entries`, which
leaves its `for` loop at the first error and goes on with the cluster reached; the first
argument is `cluster_index - i`. -/
def fat_walk_while_ok (volume : fat_volume_t) : Nat → Nat → Nat
  | 0, target_cluster => target_cluster
  | n + 1, target_cluster =>
    match fat_get_next_cluster volume target_cluster with
    | .error _ => target_cluster
    | .ok target_cluster => fat_walk_while_ok volume n target_cluster

/-- The `while(current_index > 0)` loop of `fat_find_lfn_entries`; the first argument is
`current_index`. `.error (start, count)` stands for the `return FAT_OK` inside the loop
with these values stored, `.ok (current_index, lfn_entries_found)` for leaving the loop. -/
def fat_find_lfn_entries_loop (volume : fat_volume_t) (parent_cluster expected_checksum : Nat) :
    Nat → Nat → Except (Nat × Nat) (Nat × Nat)
  | 0, lfn_entries_found => .ok (0, lfn_entries_found)
  | current_index + 1, lfn_entries_found =>
    let is_root_fat12 := parent_cluster = 0 ∧ volume.type ≠ FAT_TYPE_FAT32
    let (sector, offset) : Nat × Nat :=
      if is_root_fat12 then
        let entries_per_sector := volume.bytes_per_sector / 32
        let root_start := u32 (volume.reserved_sector_count +
          u32 (volume.num_fats * volume.fat_size_sectors))
        (u32 (root_start + current_index / entries_per_sector),
         u32 (current_index % entries_per_sector * 32))
      else
        let entries_per_cluster := volume.bytes_per_cluster / 32
        let cluster_index := current_index / entries_per_cluster
        let target_cluster := fat_walk_while_ok volume cluster_index parent_cluster
        (fat_cluster_to_sector volume target_cluster,
         u32 (current_index % entries_per_cluster * 32))
    match fat_read_dir_entry volume sector offset with
    | .error _ => .ok (current_index, lfn_entries_found)
    | .ok lfn_entry =>
      if lfn_entry.attr ≠ FAT_ATTR_LONG_NAME then .ok (current_index, lfn_entries_found)
      else if lfn_entry.checksum ≠ expected_checksum then
        .ok (current_index, lfn_entries_found)
      else
        let lfn_entries_found := u32 (lfn_entries_found + 1)
        if lfn_entry.order &&& 0x40 ≠ 0 then .error (current_index, lfn_entries_found)
        else
          fat_find_lfn_entries_loop volume parent_cluster expected_checksum current_index
            lfn_entries_found

/-- `fat_find_lfn_entries` of `fat_file_delete.c`: `(*lfn_start_index, *lfn_count)`, or the
error. -/
def fat_find_lfn_entries (volume : fat_volume_t) (parent_cluster entry_index : Nat) :
    Except fat_error_t (Nat × Nat) :=
  if entry_index = 0 then .ok (entry_index, 0)
  else
    match fat_entry_location volume parent_cluster entry_index with
    | .error err => .error err
    | .ok (sector, offset) =>
      match fat_read_dir_entry volume sector offset with
      | .error err => .error err
      | .ok main_entry =>
        let expected_checksum := fat_calculate_lfn_checksum main_entry.name
        match fat_find_lfn_entries_loop volume parent_cluster expected_checksum entry_index 0
        with
        | .error (lfn_start_index, lfn_count) => .ok (lfn_start_index, lfn_count)
        | .ok (current_index, lfn_entries_found) =>
          if lfn_entries_found > 0 then .ok (u32 (current_index + 1), lfn_entries_found)
          else .ok (entry_index, 0)

namespace fat_dir_entry_t

/-- The assignment `entry.name[0] = FAT_DIR_ENTRY_DELETED`. -/
def mark_deleted (e : fat_dir_entry_t) : fat_dir_entry_t :=
  ⟨e.bytes.set 0 FAT_DIR_ENTRY_DELETED⟩

end fat_dir_entry_t

/-- The loop of `fat_delete_directory_entries` over the LFN slots; the first argument is
`lfn_count - i`. `.error` stands for the `return err` inside the loop, `.ok` carries
`result` and the volume after the loop. -/
def fat_delete_lfn_slots (parent_cluster lfn_start_index : Nat) :
    Nat → Nat → fat_error_t → fat_volume_t →
    Except (fat_error_t × fat_volume_t) (fat_error_t × fat_volume_t)
  | 0, _, result, volume => .ok (result, volume)
  | n + 1, i, result, volume =>
    let lfn_index := u32 (lfn_start_index + i)
    match fat_entry_location volume parent_cluster lfn_index with
    | .error err => .error (err, volume)
    | .ok (sector, offset) =>
      match fat_read_dir_entry volume sector offset with
      | .error err =>
        fat_delete_lfn_slots parent_cluster lfn_start_index n (i + 1)
          (if result = FAT_OK then err else result) volume
      | .ok entry =>
        let entry := entry.mark_deleted
        match fat_write_dir_entry volume sector offset entry with
        | .error err =>
          fat_delete_lfn_slots parent_cluster lfn_start_index n (i + 1)
            (if result = FAT_OK then err else result) volume
        | .ok volume =>
          fat_delete_lfn_slots parent_cluster lfn_start_index n (i + 1) result volume

/-- `fat_delete_directory_entries` of `fat_file_delete.c`: the status and the volume as left
behind. -/
def fat_delete_directory_entries (volume : fat_volume_t) (parent_cluster entry_index : Nat)
    (has_lfn : Bool) : fat_error_t × fat_volume_t :=
  let lfn_done : Except (fat_error_t × fat_volume_t) (fat_error_t × fat_volume_t) :=
    if has_lfn then
      match fat_find_lfn_entries volume parent_cluster entry_index with
      | .error _ => .ok (FAT_OK, volume)
      | .ok (lfn_start_index, lfn_count) =>
        if lfn_count > 0 then
          fat_delete_lfn_slots parent_cluster lfn_start_index lfn_count 0 FAT_OK volume
        else .ok (FAT_OK, volume)
    else .ok (FAT_OK, volume)
  match lfn_done with
  | .error r => r
  | .ok (result, volume) =>
    match fat_entry_location volume parent_cluster entry_index with
    | .error err => (err, volume)
    | .ok (sector, offset) =>
      match fat_read_dir_entry volume sector offset with
      | .error err => (if result ≠ FAT_OK then result else err, volume)
      | .ok main_entry =>
        let main_entry := main_entry.mark_deleted
        match fat_write_dir_entry volume sector offset main_entry with
        | .error err => (if result = FAT_OK then err else result, volume)
        | .ok volume => (result, volume)

/-- The `while` loop of `fat_delete_file_clusters`, one iteration per unit of fuel: the
volume when the loop is left. -/
def fat_delete_file_clusters_loop : Nat → fat_volume_t → Nat → Nat → Option fat_volume_t
  | fuel, volume, current_cluster, clusters_freed =>
    if ¬ (current_cluster ≥ 2 ∧ current_cluster < u32 (volume.total_clusters + 2)) then
      some volume
    else
      match fuel with
      | 0 => none
      | fuel + 1 =>
        let next_cluster :=
          match fat_get_next_cluster volume current_cluster with
          | .error _ => 0
          | .ok next_cluster => next_cluster
        let (volume, clusters_freed) :=
          match fat_write_entry volume current_cluster FAT_FREE with
          | .error _ => (volume, clusters_freed)
          | .ok volume => (volume, u32 (clusters_freed + 1))
        if fat_is_eoc volume next_cluster ∨ next_cluster < 2 then some volume
        else
          let current_cluster := next_cluster
          if clusters_freed > volume.total_clusters then some volume
          else fat_delete_file_clusters_loop fuel volume current_cluster clusters_freed

/-- `fat_delete_file_clusters` of `fat_file_delete.c`: the status and the volume as left
behind (`fat_update_free_cluster_count` changes nothing and returns `FAT_OK`). -/
def fat_delete_file_clusters (volume : fat_volume_t) (start_cluster : Nat) (fuel : Nat) :
    Option (fat_error_t × fat_volume_t) :=
  if start_cluster < 2 then some (FAT_ERR_INVALID_PARAM, volume)
  else
    match fat_delete_file_clusters_loop fuel volume start_cluster 0 with
    | none => none
    | some volume => some (FAT_OK, volume)

/-- `fat_unlink` of `fat_file_delete.c`: the status and the volume as left behind. `fuel`
bounds each directory search and the cluster walk. -/
def fat_unlink (volume : fat_volume_t) (path : List Nat) (fuel : Nat) :
    Option (fat_error_t × fat_volume_t) :=
  match fat_resolve_path volume path fuel with
  | none => none
  | some (.error err) => some (err, volume)
  | some (.ok (file_entry, parent_cluster, entry_index)) =>
    if !fat_validate_delete_permissions file_entry then some (FAT_ERR_READ_ONLY, volume)
    else
      let start_cluster := fat_get_entry_cluster volume file_entry
      let freed : Option fat_volume_t :=
        if start_cluster ≥ 2 then
          (fat_delete_file_clusters volume start_cluster fuel).map fun r => r.2
        else some volume
      match freed with
      | none => none
      | some volume =>
        let has_lfn := true
        match fat_delete_directory_entries volume parent_cluster entry_index has_lfn with
        | (.FAT_OK, volume) =>
          match fat_flush volume with
          | (.FAT_OK, volume) => some (FAT_OK, volume)
          | (err, volume) => some (err, volume)
        | (err, volume) => some (err, volume)

/-! ## Observation helpers -/

/-- The status code a C function returns: `FAT_OK` on the success path. -/
def status {α : Type} (r : Except fat_error_t α) : fat_error_t :=
  match r with
  | .ok _ => FAT_OK
  | .error e => e

/-- The successor of cluster `c` on a chain (§3, Cluster chain): the FAT entry of `c`, unless
`c` cannot be read or its entry is an end-of-chain marker, where the chain ends. -/
def chain_next (volume : fat_volume_t) (c : Nat) : Option Nat :=
  match fat_read_entry volume c with
  | .error _ => none
  | .ok v => if fat_is_eoc volume v then none else some v

/-- The `k`-th cluster of the chain followed from `start` (`start` itself for `k = 0`), or
`none` when the chain has ended before. -/
def chain_at (volume : fat_volume_t) (start : Nat) : Nat → Option Nat
  | 0 => some start
  | k + 1 => (chain_at volume start k).bind (chain_next volume)

/-! ## Example volumes -/

/-- A volume of the given type with `T` data clusters, 512-byte sectors, 8 sectors per
cluster, a 224-entry fixed root and the given FAT cache and device. -/
def example_volume (type : fat_type_t) (T : Nat) (fat_cache : List Nat)
    (device : fat_block_device_t) : fat_volume_t :=
  { type := type, bytes_per_sector := 512, sectors_per_cluster := 8, bytes_per_cluster := 4096,
    reserved_sector_count := 1, num_fats := 2, fat_size_sectors := 9, root_entry_count := 224,
    root_dir_sectors := 14, data_begin_sector := 33, root_cluster := 2, total_clusters := T,
    fat_cache := fat_cache, fat_dirty := false, device := device }

/-- A working device whose bytes are all zero. -/
def blank_device : fat_block_device_t :=
  { sector_size := 512, data := fun _ => 0, read_ok := true, write_ok := true }

/-- FAT16 cache image holding the given entry values from entry 0 on. -/
def fat16_image (entries : List Nat) : List Nat :=
  entries.flatMap fun v => [v % 256, v / 256 % 256]

/-- FAT32 cache image holding the given raw 32-bit slots from entry 0 on. -/
def fat32_image (entries : List Nat) : List Nat :=
  entries.flatMap fun v => [v % 256, v / 256 % 256, v / 65536 % 256, v / 16777216 % 256]


/-- Fresh FAT16 volume with 1000 data clusters: every FAT entry is 0. -/
def fresh_volume_1000 : fat_volume_t :=
  example_volume FAT_TYPE_FAT16 1000 (List.replicate 2004 0) blank_device

/-- FAT16 volume with 4 data clusters; clusters 2 and 3 are in use (both end a chain),
clusters 4 and 5 are free. -/
def volume_two_used : fat_volume_t :=
  example_volume FAT_TYPE_FAT16 4 (fat16_image [0xFFF8, 0xFFFF, 0xFFFF, 0xFFFF, 0, 0])
    blank_device

/-- FAT12 volume with 2 data clusters: entry 2 is 0x000 and entry 3 is 0xFFF. -/
def volume_fat12 : fat_volume_t :=
  example_volume FAT_TYPE_FAT12 2 [0xF8, 0xFF, 0xFF, 0x00, 0xF0, 0xFF] blank_device

/-- FAT32 volume with 1 data cluster whose slot holds value 0 and reserved top bits 0xF. -/
def volume_fat32_reserved : fat_volume_t :=
  example_volume FAT_TYPE_FAT32 1 (fat32_image [0x0FFFFFF8, 0x0FFFFFFF, 0xF0000000])
    blank_device

/-- FAT32 volume with 1 data cluster: the one-cluster chain 2 -> EOC. -/
def volume_fat32_chain : fat_volume_t :=
  example_volume FAT_TYPE_FAT32 1 (fat32_image [0x0FFFFFF8, 0x0FFFFFFF, 0x0FFFFFFF])
    blank_device

/-- FAT16 volume with 2 data clusters: FAT[2] = 3 and FAT[3] = 0. -/
def volume_broken_link : fat_volume_t :=
  example_volume FAT_TYPE_FAT16 2 (fat16_image [0xFFF8, 0xFFFF, 3, 0]) blank_device

/-- FAT16 volume with 3 data clusters: FAT[2] = 3, FAT[3] = 4, FAT[4] = 3 (a cycle 3, 4
behind the tail 2). -/
def volume_cycle : fat_volume_t :=
  example_volume FAT_TYPE_FAT16 3 (fat16_image [0xFFF8, 0xFFFF, 3, 4, 3]) blank_device

/-- A short directory entry with the given 11-byte name, attribute, first cluster and size;
the time and date fields are 0. -/
def example_entry (name : List Nat) (attr cluster size : Nat) : fat_dir_entry_t :=
  ⟨(List.range 11).map (fun k => name.getD k 0x20) ++ [attr] ++ List.replicate 8 0 ++
    [cluster / 65536 % 256, cluster / 16777216 % 256] ++ List.replicate 4 0 ++
    [cluster % 256, cluster / 256 % 256] ++
    [size % 256, size / 256 % 256, size / 65536 % 256, size / 16777216 % 256]⟩

/-- A handle as `fat_init_file_handle` leaves it: position 0, current cluster the first
cluster of the entry. -/
def example_handle (volume : fat_volume_t) (dir_entry : fat_dir_entry_t) (flags : Nat) :
    fat_file_t :=
  { volume := volume, dir_entry := dir_entry,
    current_cluster := fat_get_entry_cluster volume dir_entry, position := 0,
    dir_cluster := 0, dir_entry_offset := 0, flags := flags, modified := false,
    cluster_offset := 0 }

/-- FAT16 volume with 4 data clusters (4096-byte clusters, 512-byte sectors) on a blank
working device; cluster 2 is a one-cluster chain. -/
def volume_one_cluster : fat_volume_t :=
  example_volume FAT_TYPE_FAT16 4 (fat16_image [0xFFF8, 0xFFFF, 0xFFFF, 0, 0, 0]) blank_device

/-- Read-write handle on a 1024-byte file in cluster 2 of `volume_one_cluster`. -/
def handle_1024 : fat_file_t :=
  example_handle volume_one_cluster (example_entry [0x44, 0x41, 0x54, 0x41] 0x20 2 1024)
    FAT_O_RDWR

/-- Read-write handle on a 10-byte file in cluster 2 of `volume_one_cluster`. -/
def handle_10 : fat_file_t :=
  example_handle volume_one_cluster (example_entry [0x44, 0x41, 0x54, 0x41] 0x20 2 10)
    FAT_O_RDWR

/-- Read-write handle on an empty file without clusters on `volume_one_cluster`. -/
def handle_empty : fat_file_t :=
  example_handle volume_one_cluster (example_entry [0x44, 0x41, 0x54, 0x41] 0x20 0 0)
    FAT_O_RDWR

/-- The 8.3 name `HELLO   TXT`. -/
def name_HELLO_TXT : List Nat :=
  [0x48, 0x45, 0x4C, 0x4C, 0x4F, 0x20, 0x20, 0x20, 0x54, 0x58, 0x54]

/-- The C string `hello.txt`. -/
def name_hello_txt : List Nat := [0x68, 0x65, 0x6C, 0x6C, 0x6F, 0x2E, 0x74, 0x78, 0x74]

/-- The short entry `HELLO.TXT` (archive attribute, first cluster 4, 10 bytes). -/
def entry_hello : fat_dir_entry_t := example_entry name_HELLO_TXT 0x20 4 10

/-- A working device whose 512-byte sector `first` holds 16 deleted slots (first byte 0xE5)
and whose next sector starts with the entry `HELLO.TXT`; all other bytes are 0. -/
def directory_device (first : Nat) : fat_block_device_t :=
  { sector_size := 512,
    data := fun a =>
      if first * 512 ≤ a ∧ a < (first + 1) * 512 then (if a % 32 = 0 then 0xE5 else 0)
      else if (first + 1) * 512 ≤ a ∧ a < (first + 1) * 512 + 32 then
        entry_hello.bytes.getD (a - (first + 1) * 512) 0
      else 0,
    read_ok := true, write_ok := true }

/-- FAT16 volume (B = 512, 16 entries per sector, E = 224, fixed root at sector 19) whose
root holds deleted slots at indices 0..15 and its only entry, `HELLO.TXT`, at index 16. -/
def volume_root_16 : fat_volume_t :=
  example_volume FAT_TYPE_FAT16 4 (fat16_image [0xFFF8, 0xFFFF, 0, 0, 0xFFFF, 0])
    (directory_device 19)

/-- FAT16 volume with one sector per cluster (512-byte clusters, data region at sector 33):
the directory chain 2 -> 3 -> EOC holds deleted slots at indices 0..15 (cluster 2) and its
only entry, `HELLO.TXT`, at index 16 (first slot of cluster 3). -/
def volume_chain_16 : fat_volume_t :=
  { example_volume FAT_TYPE_FAT16 4 (fat16_image [0xFFF8, 0xFFFF, 3, 0xFFFF, 0xFFFF, 0])
      (directory_device 33) with
    sectors_per_cluster := 1, bytes_per_cluster := 512 }

/-- A callback that always returns `FAT_OK` and appends the entry and the index it is given
to the user data. -/
def recording_callback : fat_dir_iterator_callback (List (fat_dir_entry_t × Nat)) :=
  fun entry _ entry_index user_data => (FAT_OK, user_data ++ [(entry, entry_index)])

/-- FAT16 volume whose 224-entry fixed root is empty (every slot 0x00), on a working
device. -/
def volume_empty_root : fat_volume_t :=
  example_volume FAT_TYPE_FAT16 4 (fat16_image [0xFFF8, 0xFFFF, 0, 0, 0, 0]) blank_device

/-- A working device whose 512-byte sector `sector` starts with the entry `HELLO.TXT`; all
other bytes are 0. -/
def device_with_entry (sector : Nat) : fat_block_device_t :=
  { sector_size := 512,
    data := fun a =>
      if sector * 512 ≤ a ∧ a < sector * 512 + 32 then entry_hello.bytes.getD (a - sector * 512) 0
      else 0,
    read_ok := true, write_ok := true }

/-- FAT16 volume whose fixed root holds `HELLO.TXT` in slot 0 and free slots (0x00) from
slot 1 on. -/
def volume_root_one_entry : fat_volume_t :=
  example_volume FAT_TYPE_FAT16 4 (fat16_image [0xFFF8, 0xFFFF, 0, 0, 0xFFFF, 0])
    (device_with_entry 19)

/-- The 14-character long name `ABCDEFGHIJKLMN`. -/
def name_14_chars : List Nat :=
  [0x41, 0x42, 0x43, 0x44, 0x45, 0x46, 0x47, 0x48, 0x49, 0x4A, 0x4B, 0x4C, 0x4D, 0x4E]

/-- The fragment `fat_parse_lfn` returns for the entry of `entries` whose sequence number
(`order & 0x3F`) is `seq`; empty when there is no such entry or the parse fails. -/
def lfn_fragment (entries : List fat_dir_entry_t) (seq : Nat) : List Nat :=
  match entries.find? fun e => e.order &&& 0x3F = seq with
  | some e => (fat_parse_lfn e).toOption.getD []
  | none => []

/-- The fragments of `entries` concatenated in ascending sequence-number order
1, 2, ..., n, where n is the number of entries. -/
def lfn_name_ascending (entries : List fat_dir_entry_t) : List Nat :=
  (List.range entries.length).flatMap fun s => lfn_fragment entries (s + 1)

/-- The fragments of `entries` concatenated in array order (index 0, 1, ...). -/
def lfn_name_array_order (entries : List fat_dir_entry_t) : List Nat :=
  entries.flatMap fun e => (fat_parse_lfn e).toOption.getD []

/-- The checksum as §4.7 of the specification words it: start at 0 and, for each of the
bytes in order, set `cs = ((cs odd ? 0x80 : 0) + cs / 2 + byte) mod 256`. -/
def lfn_checksum_spec (n : List Nat) : Nat :=
  n.foldl (fun cs b => ((if cs % 2 = 1 then 0x80 else 0) + cs / 2 + b) % 256) 0

/-- The 13 UTF-16 code units of an LFN entry, each composed little-endian from its two
bytes: the 5 of `name1` (offset 1), the 6 of `name2` (offset 14), the 2 of `name3`
(offset 28). -/
def lfn_code_units (e : fat_dir_entry_t) : List Nat :=
  (List.range 5).map (fun k => load16 e.bytes (1 + 2 * k)) ++
  (List.range 6).map (fun k => load16 e.bytes (14 + 2 * k)) ++
  (List.range 2).map (fun k => load16 e.bytes (28 + 2 * k))

/-- A code unit that is neither the terminator 0x0000 nor the padding 0xFFFF. -/
def lfn_is_char (ch : Nat) : Bool := decide (ch ≠ 0x0000 ∧ ch ≠ 0xFFFF)

/-- The code units the loop `fat_parse_lfn_field field n i` looks at. -/
def lfn_field_units (field : List Nat) : Nat → Nat → List Nat
  | 0, _ => []
  | n + 1, i =>
    (field.getD i 0 ||| (field.getD (i + 1) 0 <<< 8)) :: lfn_field_units field n (i + 2)

/-- FAT16 volume with 2 data clusters, both in use: the chain 2 -> 3 -> EOC. No cluster has
entry 0. -/
def volume_full : fat_volume_t :=
  example_volume FAT_TYPE_FAT16 2 (fat16_image [0xFFF8, 0xFFFF, 3, 0xFFFF]) blank_device

/-- A clock reading: 1 January 2026, 12:00:00. -/
def noon : tm_t :=
  { tm_sec := 0, tm_min := 0, tm_hour := 12, tm_mday := 1, tm_mon := 0, tm_year := 126 }

/-- FAT16 volume with an empty fixed root whose cluster 2 is marked bad (0xFFF7); clusters
3, 4, 5 are free. -/
def volume_bad_cluster : fat_volume_t :=
  example_volume FAT_TYPE_FAT16 4 (fat16_image [0xFFF8, 0xFFFF, 0xFFF7, 0, 0, 0]) blank_device

/-- The sequence `fat_create("A")`, `fat_close`, `fat_unlink("A")`, `fat_resolve_path("A")`
on `volume`: the four statuses and the FAT cache at the end, when `fat_create` has produced
a handle. -/
def create_close_unlink (volume : fat_volume_t) (fuel : Nat) :
    Option (fat_error_t × fat_error_t × fat_error_t × fat_error_t × List Nat) :=
  match fat_create volume [0x41] 0x20 (some noon) [] fuel with
  | some (created, _, some file) =>
    let (closed, volume) := fat_close file noon
    match fat_unlink volume [0x41] fuel with
    | some (unlinked, volume) =>
      match fat_resolve_path volume [0x41] fuel with
      | some r => some (created, closed, unlinked, status r, volume.fat_cache)
      | none => none
    | none => none
  | _ => none

/-- The C string `con.txt`. -/
def name_con_txt : List Nat := [0x63, 0x6F, 0x6E, 0x2E, 0x74, 0x78, 0x74]

/-- The C string `Nul`. -/
def name_Nul : List Nat := [0x4E, 0x75, 0x6C]

/-- The C string `CON.txt`. -/
def name_CON_txt : List Nat := [0x43, 0x4F, 0x4E, 0x2E, 0x74, 0x78, 0x74]

/-- The base position of a seek as §4.9 of the specification names it: 0 for `FAT_SEEK_SET`,
the handle's position for `FAT_SEEK_CUR`, the file size for `FAT_SEEK_END`. -/
def seek_base (file : fat_file_t) (whence : Nat) : Int :=
  if whence = FAT_SEEK_SET then 0
  else if whence = FAT_SEEK_CUR then (file.position : Int)
  else (file.dir_entry.file_size : Int)

/-- FAT12 volume with 2 data clusters whose entries 2 and 3 are both 0 (free), as after a
format. -/
def volume_fat12_fresh : fat_volume_t :=
  example_volume FAT_TYPE_FAT12 2 [0xF8, 0xFF, 0xFF, 0x00, 0x00, 0x00] blank_device

/-- The FAT cache after `fat_write_entry(2, 0xABC)` followed by `fat_write_entry(3, 0x123)`,
when both calls return `FAT_OK`. -/
def write_two_entries (volume : fat_volume_t) : Option (List Nat) :=
  match fat_write_entry volume 2 0xABC with
  | .error _ => none
  | .ok volume =>
    match fat_write_entry volume 3 0x123 with
    | .error _ => none
    | .ok volume => some volume.fat_cache

/-- A working device whose bytes are 0xAA below the first sector of cluster 3 (sector 41 with
the layout of `example_volume`) and 0xBB from there on. -/
def two_tone_device : fat_block_device_t :=
  { sector_size := 512, data := fun a => if a < 41 * 512 then 0xAA else 0xBB,
    read_ok := true, write_ok := true }

/-- FAT16 volume with 4 data clusters of 4096 bytes: the chain 2 -> 3 -> EOC; cluster 2 holds
the bytes 0xAA, cluster 3 the bytes 0xBB. -/
def volume_two_clusters : fat_volume_t :=
  example_volume FAT_TYPE_FAT16 4 (fat16_image [0xFFF8, 0xFFFF, 3, 0xFFFF, 0, 0]) two_tone_device

/-- Read-only handle at position 0 on the 8192-byte file that occupies clusters 2 and 3 of
`volume_two_clusters`. -/
def handle_8192 : fat_file_t :=
  example_handle volume_two_clusters (example_entry [0x44, 0x41, 0x54, 0x41] 0x20 2 8192)
    FAT_O_RDONLY

/-- What a call of `fat_read` shows to its caller: the returned count or error, the position
of the handle afterwards, and the number, the first and the last of the bytes delivered. -/
def read_outcome (r : Option (io_result × fat_file_t × List Nat)) :
    Option (io_result × Nat × Nat × Nat × Nat) :=
  r.map fun x => (x.1, x.2.1.position, x.2.2.length, x.2.2.getD 0 0,
    x.2.2.getD (x.2.2.length - 1) 0)

/-- The call `fat_read(n1)` followed by `fat_read(n2)` on the handle the first call leaves:
the outcome of the second call. -/
def read_twice (file : fat_file_t) (n1 n2 fuel : Nat) :
    Option (io_result × fat_file_t × List Nat) :=
  match fat_read file n1 fuel with
  | none => none
  | some (_, file, _) => fat_read file n2 fuel

/-- FAT16 volume with 8 sectors per cluster whose cluster 2 is a one-cluster directory
(FAT[2] = EOC): sector 33, the first of the cluster, holds deleted slots at indices 0..15 and
sector 34 starts with the entry `HELLO.TXT`, which is slot 16 of the directory. -/
def volume_subdir_16 : fat_volume_t :=
  example_volume FAT_TYPE_FAT16 4 (fat16_image [0xFFF8, 0xFFFF, 0xFFFF, 0, 0xFFFF, 0])
    (directory_device 33)

/-- FAT32 volume with 1 data cluster whose slot holds 0x0FFFFFF8. -/
def volume_fat32_eoc : fat_volume_t :=
  example_volume FAT_TYPE_FAT32 1 (fat32_image [0x0FFFFFF8, 0x0FFFFFFF, 0x0FFFFFF8])
    blank_device

/-- The C string `ABCDEFGHIJKL` (12 characters, no dot). -/
def name_12_chars : List Nat :=
  [0x41, 0x42, 0x43, 0x44, 0x45, 0x46, 0x47, 0x48, 0x49, 0x4A, 0x4B, 0x4C]

/-- The C string `a.b.c`. -/
def name_a_b_c : List Nat := [0x61, 0x2E, 0x62, 0x2E, 0x63]

/-- The 8.3 name `ABCDEF~1   `. -/
def name_ABCDEF_1 : List Nat :=
  [0x41, 0x42, 0x43, 0x44, 0x45, 0x46, 0x7E, 0x31, 0x20, 0x20, 0x20]

/-- An LFN slot in the on-disk layout of §3: the order byte, the 13 UTF-16 code units
`units` split 5/6/2 little-endian over `name1`, `name2`, `name3`, attr 0x0F, type 0, the
checksum, and first_cluster_low 0. -/
def lfn_slot (order checksum : Nat) (units : List Nat) : fat_dir_entry_t :=
  let le (k : Nat) : List Nat := [units.getD k 0 % 256, units.getD k 0 / 256 % 256]
  ⟨[order] ++ (List.range 5).flatMap le ++ [0x0F, 0, checksum]
    ++ (List.range 6).flatMap (fun k => le (5 + k)) ++ [0, 0]
    ++ (List.range 2).flatMap (fun k => le (11 + k))⟩

/-- A working device whose sector `sector` starts with the given directory entries; all
other bytes are 0. -/
def device_with_entries (sector : Nat) (entries : List fat_dir_entry_t) : fat_block_device_t :=
  { sector_size := 512,
    data := fun a =>
      if sector * 512 ≤ a ∧ a < sector * 512 + 32 * entries.length then
        (entries.getD ((a - sector * 512) / 32) ⟨[]⟩).bytes.getD ((a - sector * 512) % 32) 0
      else 0,
    read_ok := true, write_ok := true }

/-- The slots 0..3 of a directory that stores the 14-character name `ABCDEFGHIJKLMN` for the
short entry `ABCDEF~1`: `HELLO.TXT` at index 0, the LFN slot with sequence number 2 and bit
0x40 (the character `N`, the terminator 0x0000 and 0xFFFF padding) at index 1, the LFN slot
with sequence number 1 (the first 13 characters) at index 2, the owner at index 3. -/
def lfn_directory : List fat_dir_entry_t :=
  [entry_hello,
   lfn_slot 0x42 (fat_calculate_lfn_checksum name_ABCDEF_1)
     ([0x4E, 0x0000] ++ List.replicate 11 0xFFFF),
   lfn_slot 0x01 (fat_calculate_lfn_checksum name_ABCDEF_1) (name_14_chars.take 13),
   example_entry name_ABCDEF_1 0x20 5 10]

/-- FAT16 volume whose fixed root (sector 19) holds `lfn_directory`. -/
def volume_lfn_root : fat_volume_t :=
  example_volume FAT_TYPE_FAT16 4 (fat16_image [0xFFF8, 0xFFFF, 0, 0, 0xFFFF, 0xFFFF])
    (device_with_entries 19 lfn_directory)

/-! # Verified properties -/

/-! ## FAT table and cluster engine -/

theorem getD_replicate_zero (n i : Nat) : (List.replicate n 0).getD i 0 = 0 := by
  by_cases h : i < n
  · rw [List.getD_eq_getElem _ _ (by simpa using h)]; simp
  · exact List.getD_eq_default _ _ (by simpa using h)

/-- When every readable entry is free, the allocation scan runs to its end. -/
theorem fat_allocate_cluster_loop_all_free (volume : fat_volume_t)
    (h : ∀ c v, fat_read_entry volume c = .ok v → v = FAT_FREE) (n c : Nat) :
    fat_allocate_cluster_loop volume n c = .error FAT_ERR_DISK_FULL := by
  induction n generalizing c with
  | zero => rfl
  | succ n ih =>
    unfold fat_allocate_cluster_loop
    cases hr : fat_read_entry volume c with
    | error e => simpa using ih (c + 1)
    | ok v =>
      have hv := h c v hr
      subst hv
      simpa using ih (c + 1)

theorem fresh_volume_1000_read (c v : Nat) (h : fat_read_entry fresh_volume_1000 c = .ok v) :
    v = FAT_FREE := by
  unfold fat_read_entry at h
  split at h
  · cases h
  · simp only [fresh_volume_1000, example_volume, load16, getD_replicate_zero] at h
    cases h
    rfl

/-- C1 (code defect): `fat_allocate_cluster` takes the first cluster whose entry is NOT free
(`value != FAT_FREE`). On a fresh volume with T = 1000 (every entry 0) it returns
`FAT_ERR_DISK_FULL`; on a volume where clusters 2, 3 are in use and 4 is the lowest free
cluster it returns cluster 2 and leaves the free cluster 4 free. -/
theorem fat_allocate_cluster_picks_used_cluster :
    status (fat_allocate_cluster fresh_volume_1000) = FAT_ERR_DISK_FULL ∧
    fat_read_entry volume_two_used 2 = .ok 0xFFFF ∧
    fat_read_entry volume_two_used 4 = .ok 0 ∧
    (fat_allocate_cluster volume_two_used).toOption.map Prod.snd = some 2 ∧
    (fat_allocate_cluster volume_two_used).toOption.map
      (fun r => fat_read_entry r.1 4) = some (.ok 0) := by
  refine ⟨?_, by decide, by decide, by decide, by decide⟩
  unfold fat_allocate_cluster
  rw [fat_allocate_cluster_loop_all_free _ fresh_volume_1000_read]
  rfl

/-- C2 (code defect): on FAT12 the odd-cluster branch of `fat_write_entry` keeps
`entry & 0x0FFF` instead of `entry & 0x000F`, so the old bits 4..11 are OR-ed into the new
value: with entry 3 holding 0xFFF, writing 0x123 to cluster 3 makes `fat_read_entry(3)`
return 0x1FF. Clusters 3 and 3 XOR 1 = 2 are both valid and 0x123 <= 0xFFF. -/
theorem fat12_write_odd_then_read_differs :
    is_valid_cluster volume_fat12 3 = true ∧ is_valid_cluster volume_fat12 (3 ^^^ 1) = true ∧
    fat_read_entry volume_fat12 3 = .ok 0xFFF ∧
    (fat_write_entry volume_fat12 3 0x123).toOption.map (fun v => fat_read_entry v 3)
      = some (.ok 0x1FF) := by
  decide

/-- C3 (code defect): on FAT32 `fat_write_entry` masks the current slot with 0x0FFFFFFF
instead of 0xF0000000, so the reserved top 4 bits are cleared: a slot 0xF0000000 (bits 28..31
equal to 0xF) has bits 28..31 equal to 0 after writing value 5 to it. -/
theorem fat32_write_clears_reserved_bits :
    load32 volume_fat32_reserved.fat_cache (2 * 4) >>> 28 = 0xF ∧
    (fat_write_entry volume_fat32_reserved 2 5).toOption.map
      (fun v => load32 v.fat_cache (2 * 4) >>> 28) = some 0 := by
  decide

/-- C4 (code defect): `fat_free_chain` returns `FAT_OK` on the one-cluster chain 2 -> EOC of
a FAT32 volume, but the entry of cluster 2 still reads 0x0FFFFFFF afterwards (the FAT32
branch of `fat_write_entry` ORs the new value into the old one); on FAT12 the one-cluster
chain 3 -> EOC leaves entry 3 reading 0x0FF. -/
theorem fat_free_chain_leaves_entries :
    fat_read_entry volume_fat32_chain 2 = .ok 0x0FFFFFFF ∧
    (fat_free_chain volume_fat32_chain 2).1 = FAT_OK ∧
    fat_read_entry (fat_free_chain volume_fat32_chain 2).2 2 = .ok 0x0FFFFFFF ∧
    fat_read_entry volume_fat12 3 = .ok 0xFFF ∧
    (fat_free_chain volume_fat12 3).1 = FAT_OK ∧
    fat_read_entry (fat_free_chain volume_fat12 3).2 3 = .ok 0x0FF := by
  decide

theorem chain_at_succ (volume : fat_volume_t) (start k : Nat) :
    chain_at volume start (k + 1) = (chain_at volume start k).bind (chain_next volume) := rfl

theorem chain_at_add_congr (volume : fat_volume_t) (start a b : Nat)
    (h : chain_at volume start a = chain_at volume start b) (m : Nat) :
    chain_at volume start (a + m) = chain_at volume start (b + m) := by
  induction m with
  | zero => simpa using h
  | succ m ih =>
    rw [← Nat.add_assoc, ← Nat.add_assoc, chain_at_succ, chain_at_succ, ih]

theorem chain_at_none_add (volume : fat_volume_t) (start a : Nat)
    (h : chain_at volume start a = none) (m : Nat) :
    chain_at volume start (a + m) = none := by
  induction m with
  | zero => simpa using h
  | succ m ih => rw [← Nat.add_assoc, chain_at_succ, ih]; rfl

theorem chain_next_eq_some (volume : fat_volume_t) (c c' : Nat)
    (h : chain_next volume c = some c') :
    fat_read_entry volume c = .ok c' ∧ fat_is_eoc volume c' = false := by
  unfold chain_next at h
  cases hr : fat_read_entry volume c with
  | error e => rw [hr] at h; cases h
  | ok v =>
    rw [hr] at h
    by_cases he : fat_is_eoc volume v = true
    · simp [he] at h
    · simp [he] at h
      subst h
      simpa using he

theorem out_of_range_false (volume : fat_volume_t) (c : Nat)
    (h : is_valid_cluster volume c = true) :
    (decide (c < FAT_FIRST_VALID_CLUSTER) ||
      decide (c ≥ u32 (FAT_FIRST_VALID_CLUSTER + volume.total_clusters))) = false := by
  unfold is_valid_cluster at h
  simp only [Bool.and_eq_true, decide_eq_true_eq] at h
  simp only [Bool.or_eq_false_iff, decide_eq_false_iff_not]
  omega

/-- One iteration of the tortoise/hare loop when the tortoise can take one step and the hare
two steps inside the valid cluster range. -/
theorem fat_validate_chain_loop_step (volume : fat_volume_t) (fuel t h t' h1 h' : Nat)
    (ht : chain_next volume t = some t') (hh1 : chain_next volume h = some h1)
    (hh2 : chain_next volume h1 = some h')
    (vt : is_valid_cluster volume t' = true) (vh1 : is_valid_cluster volume h1 = true)
    (vh2 : is_valid_cluster volume h' = true) :
    fat_validate_chain_loop volume (fuel + 1) t h =
      if t' = h' then some FAT_ERR_CORRUPTED else fat_validate_chain_loop volume fuel t' h' := by
  obtain ⟨r1, e1⟩ := chain_next_eq_some _ _ _ ht
  obtain ⟨r2, e2⟩ := chain_next_eq_some _ _ _ hh1
  obtain ⟨r3, e3⟩ := chain_next_eq_some _ _ _ hh2
  have o1 := out_of_range_false _ _ vt
  have o2 := out_of_range_false _ _ vh1
  have o3 := out_of_range_false _ _ vh2
  simp only [ge_iff_le] at o1 o2 o3
  conv_lhs => rw [fat_validate_chain_loop]
  simp only [r1, r2, r3, e1, e2, e3, o1, o2, o3, ge_iff_le]
  simp


/-- A chain that revisits a cluster never ends and stays in the valid range. -/
theorem chain_cycle_total (volume : fat_volume_t) (start i j c : Nat) (hij : i < j)
    (hi : chain_at volume start i = some c) (hj : chain_at volume start j = some c)
    (hrange : ∀ k c', k ≤ j → chain_at volume start k = some c' →
      is_valid_cluster volume c' = true) (k : Nat) :
    ∃ c', chain_at volume start k = some c' ∧ is_valid_cluster volume c' = true := by
  induction k using Nat.strong_induction_on with
  | _ k ih =>
    by_cases hk : k ≤ j
    · cases hc : chain_at volume start k with
      | none =>
        have := chain_at_none_add volume start k hc (j - k)
        rw [show k + (j - k) = j by omega, hj] at this
        cases this
      | some c' => exact ⟨c', rfl, hrange k c' hk hc⟩
    · have hper := chain_at_add_congr volume start i j (hi.trans hj.symm) (k - j)
      rw [show j + (k - j) = k by omega] at hper
      rw [← hper]
      exact ih (i + (k - j)) (by omega)

theorem chain_cycle_period (volume : fat_volume_t) (start i j : Nat) (hij : i < j)
    (h : chain_at volume start i = chain_at volume start j) (n : Nat) (hn : i ≤ n) (t : Nat) :
    chain_at volume start (n + (j - i) * t) = chain_at volume start n := by
  induction t with
  | zero => simp
  | succ t ih =>
    have := chain_at_add_congr volume start i j h (n - i + (j - i) * t)
    rw [show i + (n - i + (j - i) * t) = n + (j - i) * t by omega] at this
    rw [show n + (j - i) * (t + 1) = j + (n - i + (j - i) * t) by
      rw [Nat.mul_succ]; omega]
    rw [← this, ih]

/-- When tortoise and hare sit at positions `k` and `2k` of an endless in-range chain and
positions `n` and `2n` agree for some `n` in `(k, k + d]`, the loop reports a cycle within
`d` iterations. -/
theorem fat_validate_chain_loop_meets (volume : fat_volume_t) (start : Nat)
    (hall : ∀ k, ∃ c', chain_at volume start k = some c' ∧ is_valid_cluster volume c' = true)
    (d : Nat) : ∀ k t h n fuel, chain_at volume start k = some t →
      chain_at volume start (2 * k) = some h → k < n → n ≤ k + d →
      chain_at volume start n = chain_at volume start (2 * n) → d ≤ fuel →
      fat_validate_chain_loop volume fuel t h = some FAT_ERR_CORRUPTED := by
  induction d with
  | zero => intro k t h n fuel _ _ h1 h2; omega
  | succ d ih =>
    intro k t h n fuel hk h2k hkn hnd hmeet hfuel
    obtain ⟨fuel, rfl⟩ : ∃ f, fuel = f + 1 := ⟨fuel - 1, by omega⟩
    obtain ⟨t', ht', vt'⟩ := hall (k + 1)
    obtain ⟨h1, hh1, vh1⟩ := hall (2 * k + 1)
    obtain ⟨h', hh', vh'⟩ := hall (2 * k + 2)
    have s1 : chain_next volume t = some t' := by
      rw [chain_at_succ, hk] at ht'; exact ht'
    have s2 : chain_next volume h = some h1 := by
      rw [chain_at_succ, h2k] at hh1; exact hh1
    have s3 : chain_next volume h1 = some h' := by
      rw [chain_at_succ, hh1] at hh'; exact hh'
    rw [fat_validate_chain_loop_step volume fuel t h t' h1 h' s1 s2 s3 vt' vh1 vh']
    by_cases heq : t' = h'
    · simp [heq]
    · simp only [heq, if_false]
      have hne : n ≠ k + 1 := by
        intro hn
        subst hn
        rw [ht', show 2 * (k + 1) = 2 * k + 2 by omega, hh'] at hmeet
        exact heq (Option.some.inj hmeet)
      exact ih (k + 1) t' h' n fuel ht' (by rw [show 2 * (k + 1) = 2 * k + 2 by omega]; exact hh')
        (by omega) (by omega) hmeet (by omega)

/-- C5: when the chain followed from a valid start cluster revisits a cluster (positions
`i < j` of the chain hold the same cluster) and every cluster on it up to that point is in
[2, 2+T), `fat_validate_chain(start)` returns `FAT_ERR_CORRUPTED`: its loop reaches that
return after finitely many iterations. -/
theorem fat_validate_chain_detects_cycle (volume : fat_volume_t) (start i j c : Nat)
    (hij : i < j) (hi : chain_at volume start i = some c)
    (hj : chain_at volume start j = some c)
    (hrange : ∀ k c', k ≤ j → chain_at volume start k = some c' →
      is_valid_cluster volume c' = true) :
    ∃ n, ∀ fuel, n ≤ fuel →
      fat_validate_chain volume start fuel = some FAT_ERR_CORRUPTED := by
  have hall := chain_cycle_total volume start i j c hij hi hj hrange
  refine ⟨(j - i) * (i + 1), fun fuel hfuel => ?_⟩
  have hvalid : is_valid_cluster volume start = true := hrange 0 start (Nat.zero_le _) rfl
  have hstart := out_of_range_false volume start hvalid
  unfold fat_validate_chain
  simp only [ge_iff_le] at hstart
  simp only [ge_iff_le, hstart]
  have hpos : 0 < (j - i) * (i + 1) := Nat.mul_pos (by omega) (by omega)
  have hge : i ≤ (j - i) * (i + 1) := by
    calc i ≤ 1 * (i + 1) := by omega
      _ ≤ (j - i) * (i + 1) := Nat.mul_le_mul_right _ (by omega)
  have hmeet := chain_cycle_period volume start i j hij (hi.trans hj.symm)
    ((j - i) * (i + 1)) hge (i + 1)
  rw [show (j - i) * (i + 1) + (j - i) * (i + 1) = 2 * ((j - i) * (i + 1)) by omega] at hmeet
  exact fat_validate_chain_loop_meets volume start hall ((j - i) * (i + 1)) 0 start start
    ((j - i) * (i + 1)) fuel rfl rfl hpos (by omega) hmeet.symm hfuel

theorem fat_validate_chain_detects_cycle_witness :
    chain_at volume_cycle 2 1 = some 3 ∧ chain_at volume_cycle 2 3 = some 3 ∧
    ∃ n, ∀ fuel, n ≤ fuel →
      fat_validate_chain volume_cycle 2 fuel = some FAT_ERR_CORRUPTED :=
  ⟨by decide, by decide,
   fat_validate_chain_detects_cycle volume_cycle 2 1 3 3 (by decide) (by decide) (by decide)
    (by
      intro k c' hk h
      interval_cases k
      · cases h; decide
      · have : chain_at volume_cycle 2 1 = some 3 := by decide
        rw [this] at h; cases h; decide
      · have : chain_at volume_cycle 2 2 = some 4 := by decide
        rw [this] at h; cases h; decide
      · have : chain_at volume_cycle 2 3 = some 3 := by decide
        rw [this] at h; cases h; decide)⟩


/-- C6 (code defect): with T = 2, FAT[2] = 3, FAT[3] = 0 and start = 2 the second hare step
of `fat_validate_chain` reads the out-of-range value 0 and returns `FAT_OK`, not
`FAT_ERR_CORRUPTED`, in the first iteration of the loop (for every amount of fuel). -/
theorem fat_validate_chain_accepts_broken_link :
    fat_read_entry volume_broken_link 2 = .ok 3 ∧
    fat_read_entry volume_broken_link 3 = .ok 0 ∧
    fat_is_eoc volume_broken_link 0 = false ∧
    ∀ fuel, fat_validate_chain volume_broken_link 2 (fuel + 1) = some FAT_OK := by
  refine ⟨by decide, by decide, by decide, ?_⟩
  intro fuel
  rfl

/-! ## File I/O -/

/-- C7 (code defect): `fat_write_cluster_data` computes the position inside its sector
buffer as `offset * bytes_per_sector` instead of `offset % bytes_per_sector`. On a 1024-byte
file (4096-byte clusters, 512-byte sectors, working device, old content all 0), writing 512
bytes 0xAA at position 1 returns 512, but the bytes land at file offsets 512..1023: seeking
back to 1 and reading 512 bytes returns 512 with first byte 0 and last byte 0xAA. At the
claim's own witness (position 10, 10 bytes) the write returns 10 and the read-back delivers
ten bytes 0. -/
theorem fat_write_then_read_returns_other_bytes :
    (fat_write (fat_seek handle_1024 1 FAT_SEEK_SET).2 (List.replicate 512 0xAA) 512 1).map
      Prod.fst = some (.ok 512) ∧
    (fat_write (fat_seek handle_1024 1 FAT_SEEK_SET).2 (List.replicate 512 0xAA) 512 1).bind
      (fun w => (fat_read (fat_seek w.2 1 FAT_SEEK_SET).2 512 1).map
        fun r => (r.1, r.2.2.length, r.2.2.getD 0 0, r.2.2.getD 511 0))
      = some (.ok 512, 512, 0, 0xAA) ∧
    (fat_write (fat_seek handle_1024 10 FAT_SEEK_SET).2 (List.replicate 10 0xAA) 10 1).map
      Prod.fst = some (.ok 10) ∧
    (fat_write (fat_seek handle_1024 10 FAT_SEEK_SET).2 (List.replicate 10 0xAA) 10 1).bind
      (fun w => (fat_read (fat_seek w.2 10 FAT_SEEK_SET).2 10 1).map fun r => (r.1, r.2.2))
      = some (.ok 10, List.replicate 10 0) := by
  decide!

/-- C8 (code defect): on a one-cluster file of size 10 with 4096-byte clusters, with the
handle at position 0, `fat_seek(file, 10000, FAT_SEEK_SET)` walks the chain two clusters
forward, meets the end-of-chain value and returns `FAT_ERR_INVALID_CLUSTER`; `fat_tell`
still returns 0. On an empty file the same seek returns `FAT_OK` and `fat_tell` returns
10000. -/
theorem fat_seek_past_end_fails_on_nonempty_file :
    handle_10.position ≤ handle_10.dir_entry.file_size ∧
    handle_10.dir_entry.file_size = 10 ∧
    (fat_seek handle_10 10000 FAT_SEEK_SET).1 = FAT_ERR_INVALID_CLUSTER ∧
    fat_tell (fat_seek handle_10 10000 FAT_SEEK_SET).2 = 0 ∧
    (fat_seek handle_empty 10000 FAT_SEEK_SET).1 = FAT_OK ∧
    fat_tell (fat_seek handle_empty 10000 FAT_SEEK_SET).2 = 10000 := by
  decide!

/-! ## Directory search -/

/-- C9 (code defect): after the `for` loop has consumed a whole sector, `fat_find_entry`
advances `entry_idx` to the next sector boundary once more, so every second sector of the
fixed root is skipped. With B = 512, E = 224, slots 0..15 deleted and the only entry
`HELLO.TXT` in slot 16 (it matches `hello.txt` by `fat_compare_short_name`),
`fat_find_entry(volume, 0, "hello.txt")` returns `FAT_ERR_NOT_FOUND` in the second
iteration of its loop. -/
theorem fat_find_entry_skips_second_sector :
    (∀ i < 16, (fat_read_dir_entry volume_root_16 19 (i * 32)).toOption.map
      (fun e => e.bytes.getD 0 0) = some FAT_DIR_ENTRY_DELETED) ∧
    fat_read_dir_entry volume_root_16 20 0 = .ok entry_hello ∧
    fat_compare_short_name entry_hello.name name_hello_txt = true ∧
    fat_find_entry volume_root_16 0 name_hello_txt 2 = some (.error FAT_ERR_NOT_FOUND) := by
  decide!

/-- C10 (code defect): the same double advance of `entry_idx` in `fat_iterate_directory`.
On the fixed root with slots 0..15 deleted and the only entry in slot 16 the callback is
never invoked; on the cluster-chained directory 2 -> 3 with 16 slots per cluster, slots
0..15 deleted and the only entry in slot 16, the callback is invoked for that entry with
index 32 instead of 16. -/
theorem fat_iterate_directory_skips_or_misnumbers :
    fat_read_dir_entry volume_root_16 20 0 = .ok entry_hello ∧
    fat_iterate_directory volume_root_16 0 recording_callback [] 2 = some (FAT_OK, []) ∧
    fat_read_dir_entry volume_chain_16 (fat_cluster_to_sector volume_chain_16 3) 0
      = .ok entry_hello ∧
    fat_iterate_directory volume_chain_16 2 recording_callback [] 3
      = some (FAT_OK, [(entry_hello, 32)]) := by
  decide!

/-! ## Free-slot search and long file names -/

/-- C11 (code defect): in `fat_find_free_entry` the run counter is reset to 0 whenever it
is still below `num_entries`, and the steps `move to next cluster` / `entry_idx = next
boundary` stand inside the `for` loop. On the empty fixed root (E = 224, every slot 0x00)
`fat_find_free_entry(0, 2)` returns `FAT_ERR_DISK_FULL` in the second iteration of its outer
loop; on a root with an entry in slot 0 and free slots from 1 on, `fat_find_free_entry(0, 1)`
returns index 16 instead of 1. -/
theorem fat_find_free_entry_misses_runs :
    (fat_read_dir_entry volume_empty_root 19 0).toOption.map (fun e => e.bytes.getD 0 0)
      = some FAT_DIR_ENTRY_FREE ∧
    (fat_read_dir_entry volume_empty_root 19 32).toOption.map (fun e => e.bytes.getD 0 0)
      = some FAT_DIR_ENTRY_FREE ∧
    fat_find_free_entry volume_empty_root 0 2 2 = some (.error FAT_ERR_DISK_FULL) ∧
    fat_read_dir_entry volume_root_one_entry 19 0 = .ok entry_hello ∧
    (fat_read_dir_entry volume_root_one_entry 19 32).toOption.map (fun e => e.bytes.getD 0 0)
      = some FAT_DIR_ENTRY_FREE ∧
    fat_find_free_entry volume_root_one_entry 0 1 1 = some (.ok 16) := by
  decide!

/-- C12 (code defect): `fat_create_lfn_entries` gives the entry with the highest sequence
number the first 13 characters (`start_char = entry_num * 13`). For the 14-character name
`ABCDEFGHIJKLMN` the entry with sequence number 2 parses to `ABCDEFGHIJKLM` and the entry
with sequence number 1 to `N`: the fragments in ascending sequence-number order spell
`NABCDEFGHIJKLM`, the fragments in array order spell the name. -/
theorem fat_create_lfn_entries_fragments_reversed :
    (fat_create_lfn_entries name_14_chars name_HELLO_TXT).toOption.map
      (fun r => (r.2, lfn_fragment r.1 1, lfn_fragment r.1 2))
      = some (2, [0x4E], name_14_chars.take 13) ∧
    (fat_create_lfn_entries name_14_chars name_HELLO_TXT).toOption.map
      (fun r => lfn_name_ascending r.1) = some ([0x4E] ++ name_14_chars.take 13) ∧
    [0x4E] ++ name_14_chars.take 13 ≠ name_14_chars ∧
    (fat_create_lfn_entries name_14_chars name_HELLO_TXT).toOption.map
      (fun r => lfn_name_array_order r.1) = some name_14_chars := by
  decide!

theorem fat_create_lfn_field_length (utf16_name : List Nat) (name_len first : Nat) :
    ∀ (n j : Nat) (terminated : Bool) (field : List Nat),
      (fat_create_lfn_field utf16_name name_len first n j terminated field).1.length
        = field.length + 2 * n := by
  intro n
  induction n with
  | zero => intro j t f; simp [fat_create_lfn_field]
  | succ n ih =>
    intro j t f
    rw [fat_create_lfn_field]
    simp only [ih, List.length_append, List.length_cons, List.length_nil]
    omega

theorem lfn_entry_bytes_fields (o c : Nat) (n1 n2 n3 : List Nat) (h1 : n1.length = 10)
    (h2 : n2.length = 12) :
    ([o] ++ n1 ++ [FAT_ATTR_LONG_NAME, 0, c] ++ n2 ++ [0, 0] ++ n3).getD 0 0 = o ∧
    ([o] ++ n1 ++ [FAT_ATTR_LONG_NAME, 0, c] ++ n2 ++ [0, 0] ++ n3).getD 11 0
      = FAT_ATTR_LONG_NAME ∧
    ([o] ++ n1 ++ [FAT_ATTR_LONG_NAME, 0, c] ++ n2 ++ [0, 0] ++ n3).getD 12 0 = 0 ∧
    ([o] ++ n1 ++ [FAT_ATTR_LONG_NAME, 0, c] ++ n2 ++ [0, 0] ++ n3).getD 13 0 = c ∧
    ([o] ++ n1 ++ [FAT_ATTR_LONG_NAME, 0, c] ++ n2 ++ [0, 0] ++ n3).getD 26 0 = 0 ∧
    ([o] ++ n1 ++ [FAT_ATTR_LONG_NAME, 0, c] ++ n2 ++ [0, 0] ++ n3).getD 27 0 = 0 := by
  match n1, h1 with
  | [a0, a1, a2, a3, a4, a5, a6, a7, a8, a9], _ =>
    match n2, h2 with
    | [b0, b1, b2, b3, b4, b5, b6, b7, b8, b9, b10, b11], _ =>
      refine ⟨rfl, rfl, rfl, rfl, rfl, rfl⟩


theorem fat_create_lfn_entry_bytes (utf16_name : List Nat) (name_len checksum n i : Nat) :
    (fat_create_lfn_entry utf16_name name_len checksum n i).bytes =
      [if i = 0 then u8 (n - i) ||| 0x40 else u8 (n - i)]
      ++ (fat_create_lfn_field utf16_name name_len (i * 13) 5 0 false []).1
      ++ [FAT_ATTR_LONG_NAME, 0, checksum]
      ++ (fat_create_lfn_field utf16_name name_len (i * 13 + 5) 6 0
          (fat_create_lfn_field utf16_name name_len (i * 13) 5 0 false []).2 []).1
      ++ [0, 0]
      ++ (fat_create_lfn_field utf16_name name_len (i * 13 + 11) 2 0
          (fat_create_lfn_field utf16_name name_len (i * 13 + 5) 6 0
            (fat_create_lfn_field utf16_name name_len (i * 13) 5 0 false []).2 []).2 []).1 := by
  rfl

theorem lor_64_of_le_20 (n : Nat) (hn : n ≤ 20) : n ||| 0x40 = n + 0x40 := by
  interval_cases n <;> decide

theorem fat_create_lfn_entry_fields (utf16_name : List Nat) (name_len checksum n i : Nat)
    (hn : n ≤ 20) (hi : i < n) :
    (fat_create_lfn_entry utf16_name name_len checksum n i).order
      = n - i + (if i = 0 then 0x40 else 0) ∧
    (fat_create_lfn_entry utf16_name name_len checksum n i).attr = 0x0F ∧
    (fat_create_lfn_entry utf16_name name_len checksum n i).lfn_type = 0 ∧
    (fat_create_lfn_entry utf16_name name_len checksum n i).first_cluster_low = 0 ∧
    (fat_create_lfn_entry utf16_name name_len checksum n i).checksum = checksum := by
  have l1 := fat_create_lfn_field_length utf16_name name_len (i * 13) 5 0 false []
  have l2 := fat_create_lfn_field_length utf16_name name_len (i * 13 + 5) 6 0
    (fat_create_lfn_field utf16_name name_len (i * 13) 5 0 false []).2 []
  simp only [List.length_nil, Nat.zero_add] at l1 l2
  obtain ⟨f0, f11, f12, f13, f26, f27⟩ := lfn_entry_bytes_fields
    (if i = 0 then u8 (n - i) ||| 0x40 else u8 (n - i)) checksum _ _
    (fat_create_lfn_field utf16_name name_len (i * 13 + 11) 2 0
      (fat_create_lfn_field utf16_name name_len (i * 13 + 5) 6 0
        (fat_create_lfn_field utf16_name name_len (i * 13) 5 0 false []).2 []).2 []).1 l1 l2
  have horder : (if i = 0 then u8 (n - i) ||| 0x40 else u8 (n - i))
      = n - i + (if i = 0 then 0x40 else 0) := by
    by_cases h0 : i = 0
    · subst h0
      have : u8 n = n := by unfold u8; omega
      simp only [if_true, Nat.sub_zero, this]
      exact lor_64_of_le_20 n hn
    · simp only [h0, if_false, u8]
      omega
  have hb := fat_create_lfn_entry_bytes utf16_name name_len checksum n i
  refine ⟨?_, ?_, ?_, ?_, ?_⟩
  · unfold fat_dir_entry_t.order
    rw [hb, f0, horder]
  · unfold fat_dir_entry_t.attr
    rw [hb, f11]; rfl
  · unfold fat_dir_entry_t.lfn_type
    rw [hb, f12]
  · unfold fat_dir_entry_t.first_cluster_low load16
    rw [hb, f26, f27]
  · unfold fat_dir_entry_t.checksum
    rw [hb, f13]

/-- C13: for every long name of length L with 1 <= L <= 255 and every short name,
`fat_create_lfn_entries` returns Ok with `num_entries` = n = ceil(L/13) (that is
13(n-1) < L <= 13n) entries, and the entry at array index i < n has order byte n - i, plus
0x40 exactly at index 0, attr 0x0F, type 0, first_cluster_low 0 and the checksum of the
short name. -/
theorem fat_create_lfn_entries_headers (long_name short_name : List Nat)
    (h1 : 1 ≤ long_name.length) (h2 : long_name.length ≤ 255) :
    ∃ entries : List fat_dir_entry_t,
      fat_create_lfn_entries long_name short_name
        = .ok (entries, (long_name.length + 12) / 13) ∧
      entries.length = (long_name.length + 12) / 13 ∧
      13 * ((long_name.length + 12) / 13 - 1) < long_name.length ∧
      long_name.length ≤ 13 * ((long_name.length + 12) / 13) ∧
      ∀ i, i < (long_name.length + 12) / 13 → ∃ e, entries[i]? = some e ∧
        e.order = (long_name.length + 12) / 13 - i + (if i = 0 then 0x40 else 0) ∧
        e.attr = 0x0F ∧ e.lfn_type = 0 ∧ e.first_cluster_low = 0 ∧
        e.checksum = fat_calculate_lfn_checksum short_name := by
  have hn : (long_name.length + 12) / 13 ≤ 20 := by omega
  have hu : u8 ((long_name.length + 12) / 13) = (long_name.length + 12) / 13 := by
    unfold u8; omega
  refine ⟨(List.range ((long_name.length + 12) / 13)).map fun entry_num =>
      fat_create_lfn_entry (long_name.map fun c => u16 (u8 c)) long_name.length
        (fat_calculate_lfn_checksum short_name) ((long_name.length + 12) / 13) entry_num,
    ?_, ?_, by omega, by omega, ?_⟩
  · unfold fat_create_lfn_entries
    simp only [hu, gt_iff_lt, show ¬ (255 < long_name.length) by omega, if_false]
  · simp
  · intro i hi
    refine ⟨fat_create_lfn_entry (long_name.map fun c => u16 (u8 c)) long_name.length
        (fat_calculate_lfn_checksum short_name) ((long_name.length + 12) / 13) i, ?_,
      fat_create_lfn_entry_fields _ _ _ _ i hn hi⟩
    simp [hi]

theorem fat_create_lfn_entries_headers_witness :
    ∃ entries : List fat_dir_entry_t,
      fat_create_lfn_entries name_14_chars name_HELLO_TXT = .ok (entries, 2) ∧
      entries.length = 2 ∧ 13 * (2 - 1) < 14 ∧ 14 ≤ 13 * 2 ∧
      ∀ i, i < 2 → ∃ e, entries[i]? = some e ∧
        e.order = 2 - i + (if i = 0 then 0x40 else 0) ∧
        e.attr = 0x0F ∧ e.lfn_type = 0 ∧ e.first_cluster_low = 0 ∧
        e.checksum = fat_calculate_lfn_checksum name_HELLO_TXT :=
  fat_create_lfn_entries_headers name_14_chars name_HELLO_TXT (by decide) (by decide)

theorem lfn_checksum_step (cs b : Nat) :
    u8 ((if cs &&& 1 ≠ 0 then 0x80 else 0) + (cs >>> 1) + b)
      = ((if cs % 2 = 1 then 0x80 else 0) + cs / 2 + b) % 256 := by
  have h1 : cs >>> 1 = cs / 2 := by rw [Nat.shiftRight_eq_div_pow]
  have h2 : (cs &&& 1 ≠ 0) ↔ cs % 2 = 1 := by
    rw [Nat.and_one_is_mod]; omega
  simp only [h1, h2, u8]

theorem fat_calculate_lfn_checksum_eq_foldl (n : List Nat) (hn : n.length = 11) :
    fat_calculate_lfn_checksum n = lfn_checksum_spec n := by
  match n, hn with
  | [b0, b1, b2, b3, b4, b5, b6, b7, b8, b9, b10], _ =>
    unfold fat_calculate_lfn_checksum lfn_checksum_spec
    simp only [lfn_checksum_step]
    rfl

theorem fat_calculate_lfn_checksum_take (m : List Nat) :
    fat_calculate_lfn_checksum m = fat_calculate_lfn_checksum (m.take 11) := by
  unfold fat_calculate_lfn_checksum
  apply List.foldl_ext
  intro cs i hi
  have hi : i < 11 := List.mem_range.mp hi
  have : (m.take 11).getD i 0 = m.getD i 0 := by
    simp only [List.getD_eq_getElem?_getD, List.getElem?_take, hi, if_true]
  rw [this]

/-- C14: for every 11-byte short name n, `fat_calculate_lfn_checksum(n)` is the value
obtained by starting at cs = 0 and setting, for the bytes n[0], ..., n[10] in order,
cs = (((cs & 1) ? 0x80 : 0) + (cs >> 1) + n[i]) mod 256; and every buffer whose first 11
bytes are n gives the same value. -/
theorem fat_calculate_lfn_checksum_is_spec (n : List Nat) (hn : n.length = 11) :
    fat_calculate_lfn_checksum n = lfn_checksum_spec n ∧
    ∀ m : List Nat, m.take 11 = n →
      fat_calculate_lfn_checksum m = fat_calculate_lfn_checksum n := by
  refine ⟨fat_calculate_lfn_checksum_eq_foldl n hn, ?_⟩
  intro m hm
  rw [fat_calculate_lfn_checksum_take m, hm]

theorem fat_calculate_lfn_checksum_is_spec_witness :
    fat_calculate_lfn_checksum name_HELLO_TXT = lfn_checksum_spec name_HELLO_TXT ∧
    ∀ m : List Nat, m.take 11 = name_HELLO_TXT →
      fat_calculate_lfn_checksum m = fat_calculate_lfn_checksum name_HELLO_TXT :=
  fat_calculate_lfn_checksum_is_spec name_HELLO_TXT (by decide)

theorem fat_parse_lfn_field_eq (field : List Nat) :
    ∀ (n i : Nat) (acc : List Nat),
      fat_parse_lfn_field field n i acc =
        if (lfn_field_units field n i).all lfn_is_char then
          .ok (acc ++ lfn_field_units field n i)
        else .error (acc ++ (lfn_field_units field n i).takeWhile lfn_is_char) := by
  intro n
  induction n with
  | zero => intro i acc; simp [fat_parse_lfn_field, lfn_field_units]
  | succ n ih =>
    intro i acc
    rw [fat_parse_lfn_field]
    simp only [lfn_field_units]
    by_cases h : lfn_is_char (field.getD i 0 ||| (field.getD (i + 1) 0 <<< 8)) = true
    · have h' : ¬ (field.getD i 0 ||| (field.getD (i + 1) 0 <<< 8) = 0x0000 ∨
          field.getD i 0 ||| (field.getD (i + 1) 0 <<< 8) = 0xFFFF) := by
        unfold lfn_is_char at h
        simp only [decide_eq_true_eq] at h
        tauto
      simp only [h', if_false, ih, List.all_cons, h, Bool.true_and,
        List.takeWhile_cons_of_pos, List.append_assoc, List.singleton_append]
    · have h' : (field.getD i 0 ||| (field.getD (i + 1) 0 <<< 8) = 0x0000 ∨
          field.getD i 0 ||| (field.getD (i + 1) 0 <<< 8) = 0xFFFF) := by
        unfold lfn_is_char at h
        simp only [decide_eq_true_eq] at h
        by_contra hc
        exact h ⟨fun a => hc (Or.inl a), fun a => hc (Or.inr a)⟩
      have hf : lfn_is_char (field.getD i 0 ||| (field.getD (i + 1) 0 <<< 8)) = false := by
        simpa using h
      simp only [h', if_true, List.all_cons, hf, Bool.false_and,
        List.takeWhile_cons_of_neg h, List.append_nil]
      rfl

theorem takeWhile_append_of_not_all {p : Nat → Bool} (xs ys : List Nat)
    (h : xs.all p = false) : (xs ++ ys).takeWhile p = xs.takeWhile p := by
  induction xs with
  | nil => simp at h
  | cons x xs ih =>
    by_cases hx : p x = true
    · simp only [List.all_cons, hx, Bool.true_and] at h
      simp only [List.cons_append, List.takeWhile_cons_of_pos hx, ih h]
    · simp only [List.cons_append, List.takeWhile_cons_of_neg hx]

theorem lor_shift_eq_load (a b : Nat) (ha : a < 256) : a ||| (b <<< 8) = a + 256 * b := by
  have := Nat.mul_add_lt_is_or (i := 8) (b := a) (by simpa using ha) b
  rw [Nat.shiftLeft_eq, Nat.lor_comm, Nat.mul_comm b, ← this]
  norm_num
  omega

theorem getD_lt_of_bytes (bytes : List Nat) (h : ∀ b ∈ bytes, b < 256) (i : Nat) :
    bytes.getD i 0 < 256 := by
  by_cases hi : i < bytes.length
  · rw [List.getD_eq_getElem _ _ hi]
    exact h _ (List.getElem_mem hi)
  · rw [List.getD_eq_default _ _ (by omega)]
    omega

theorem lfn_units_name1 (e : fat_dir_entry_t) (h : ∀ b ∈ e.bytes, b < 256) :
    lfn_field_units e.name1 5 0 = (List.range 5).map (fun k => load16 e.bytes (1 + 2 * k)) := by
  have hu : lfn_field_units e.name1 5 0 =
      [e.bytes.getD 1 0 ||| (e.bytes.getD 2 0 <<< 8), e.bytes.getD 3 0 ||| (e.bytes.getD 4 0 <<< 8),
       e.bytes.getD 5 0 ||| (e.bytes.getD 6 0 <<< 8), e.bytes.getD 7 0 ||| (e.bytes.getD 8 0 <<< 8),
       e.bytes.getD 9 0 ||| (e.bytes.getD 10 0 <<< 8)] := rfl
  rw [hu]
  simp only [lor_shift_eq_load _ _ (getD_lt_of_bytes _ h _)]
  rfl

theorem lfn_units_name2 (e : fat_dir_entry_t) (h : ∀ b ∈ e.bytes, b < 256) :
    lfn_field_units e.name2 6 0 = (List.range 6).map (fun k => load16 e.bytes (14 + 2 * k)) := by
  have hu : lfn_field_units e.name2 6 0 =
      [e.bytes.getD 14 0 ||| (e.bytes.getD 15 0 <<< 8),
       e.bytes.getD 16 0 ||| (e.bytes.getD 17 0 <<< 8),
       e.bytes.getD 18 0 ||| (e.bytes.getD 19 0 <<< 8),
       e.bytes.getD 20 0 ||| (e.bytes.getD 21 0 <<< 8),
       e.bytes.getD 22 0 ||| (e.bytes.getD 23 0 <<< 8),
       e.bytes.getD 24 0 ||| (e.bytes.getD 25 0 <<< 8)] := rfl
  rw [hu]
  simp only [lor_shift_eq_load _ _ (getD_lt_of_bytes _ h _)]
  rfl

theorem lfn_units_name3 (e : fat_dir_entry_t) (h : ∀ b ∈ e.bytes, b < 256) :
    lfn_field_units e.name3 2 0 = (List.range 2).map (fun k => load16 e.bytes (28 + 2 * k)) := by
  have hu : lfn_field_units e.name3 2 0 =
      [e.bytes.getD 28 0 ||| (e.bytes.getD 29 0 <<< 8),
       e.bytes.getD 30 0 ||| (e.bytes.getD 31 0 <<< 8)] := rfl
  rw [hu]
  simp only [lor_shift_eq_load _ _ (getD_lt_of_bytes _ h _)]
  rfl

theorem fat_parse_lfn_units (e : fat_dir_entry_t) (h : e.attr = FAT_ATTR_LONG_NAME) :
    fat_parse_lfn e = .ok ((lfn_field_units e.name1 5 0 ++ lfn_field_units e.name2 6 0 ++
      lfn_field_units e.name3 2 0).takeWhile lfn_is_char) := by
  unfold fat_parse_lfn
  simp only [h, ne_eq, not_true_eq_false, if_false, fat_parse_lfn_field_eq, List.nil_append]
  cases h1 : (lfn_field_units e.name1 5 0).all lfn_is_char with
  | false =>
    simp only [Bool.false_eq_true, if_false]
    rw [List.append_assoc, takeWhile_append_of_not_all _ _ h1]
  | true =>
    have a1 : ∀ a ∈ lfn_field_units e.name1 5 0, lfn_is_char a = true := List.all_eq_true.mp h1
    simp only [if_true]
    rw [List.append_assoc, List.takeWhile_append_of_pos a1]
    cases h2 : (lfn_field_units e.name2 6 0).all lfn_is_char with
    | false =>
      simp only [Bool.false_eq_true, if_false]
      rw [takeWhile_append_of_not_all _ _ h2]
    | true =>
      have a2 : ∀ a ∈ lfn_field_units e.name2 6 0, lfn_is_char a = true :=
        List.all_eq_true.mp h2
      simp only [if_true]
      rw [List.takeWhile_append_of_pos a2]
      cases h3 : (lfn_field_units e.name3 2 0).all lfn_is_char with
      | false => simp only [Bool.false_eq_true, if_false, List.append_assoc]
      | true =>
        have a3 : ∀ a ∈ lfn_field_units e.name3 2 0, lfn_is_char a = true :=
          List.all_eq_true.mp h3
        simp only [if_true, List.append_assoc, List.takeWhile_eq_self_iff.mpr a3]

/-- C15: for every LFN entry (32 bytes, each below 256) with attr = 0x0F, `fat_parse_lfn`
returns Ok and the characters it writes are exactly the longest prefix of the entry's 13
little-endian UTF-16 code units (name1's 5, name2's 6, name3's 2) that contains neither
0x0000 nor 0xFFFF (`chars_written` is the length of that list); for an entry whose attr is
not 0x0F it returns `FAT_ERR_INVALID_PARAM`. -/
theorem fat_parse_lfn_longest_prefix (e : fat_dir_entry_t) (h : ∀ b ∈ e.bytes, b < 256) :
    (e.attr = 0x0F → fat_parse_lfn e = .ok ((lfn_code_units e).takeWhile lfn_is_char)) ∧
    (e.attr ≠ 0x0F → fat_parse_lfn e = .error FAT_ERR_INVALID_PARAM) := by
  constructor
  · intro ha
    rw [fat_parse_lfn_units e ha, lfn_units_name1 e h, lfn_units_name2 e h,
      lfn_units_name3 e h]
    rfl
  · intro ha
    unfold fat_parse_lfn
    exact if_pos ha

theorem fat_parse_lfn_longest_prefix_witness :
    (∀ b ∈ (fat_create_lfn_entry name_14_chars 14 241 2 1).bytes, b < 256) ∧
    (fat_create_lfn_entry name_14_chars 14 241 2 1).attr = 0x0F ∧
    (lfn_code_units (fat_create_lfn_entry name_14_chars 14 241 2 1)).takeWhile lfn_is_char
      = [0x4E] ∧
    ((fat_create_lfn_entry name_14_chars 14 241 2 1).attr = 0x0F →
      fat_parse_lfn (fat_create_lfn_entry name_14_chars 14 241 2 1)
        = .ok ((lfn_code_units (fat_create_lfn_entry name_14_chars 14 241 2 1)).takeWhile
            lfn_is_char)) ∧
    ((fat_create_lfn_entry name_14_chars 14 241 2 1).attr ≠ 0x0F →
      fat_parse_lfn (fat_create_lfn_entry name_14_chars 14 241 2 1)
        = .error FAT_ERR_INVALID_PARAM) :=
  ⟨by decide, by decide, by decide,
   fat_parse_lfn_longest_prefix (fat_create_lfn_entry name_14_chars 14 241 2 1) (by decide)⟩

/-- C17 (code defect): on a full volume (T = 2, FAT[2] = 3, FAT[3] = 0xFFFF, no entry 0)
`fat_allocate_cluster` does not return `FAT_ERR_DISK_FULL`: it returns `FAT_OK` with cluster
2 and overwrites FAT[2] with the end-of-chain marker 0xFFF8, so the FAT cache changes. -/
theorem fat_allocate_cluster_on_full_volume :
    fat_read_entry volume_full 2 = .ok 3 ∧
    fat_read_entry volume_full 3 = .ok 0xFFFF ∧
    status (fat_allocate_cluster volume_full) = FAT_OK ∧
    (fat_allocate_cluster volume_full).toOption.map (fun r => (r.2, r.1.fat_cache))
      = some (2, fat16_image [0xFFF8, 0xFFFF, 0xFFF8, 0xFFFF]) ∧
    fat16_image [0xFFF8, 0xFFFF, 0xFFF8, 0xFFFF] ≠ volume_full.fat_cache := by
  decide

/-! ## Open flags, open and path components -/

theorem and_mask_mod16 (x m : Nat) (hm : m < 16) : x &&& m = (x % 16) &&& m := by
  have h15 : 15 &&& m = m := by interval_cases m <;> decide
  have hmod : x % 16 = x &&& 15 := by
    have := Nat.and_pow_two_sub_one_eq_mod x 4
    simpa using this.symm
  rw [hmod, Nat.land_assoc, h15]

/-- C18 (counterexample): for `flags = RDONLY | RDWR` two of the three access flags are
set, yet `fat_validate_open_flags(flags, NULL)` returns true, so it is not the case that it
returns true if and only if exactly one access flag is set (and CREATE comes with WRONLY
or RDWR). -/
theorem fat_validate_open_flags_accepts_rdonly_rdwr :
    ¬ (fat_validate_open_flags (FAT_O_RDONLY ||| FAT_O_RDWR) none = true ↔
      (((FAT_O_RDONLY ||| FAT_O_RDWR) &&& FAT_O_RDONLY ≠ 0 ∧
          (FAT_O_RDONLY ||| FAT_O_RDWR) &&& FAT_O_WRONLY = 0 ∧
          (FAT_O_RDONLY ||| FAT_O_RDWR) &&& FAT_O_RDWR = 0) ∨
        ((FAT_O_RDONLY ||| FAT_O_RDWR) &&& FAT_O_RDONLY = 0 ∧
          (FAT_O_RDONLY ||| FAT_O_RDWR) &&& FAT_O_WRONLY ≠ 0 ∧
          (FAT_O_RDONLY ||| FAT_O_RDWR) &&& FAT_O_RDWR = 0) ∨
        ((FAT_O_RDONLY ||| FAT_O_RDWR) &&& FAT_O_RDONLY = 0 ∧
          (FAT_O_RDONLY ||| FAT_O_RDWR) &&& FAT_O_WRONLY = 0 ∧
          (FAT_O_RDONLY ||| FAT_O_RDWR) &&& FAT_O_RDWR ≠ 0)) ∧
      ((FAT_O_RDONLY ||| FAT_O_RDWR) &&& FAT_O_CREATE ≠ 0 →
        (FAT_O_RDONLY ||| FAT_O_RDWR) &&& FAT_O_WRONLY ≠ 0 ∨
        (FAT_O_RDONLY ||| FAT_O_RDWR) &&& FAT_O_RDWR ≠ 0)) := by
  decide

/-- C18 (amended): with RDONLY, WRONLY, RDWR, CREATE the distinct bits 0x01, 0x02, 0x04,
0x08: for every flags value, `fat_validate_open_flags(flags, NULL)` returns true if and only
if at least one of RDONLY, WRONLY, RDWR is set, the access flags set are not exactly RDONLY
and WRONLY, and whenever CREATE is set, WRONLY or RDWR is set. -/
theorem fat_validate_open_flags_iff (flags : Nat) :
    fat_validate_open_flags flags none = true ↔
      (flags &&& FAT_O_RDONLY ≠ 0 ∨ flags &&& FAT_O_WRONLY ≠ 0 ∨ flags &&& FAT_O_RDWR ≠ 0) ∧
      ¬ (flags &&& FAT_O_RDONLY ≠ 0 ∧ flags &&& FAT_O_WRONLY ≠ 0 ∧ flags &&& FAT_O_RDWR = 0) ∧
      (flags &&& FAT_O_CREATE ≠ 0 →
        flags &&& FAT_O_WRONLY ≠ 0 ∨ flags &&& FAT_O_RDWR ≠ 0) := by
  unfold fat_validate_open_flags
  rw [and_mask_mod16 flags (FAT_O_RDONLY ||| FAT_O_WRONLY ||| FAT_O_RDWR) (by decide),
    and_mask_mod16 flags FAT_O_CREATE (by decide),
    and_mask_mod16 flags (FAT_O_WRONLY ||| FAT_O_RDWR) (by decide),
    and_mask_mod16 flags FAT_O_RDONLY (by decide),
    and_mask_mod16 flags FAT_O_WRONLY (by decide),
    and_mask_mod16 flags FAT_O_RDWR (by decide)]
  have hf : flags % 16 < 16 := Nat.mod_lt _ (by decide)
  generalize flags % 16 = f at hf
  interval_cases f <;> decide

/-- C19 (counterexample): the path `/` resolves to the root directory entry (attribute
0x10) and `RDONLY` is a valid access mode; `fat_open` returns `FAT_ERR_INVALID_PARAM`
(BadParam) and no handle. -/
theorem fat_open_directory_returns_invalid_param :
    (fat_resolve_path volume_empty_root [0x2F] 1).map
      (fun r => r.toOption.map fun x => x.1.attr) = some (some FAT_ATTR_DIRECTORY) ∧
    fat_validate_open_flags FAT_O_RDONLY none = true ∧
    (fat_open volume_empty_root [0x2F] FAT_O_RDONLY 1).map (fun r => (r.1, r.2.isSome))
      = some (FAT_ERR_INVALID_PARAM, false) := by
  decide

/-- C19 (amended): for every path that resolves to an entry with the Directory attribute
(0x10) and every flags value that `fat_validate_open_flags(flags, NULL)` accepts, `fat_open`
returns `FAT_ERR_INVALID_PARAM` and produces no handle. -/
theorem fat_open_directory (volume : fat_volume_t) (path : List Nat) (flags fuel : Nat)
    (entry : fat_dir_entry_t) (parent_cluster entry_index : Nat)
    (hres : fat_resolve_path volume path fuel = some (.ok (entry, parent_cluster, entry_index)))
    (hdir : entry.attr &&& FAT_ATTR_DIRECTORY ≠ 0)
    (hflags : fat_validate_open_flags flags none = true) :
    fat_open volume path flags fuel = some (FAT_ERR_INVALID_PARAM, none) := by
  have hentry : fat_validate_open_flags flags (some entry) = false := by
    unfold fat_validate_open_flags
    simp only [hdir, ne_eq, not_false_eq_true, if_true, Bool.not_false]
    split
    · rfl
    · split <;> rfl
  unfold fat_open
  simp only [hflags, hres, hentry, Bool.not_true, Bool.not_false, Bool.false_eq_true, if_false,
    if_true]

theorem fat_open_directory_witness :
    fat_open volume_empty_root [0x2F] (FAT_O_RDONLY ||| FAT_O_RDWR) 1
      = some (FAT_ERR_INVALID_PARAM, none) :=
  fat_open_directory volume_empty_root [0x2F] (FAT_O_RDONLY ||| FAT_O_RDWR) 1
    (synthetic_directory_entry volume_empty_root
      [0x52, 0x4F, 0x4F, 0x54, 0x20, 0x20, 0x20, 0x20, 0x20, 0x20, 0x20] 0) 0 0
    (by rfl) (by decide) (by decide)

/-- C20 (code defect): `fat_validate_component` reads each byte into a plain `char` and
tests `c < 32`; with a signed `char` every byte from 0x80 on is negative and the component
is rejected. The two-byte component 0xC3 0xA9 (UTF-8 `é`) is non-empty, not longer than 255,
holds no byte in 0x00..0x1F and none of the characters `<>:"|?*`, and
`fat_validate_component` returns false for it; the ASCII component `a` is accepted. -/
theorem fat_validate_component_rejects_high_bytes :
    ([0xC3, 0xA9] : List Nat).length ≠ 0 ∧ ([0xC3, 0xA9] : List Nat).length ≤ 255 ∧
    (∀ b ∈ ([0xC3, 0xA9] : List Nat), ¬ b ≤ 0x1F ∧ b ∉ invalid_chars) ∧
    fat_validate_component [0xC3, 0xA9] = false ∧
    fat_validate_component [0x61] = true := by
  decide

/-! ## Create and unlink -/

/-- C16 (code defect): on a FAT16 volume whose root holds the one file `HELLO.TXT` (first
cluster 4, FAT[4] = 0xFFFF), `fat_create("A")` returns `FAT_OK` with a handle and
`fat_close` returns `FAT_OK`, but `fat_unlink("A")` returns `FAT_ERR_NOT_FOUND` and the FAT
cache differs from its content before the create: FAT[4] is 0xFFF8. The same happens on a
volume with an empty root whose cluster 2 is marked bad. `fat_create` stores the short name
`"        \x04  "` (`fat_generate_short_name` never fills `base_name`), so the new entry
does not match `A`, and it takes an in-use cluster (`fat_allocate_cluster`). -/
theorem fat_create_then_unlink_not_found :
    create_close_unlink volume_root_one_entry 2
      = some (FAT_OK, FAT_OK, FAT_ERR_NOT_FOUND, FAT_ERR_NOT_FOUND,
          fat16_image [0xFFF8, 0xFFFF, 0, 0, 0xFFF8, 0]) ∧
    fat16_image [0xFFF8, 0xFFFF, 0, 0, 0xFFF8, 0] ≠ volume_root_one_entry.fat_cache ∧
    create_close_unlink volume_bad_cluster 2
      = some (FAT_OK, FAT_OK, FAT_ERR_NOT_FOUND, FAT_ERR_NOT_FOUND,
          fat16_image [0xFFF8, 0xFFFF, 0xFFF8, 0, 0, 0]) ∧
    fat16_image [0xFFF8, 0xFFFF, 0xFFF8, 0, 0, 0] ≠ volume_bad_cluster.fat_cache ∧
    (fat_create volume_bad_cluster [0x41] 0x20 (some noon) [] 2).map
      (fun r => (fat_read_dir_entry r.2.1 19 0).toOption.map fun e => e.name)
      = some (some [0x20, 0x20, 0x20, 0x20, 0x20, 0x20, 0x20, 0x20, 0x04, 0x20, 0x20]) := by
  refine ⟨by decide!, by decide!, by decide!, by decide!, by decide!⟩

/-! ## Short names and reserved names -/

/-- C21 (code defect): for the long name `hello.txt` and the empty root directory of
`volume_empty_root`, `fat_generate_short_name` returns `FAT_OK` (one pass of the directory
search suffices, whatever bytes follow the caller's 11-byte array), but the 11 bytes it
leaves are eight spaces, the byte 0x04 and two spaces, not `HELLO   TXT`: the loops store
the converted characters to `short_name`, which the collision loop then overwrites with
spaces, `base_name` stays empty and `ext_name` is initialised to `{4}`. -/
theorem fat_generate_short_name_loses_name (stack_tail : List Nat) :
    fat_generate_short_name name_hello_txt volume_empty_root 0 stack_tail 1
      = some (.ok [0x20, 0x20, 0x20, 0x20, 0x20, 0x20, 0x20, 0x20, 0x04, 0x20, 0x20]) ∧
    [0x20, 0x20, 0x20, 0x20, 0x20, 0x20, 0x20, 0x20, 0x04, 0x20, 0x20] ≠ name_HELLO_TXT := by
  refine ⟨?_, by decide⟩
  set_option maxRecDepth 8000 in rfl

/-- C22 (code defect): `fat_validate_filename` compares the base with the reserved names
by `strcmp`, so only the upper-case spelling is rejected: `con.txt` and `Nul` are accepted
(the function returns true), while `CON.txt` is rejected. -/
theorem fat_validate_filename_accepts_lower_case_reserved :
    fat_validate_filename name_con_txt = true ∧
    fat_validate_filename name_Nul = true ∧
    fat_validate_filename name_CON_txt = false := by
  decide

/-! ## Walking a chain past its end -/

/-- C30 (code defect): on `volume_one_cluster` (the one-cluster chain 2 -> 0xFFFF, T = 4),
`fat_walk_cluster_chain(2, 1)` returns `FAT_OK` with the end-of-chain marker 0xFFFF as its
result, which is no cluster of [2, 2+T); `fat_walk_cluster_chain(2, 2)` returns
`FAT_ERR_INVALID_CLUSTER`. Neither returns `FAT_ERR_EOF`: the loop tests the cluster it is
about to leave, and tests its range before `fat_is_eoc`. -/
theorem fat_walk_cluster_chain_past_end :
    fat_read_entry volume_one_cluster 2 = .ok 0xFFFF ∧
    fat_is_eoc volume_one_cluster 0xFFFF = true ∧
    fat_walk_cluster_chain volume_one_cluster 2 1 = .ok 0xFFFF ∧
    is_valid_cluster volume_one_cluster 0xFFFF = false ∧
    fat_walk_cluster_chain volume_one_cluster 2 2 = .error FAT_ERR_INVALID_CLUSTER := by
  decide

/-! ## Sector arithmetic and seek targets -/

/-- C27: on a volume with `sectors_per_cluster` S >= 1 and data start D such that
D + T*S < 2^32, `fat_cluster_to_sector(c)` = D + (c - 2)*S for every cluster c of
[2, 2+T), and `fat_cluster_to_sector(c1) < fat_cluster_to_sector(c2)` for all clusters
c1 < c2 of [2, 2+T). -/
theorem fat_cluster_to_sector_formula (volume : fat_volume_t)
    (hS : 1 ≤ volume.sectors_per_cluster)
    (hD : volume.data_begin_sector + volume.total_clusters * volume.sectors_per_cluster
      < 4294967296) :
    (∀ c, 2 ≤ c → c < 2 + volume.total_clusters →
      fat_cluster_to_sector volume c
        = volume.data_begin_sector + (c - 2) * volume.sectors_per_cluster) ∧
    (∀ c1 c2, 2 ≤ c1 → c1 < c2 → c2 < 2 + volume.total_clusters →
      fat_cluster_to_sector volume c1 < fat_cluster_to_sector volume c2) := by
  have formula : ∀ c, 2 ≤ c → c < 2 + volume.total_clusters →
      fat_cluster_to_sector volume c
        = volume.data_begin_sector + (c - 2) * volume.sectors_per_cluster := by
    intro c h2 hT
    have hle : (c - 2) * volume.sectors_per_cluster
        ≤ volume.total_clusters * volume.sectors_per_cluster :=
      Nat.mul_le_mul_right _ (by omega)
    unfold fat_cluster_to_sector FAT_FIRST_VALID_CLUSTER u32
    rw [if_neg (by omega)]
    dsimp only
    rw [Nat.mod_eq_of_lt (a := (c - 2) * volume.sectors_per_cluster) (by omega),
      Nat.mod_eq_of_lt (by omega)]
  refine ⟨formula, ?_⟩
  intro c1 c2 h1 h12 h2
  rw [formula c1 h1 (by omega), formula c2 (by omega) h2]
  have hlt : (c1 - 2) * volume.sectors_per_cluster < (c2 - 2) * volume.sectors_per_cluster :=
    Nat.mul_lt_mul_of_pos_right (by omega) hS
  omega

theorem fat_cluster_to_sector_formula_witness :
    (∀ c, 2 ≤ c → c < 2 + volume_one_cluster.total_clusters →
      fat_cluster_to_sector volume_one_cluster c
        = volume_one_cluster.data_begin_sector
          + (c - 2) * volume_one_cluster.sectors_per_cluster) ∧
    (∀ c1 c2, 2 ≤ c1 → c1 < c2 → c2 < 2 + volume_one_cluster.total_clusters →
      fat_cluster_to_sector volume_one_cluster c1
        < fat_cluster_to_sector volume_one_cluster c2) :=
  fat_cluster_to_sector_formula volume_one_cluster (by decide) (by decide)

/-- C28: for every handle, every offset and every whence of SET, CUR, END, with
`base` = 0 for SET, the position for CUR and the file size for END:
`fat_calculate_target_position` returns Ok with `target_position` = base + offset when
0 <= base + offset <= 2^32 - 1 (the sum taken in the integers, without wrap-around), and
`FAT_ERR_INVALID_PARAM` otherwise. The function only reads the handle, so the embedding
returns no handle. -/
theorem fat_calculate_target_position_exact (file : fat_file_t) (offset : Int) (whence : Nat)
    (hw : whence = FAT_SEEK_SET ∨ whence = FAT_SEEK_CUR ∨ whence = FAT_SEEK_END) :
    (0 ≤ seek_base file whence + offset ∧ seek_base file whence + offset ≤ 4294967295 →
      ∃ target_position : Nat,
        fat_calculate_target_position file offset whence = .ok target_position ∧
        (target_position : Int) = seek_base file whence + offset) ∧
    (¬ (0 ≤ seek_base file whence + offset ∧ seek_base file whence + offset ≤ 4294967295) →
      fat_calculate_target_position file offset whence = .error FAT_ERR_INVALID_PARAM) := by
  unfold fat_calculate_target_position seek_base UINT32_MAX
  rcases hw with h | h | h <;> subst h
  · simp only [FAT_SEEK_SET, if_true, zero_add]
    constructor
    · rintro ⟨h0, h1⟩
      refine ⟨offset.toNat, ?_, Int.toNat_of_nonneg h0⟩
      simp only [show ¬ offset < 0 by omega, if_false]
      rw [if_neg (by push_cast; omega)]
    · intro hn
      by_cases h0 : offset < 0
      · simp only [h0, if_true]
      · simp only [h0, if_false]
        rw [if_pos (by push_cast; omega)]
  · simp only [FAT_SEEK_CUR, FAT_SEEK_SET, show (1 : Nat) ≠ 0 by decide, if_true, if_false]
    constructor
    · rintro ⟨h0, h1⟩
      refine ⟨((file.position : Int) + offset).toNat, ?_, Int.toNat_of_nonneg h0⟩
      rw [if_neg (by omega), if_neg (by push_cast; omega)]
    · intro hn
      by_cases h0 : (file.position : Int) + offset < 0
      · rw [if_pos h0]
      · rw [if_neg h0, if_pos (by push_cast; omega)]
  · simp only [FAT_SEEK_END, FAT_SEEK_CUR, FAT_SEEK_SET, show (2 : Nat) ≠ 0 by decide,
      show (2 : Nat) ≠ 1 by decide, if_true, if_false]
    constructor
    · rintro ⟨h0, h1⟩
      refine ⟨((file.dir_entry.file_size : Int) + offset).toNat, ?_, Int.toNat_of_nonneg h0⟩
      rw [if_neg (by omega), if_neg (by push_cast; omega)]
    · intro hn
      by_cases h0 : (file.dir_entry.file_size : Int) + offset < 0
      · rw [if_pos h0]
      · rw [if_neg h0, if_pos (by push_cast; omega)]

theorem fat_calculate_target_position_exact_witness :
    (0 ≤ seek_base handle_10 FAT_SEEK_END + (-4) ∧
        seek_base handle_10 FAT_SEEK_END + (-4) ≤ 4294967295 →
      ∃ target_position : Nat,
        fat_calculate_target_position handle_10 (-4) FAT_SEEK_END = .ok target_position ∧
        (target_position : Int) = seek_base handle_10 FAT_SEEK_END + (-4)) ∧
    (¬ (0 ≤ seek_base handle_10 FAT_SEEK_END + (-4) ∧
        seek_base handle_10 FAT_SEEK_END + (-4) ≤ 4294967295) →
      fat_calculate_target_position handle_10 (-4) FAT_SEEK_END
        = .error FAT_ERR_INVALID_PARAM) :=
  fat_calculate_target_position_exact handle_10 (-4) FAT_SEEK_END (by decide)

/-! ## Directory entry write and read back -/

theorem getD_map_range {α : Type} (f : Nat → α) (n k : Nat) (d : α) (hk : k < n) :
    ((List.range n).map f).getD k d = f k := by
  rw [List.getD_eq_getElem?_getD, List.getElem?_map, List.getElem?_range hk]
  rfl

theorem entry_at_bytes_of_getD (buffer : List Nat) (off : Nat) (entry : fat_dir_entry_t)
    (he : entry.bytes.length = 32)
    (h : ∀ k, k < 32 → buffer.getD (off + k) 0 = entry.bytes.getD k 0) :
    entry_at buffer off = entry := by
  cases entry with
  | mk bytes =>
    unfold entry_at
    congr 1
    apply List.ext_getElem
    · simpa using he.symm
    · intro k h1 h2
      have hk : k < 32 := by simpa using h1
      have := h k hk
      simp only [List.getElem_map, List.getElem_range]
      rw [this, List.getD_eq_getElem?_getD, List.getElem?_eq_getElem h2]
      rfl

/-- C29: on a volume whose device works (reads and writes succeed) and has the volume's
sector size, a multiple of 32, and for every 32-byte entry `entry`: when `offset` is a
multiple of 32 below `bytes_per_sector`, `fat_write_dir_entry(sector, offset, entry)` returns
Ok, the device bytes outside [offset, offset+32) of that sector are the old ones, those 32
bytes are the bytes of `entry`, and `fat_read_dir_entry(sector, offset)` then returns
`entry`; for any other offset both functions return `FAT_ERR_INVALID_PARAM` (an error result
carries no volume: nothing has been written). -/
theorem fat_write_dir_entry_read_back (volume : fat_volume_t) (sector offset : Nat)
    (entry : fat_dir_entry_t)
    (hr : volume.device.read_ok = true) (hw : volume.device.write_ok = true)
    (hs : volume.device.sector_size = volume.bytes_per_sector)
    (h32 : 32 ∣ volume.bytes_per_sector) (he : entry.bytes.length = 32) :
    (offset % 32 = 0 ∧ offset < volume.bytes_per_sector →
      ∃ volume', fat_write_dir_entry volume sector offset entry = .ok volume' ∧
        (∀ a, ¬ (sector * volume.bytes_per_sector + offset ≤ a ∧
              a < sector * volume.bytes_per_sector + offset + 32) →
          volume'.device.data a = volume.device.data a) ∧
        (∀ k, k < 32 →
          volume'.device.data (sector * volume.bytes_per_sector + offset + k)
            = entry.bytes.getD k 0) ∧
        fat_read_dir_entry volume' sector offset = .ok entry) ∧
    (¬ (offset % 32 = 0 ∧ offset < volume.bytes_per_sector) →
      fat_write_dir_entry volume sector offset entry = .error FAT_ERR_INVALID_PARAM ∧
      fat_read_dir_entry volume sector offset = .error FAT_ERR_INVALID_PARAM) := by
  constructor
  · rintro ⟨hal, hlt⟩
    have hfit : offset + 32 ≤ volume.bytes_per_sector := by
      obtain ⟨m, hm⟩ := h32
      omega
    have hmul : (sector + 1) * volume.bytes_per_sector
        = sector * volume.bytes_per_sector + volume.bytes_per_sector := by
      rw [Nat.add_mul, Nat.one_mul]
    have hnew : ∀ k, k < volume.bytes_per_sector →
        (memcpy_at ((List.range (1 * volume.bytes_per_sector)).map fun k =>
            volume.device.data (sector * volume.bytes_per_sector + k)) offset entry.bytes
          32).getD k 0
          = if offset ≤ k ∧ k < offset + 32 then entry.bytes.getD (k - offset) 0
            else volume.device.data (sector * volume.bytes_per_sector + k) := by
      intro k hk
      unfold memcpy_at
      rw [getD_map_range _ _ _ _ (by simpa using hk)]
      split
      · rfl
      · exact getD_map_range _ _ _ _ (by simpa using hk)
    have key : ∃ volume', fat_write_dir_entry volume sector offset entry = .ok volume' ∧
        volume'.device.read_ok = true ∧
        volume'.device.sector_size = volume.bytes_per_sector ∧
        volume'.bytes_per_sector = volume.bytes_per_sector ∧
        ∀ a, volume'.device.data a
          = if sector * volume.bytes_per_sector ≤ a ∧ a < (sector + 1) * volume.bytes_per_sector
            then (memcpy_at ((List.range (1 * volume.bytes_per_sector)).map fun k =>
              volume.device.data (sector * volume.bytes_per_sector + k)) offset entry.bytes
              32).getD (a - sector * volume.bytes_per_sector) 0
            else volume.device.data a := by
      unfold fat_write_dir_entry
      rw [if_neg (by omega), if_neg (by omega)]
      simp only [read_sectors, hr, if_true, write_sectors, hw, hs]
      exact ⟨_, rfl, rfl, rfl, rfl, fun a => rfl⟩
    obtain ⟨volume', hwrite, hr', hs', hB', hdata⟩ := key
    refine ⟨volume', hwrite, ?_, ?_, ?_⟩
    · intro a ha
      rw [hdata a]
      split
      · rw [hnew _ (by omega), if_neg (by omega)]
        congr 1
        omega
      · rfl
    · intro k hk
      rw [hdata, if_pos (by omega), hnew _ (by omega), if_pos (by omega)]
      congr 1
      omega
    · unfold fat_read_dir_entry
      rw [if_neg (by omega), if_neg (by omega)]
      simp only [read_sectors, hr', if_true, hs']
      congr 1
      apply entry_at_bytes_of_getD _ _ _ he
      intro k hk
      rw [getD_map_range _ _ _ _ (by omega)]
      rw [hdata, if_pos (by omega), hnew _ (by omega), if_pos (by omega)]
      congr 1
      omega
  · intro hn
    unfold fat_write_dir_entry fat_read_dir_entry
    by_cases hal : offset % 32 = 0
    · have hge : offset ≥ volume.bytes_per_sector := by
        by_contra hlt
        exact hn ⟨hal, by omega⟩
      rw [if_neg (by omega), if_pos hge, if_neg (by omega), if_pos hge]
      exact ⟨rfl, rfl⟩
    · rw [if_pos hal, if_pos hal]
      exact ⟨rfl, rfl⟩

theorem fat_write_dir_entry_read_back_witness :
    (32 % 32 = 0 ∧ 32 < volume_empty_root.bytes_per_sector →
      ∃ volume', fat_write_dir_entry volume_empty_root 19 32 entry_hello = .ok volume' ∧
        (∀ a, ¬ (19 * volume_empty_root.bytes_per_sector + 32 ≤ a ∧
              a < 19 * volume_empty_root.bytes_per_sector + 32 + 32) →
          volume'.device.data a = volume_empty_root.device.data a) ∧
        (∀ k, k < 32 →
          volume'.device.data (19 * volume_empty_root.bytes_per_sector + 32 + k)
            = entry_hello.bytes.getD k 0) ∧
        fat_read_dir_entry volume' 19 32 = .ok entry_hello) ∧
    (¬ (32 % 32 = 0 ∧ 32 < volume_empty_root.bytes_per_sector) →
      fat_write_dir_entry volume_empty_root 19 32 entry_hello = .error FAT_ERR_INVALID_PARAM ∧
      fat_read_dir_entry volume_empty_root 19 32 = .error FAT_ERR_INVALID_PARAM) :=
  fat_write_dir_entry_read_back volume_empty_root 19 32 entry_hello (by decide) (by decide)
    (by decide) (by decide) (by decide)

/-! ## Termination of `fat_free_chain` -/

theorem fat_free_chain_counted_loop_spec (max_iterations : Nat)
    (hmax : max_iterations < 4294967296) :
    ∀ (n fuel : Nat) (volume : fat_volume_t) (current_cluster iterations writes : Nat),
      iterations + n = max_iterations → n < fuel →
      ∃ iterations' writes',
        fat_free_chain_counted_loop max_iterations fuel volume current_cluster iterations
            writes
          = some ((fat_free_chain_loop n volume current_cluster).1,
              (fat_free_chain_loop n volume current_cluster).2, iterations', writes') ∧
        iterations' ≤ max_iterations ∧ writes' + iterations ≤ iterations' + writes := by
  intro n
  induction n with
  | zero =>
    intro fuel volume current_cluster iterations writes hn hfuel
    obtain ⟨fuel, rfl⟩ : ∃ f, fuel = f + 1 := ⟨fuel - 1, by omega⟩
    refine ⟨iterations, writes, ?_, by omega, by omega⟩
    rw [fat_free_chain_counted_loop, if_neg (by omega)]
    rfl
  | succ n ih =>
    intro fuel volume current_cluster iterations writes hn hfuel
    obtain ⟨fuel, rfl⟩ : ∃ f, fuel = f + 1 := ⟨fuel - 1, by omega⟩
    have hu : u32 (iterations + 1) = iterations + 1 := by
      unfold u32
      exact Nat.mod_eq_of_lt (by omega)
    rw [fat_free_chain_counted_loop, if_pos (by omega), fat_free_chain_loop]
    simp only [hu]
    cases hread : fat_read_entry volume current_cluster with
    | error err => exact ⟨iterations + 1, writes, rfl, by omega, by omega⟩
    | ok next_cluster =>
      simp only []
      cases hwrite : fat_write_entry volume current_cluster FAT_FREE with
      | error err => exact ⟨iterations + 1, writes + 1, rfl, by omega, by omega⟩
      | ok volume' =>
        simp only []
        by_cases heoc : fat_is_eoc volume' next_cluster = true
        · simp only [heoc, if_true]
          exact ⟨iterations + 1, writes + 1, rfl, by omega, by omega⟩
        · simp only [heoc, if_false]
          by_cases hbad : fat_is_bad volume' next_cluster = true
          · simp only [hbad, if_true]
            exact ⟨iterations + 1, writes + 1, rfl, by omega, by omega⟩
          · simp only [hbad, if_false]
            by_cases hrange : (decide (next_cluster < FAT_FIRST_VALID_CLUSTER) ||
                decide (next_cluster ≥ u32 (FAT_FIRST_VALID_CLUSTER + volume'.total_clusters)))
                = true
            · simp only [hrange, if_true]
              exact ⟨iterations + 1, writes + 1, rfl, by omega, by omega⟩
            · simp only [hrange, if_false]
              obtain ⟨iterations', writes', h, h1, h2⟩ :=
                  ih fuel volume' next_cluster (iterations + 1) (writes + 1) (by omega)
                    (by omega)
              exact ⟨iterations', writes', h, h1, by omega⟩

/-- C25: for every FAT cache content and every start cluster, `fat_free_chain(start)`
returns: with more than T units of fuel its loop has ended, with the status and the volume
of `fat_free_chain`, after at most T iterations and at most as many calls of
`fat_write_entry` as iterations (T = `total_clusters`, a `uint32_t`). -/
theorem fat_free_chain_terminates (volume : fat_volume_t) (start_cluster fuel : Nat)
    (hT : volume.total_clusters < 4294967296) (hfuel : volume.total_clusters < fuel) :
    ∃ iterations writes,
      fat_free_chain_counted volume start_cluster fuel
        = some ((fat_free_chain volume start_cluster).1, (fat_free_chain volume start_cluster).2,
            iterations, writes) ∧
      writes ≤ iterations ∧ iterations ≤ volume.total_clusters := by
  unfold fat_free_chain_counted fat_free_chain
  split
  · exact ⟨0, 0, rfl, by omega, by omega⟩
  · obtain ⟨iterations, writes, h, h1, h2⟩ :=
      fat_free_chain_counted_loop_spec volume.total_clusters hT volume.total_clusters fuel
        volume start_cluster 0 0 (by omega) hfuel
    exact ⟨iterations, writes, h, by omega, h1⟩

theorem fat_free_chain_terminates_witness :
    ∃ iterations writes,
      fat_free_chain_counted volume_cycle 2 4
        = some ((fat_free_chain volume_cycle 2).1, (fat_free_chain volume_cycle 2).2,
            iterations, writes) ∧
      writes ≤ iterations ∧ iterations ≤ volume_cycle.total_clusters :=
  fat_free_chain_terminates volume_cycle 2 4 (by decide) (by decide)

/-! ## Validation of a well-formed chain -/

theorem fat_read_entry_ok_valid (volume : fat_volume_t) (c v : Nat)
    (h : fat_read_entry volume c = .ok v) : is_valid_cluster volume c = true := by
  unfold fat_read_entry at h
  by_cases hv : is_valid_cluster volume c = true
  · exact hv
  · simp only [hv, Bool.not_false, if_true] at h
    cases h

theorem fat_validate_chain_loop_well_formed (volume : fat_volume_t) (cs : List Nat)
    (hnd : cs.Nodup)
    (hlink : ∀ i, i + 1 < cs.length →
      fat_read_entry volume (cs.getD i 0) = .ok (cs.getD (i + 1) 0))
    (hend : ∃ v, fat_read_entry volume (cs.getD (cs.length - 1) 0) = .ok v ∧
      fat_is_eoc volume v = true) :
    ∀ fuel k, 2 * k < cs.length → cs.length ≤ 2 * fuel + 2 * k →
      fat_validate_chain_loop volume fuel (cs.getD k 0) (cs.getD (2 * k) 0) = some FAT_OK := by
  obtain ⟨vend, hvend, heoc⟩ := hend
  have hvalid : ∀ i, i < cs.length → is_valid_cluster volume (cs.getD i 0) = true := by
    intro i hi
    by_cases hl : i + 1 < cs.length
    · exact fat_read_entry_ok_valid _ _ _ (hlink i hl)
    · have : i = cs.length - 1 := by omega
      rw [this]
      exact fat_read_entry_ok_valid _ _ _ hvend
  have hrange : ∀ i, i < cs.length →
      (decide (cs.getD i 0 < FAT_FIRST_VALID_CLUSTER) ||
        decide (u32 (FAT_FIRST_VALID_CLUSTER + volume.total_clusters) ≤ cs.getD i 0)) = false := by
    intro i hi
    have := out_of_range_false volume _ (hvalid i hi)
    simpa only [ge_iff_le] using this
  have hlast : ∀ i, i < cs.length → ¬ i + 1 < cs.length →
      fat_read_entry volume (cs.getD i 0) = .ok vend := by
    intro i hi hl
    have : i = cs.length - 1 := by omega
    rw [this]
    exact hvend
  intro fuel
  induction fuel with
  | zero => intro k h1 h2; omega
  | succ fuel ih =>
    intro k hk hfuel
    rw [fat_validate_chain_loop]
    by_cases h1 : k + 1 < cs.length
    · rw [hlink k h1]
      simp only [ge_iff_le]
      by_cases e1 : fat_is_eoc volume (cs.getD (k + 1) 0) = true
      · simp only [e1, if_true]
      · simp only [e1, if_false, hrange (k + 1) h1, Bool.false_eq_true]
        by_cases h2 : 2 * k + 1 < cs.length
        · rw [hlink (2 * k) h2]
          simp only []
          by_cases e2 : fat_is_eoc volume (cs.getD (2 * k + 1) 0) = true
          · simp only [e2, if_true]
          · simp only [e2, if_false, hrange (2 * k + 1) h2, Bool.false_eq_true]
            by_cases h3 : 2 * k + 1 + 1 < cs.length
            · rw [hlink (2 * k + 1) h3]
              simp only []
              by_cases e3 : fat_is_eoc volume (cs.getD (2 * k + 1 + 1) 0) = true
              · simp only [e3, if_true]
              · simp only [e3, if_false, hrange (2 * k + 1 + 1) h3, Bool.false_eq_true]
                have hne : cs.getD (k + 1) 0 ≠ cs.getD (2 * k + 1 + 1) 0 := by
                  intro heq
                  rw [List.getD_eq_getElem _ _ h1, List.getD_eq_getElem _ _ h3] at heq
                  have := (List.Nodup.getElem_inj_iff hnd).mp heq
                  omega
                simp only [hne, if_false]
                have := ih (k + 1) (by omega) (by omega)
                rw [show 2 * (k + 1) = 2 * k + 1 + 1 by omega] at this
                exact this
            · rw [hlast (2 * k + 1) h2 h3]
              simp only [heoc, if_true]
        · rw [hlast (2 * k) hk h2]
          simp only [heoc, if_true]
    · rw [hlast k (by omega) h1]
      simp only [heoc, if_true]

/-- C26: for every FAT type and every well-formed chain c1 -> ... -> cn (`cs`, n >= 1,
distinct clusters, FAT[ci] = c(i+1) read by `fat_read_entry`, which succeeds only for
clusters of [2, 2+T), and FAT[cn] an end-of-chain marker), `fat_validate_chain(c1)` returns
`FAT_OK`: n iterations of its loop suffice. The function only calls `fat_read_entry`, so
the embedding returns no volume: the FAT cache is the one passed in. -/
theorem fat_validate_chain_well_formed (volume : fat_volume_t) (cs : List Nat) (fuel : Nat)
    (hne : cs ≠ []) (hnd : cs.Nodup)
    (hlink : ∀ i, i + 1 < cs.length →
      fat_read_entry volume (cs.getD i 0) = .ok (cs.getD (i + 1) 0))
    (hend : ∃ v, fat_read_entry volume (cs.getD (cs.length - 1) 0) = .ok v ∧
      fat_is_eoc volume v = true)
    (hfuel : cs.length ≤ fuel) :
    fat_validate_chain volume (cs.getD 0 0) fuel = some FAT_OK := by
  have hpos : 0 < cs.length := List.length_pos.mpr hne
  have hvalid : is_valid_cluster volume (cs.getD 0 0) = true := by
    by_cases hl : 0 + 1 < cs.length
    · exact fat_read_entry_ok_valid _ _ _ (hlink 0 hl)
    · obtain ⟨v, hv, _⟩ := hend
      rw [show cs.length - 1 = 0 by omega] at hv
      exact fat_read_entry_ok_valid _ _ _ hv
  have hstart := out_of_range_false volume _ hvalid
  unfold fat_validate_chain
  simp only [ge_iff_le] at hstart
  simp only [ge_iff_le, hstart, Bool.false_eq_true, if_false]
  exact fat_validate_chain_loop_well_formed volume cs hnd hlink hend fuel 0 (by omega) (by omega)

theorem fat_validate_chain_well_formed_witness :
    fat_validate_chain volume_full (([2, 3] : List Nat).getD 0 0) 2 = some FAT_OK :=
  fat_validate_chain_well_formed volume_full [2, 3] 2 (by decide) (by decide)
    (by
      intro i hi
      have h2 : i + 1 < 2 := hi
      have : i = 0 := by omega
      subst this
      decide)
    ⟨0xFFFF, by decide, by decide⟩ (by decide)

/-! ## Frame of `fat_write_entry` -/

theorem and_F000 (x : Nat) : x &&& 0xF000 = 4096 * (x / 4096 % 16) := by
  have h : x &&& (15 <<< 12) = ((x >>> 12) &&& (2 ^ 4 - 1)) <<< 12 := by
    apply Nat.eq_of_testBit_eq
    intro i
    simp only [Nat.testBit_and, Nat.testBit_shiftLeft, Nat.testBit_shiftRight]
    by_cases hi : i ≥ 12
    · simp only [hi, decide_True, Bool.true_and, show 12 + (i - 12) = i by omega]
      rfl
    · simp only [hi, decide_False, Bool.false_and, Bool.and_false]
  rw [Nat.and_pow_two_sub_one_eq_mod, Nat.shiftRight_eq_div_pow] at h
  rw [show (0xF000 : Nat) = 15 <<< 12 by decide, h, Nat.shiftLeft_eq,
    show (2 : Nat) ^ 12 = 4096 by decide, show (2 : Nat) ^ 4 = 16 by decide]
  omega

theorem and_0FFF (x : Nat) : x &&& 0x0FFF = x % 4096 :=
  Nat.and_pow_two_sub_one_eq_mod x 12

theorem or_shift4_mod16 (a b : Nat) : (a ||| u32 (b <<< 4)) % 16 = a % 16 := by
  unfold u32
  apply Nat.eq_of_testBit_eq
  intro i
  rw [show (16 : Nat) = 2 ^ 4 by decide, show (4294967296 : Nat) = 2 ^ 32 by decide]
  simp only [Nat.testBit_mod_two_pow, Nat.testBit_or, Nat.testBit_shiftLeft]
  by_cases hi : i < 4
  · simp only [hi, decide_True, Bool.true_and, show ¬ i ≥ 4 by omega, decide_False,
      Bool.false_and, Bool.and_false, Bool.or_false]
  · simp only [hi, decide_False, Bool.false_and]

theorem fat12_even_entry (w v : Nat) :
    u16 ((w &&& 0xF000) ||| (v &&& 0x0FFF)) = (4096 * (w / 4096 % 16) + v % 4096) % 65536 := by
  rw [and_F000, and_0FFF]
  have h := Nat.mul_add_lt_is_or (i := 12) (b := v % 4096) (Nat.mod_lt _ (by decide))
    (w / 4096 % 16)
  rw [show (2 : Nat) ^ 12 = 4096 by decide] at h
  rw [← h]
  rfl

theorem fat12_odd_entry_mod16 (w v : Nat) :
    u16 ((w &&& 0x0FFF) ||| u32 ((v &&& 0x0FFF) <<< 4)) % 16 = w % 16 := by
  have h := or_shift4_mod16 (w &&& 0x0FFF) (v &&& 0x0FFF)
  rw [and_0FFF w] at h ⊢
  unfold u16
  omega

theorem getD_set_ne (l : List Nat) (i j a : Nat) (h : j ≠ i) :
    (l.set i a).getD j 0 = l.getD j 0 := by
  rw [List.getD_eq_getElem?_getD, List.getD_eq_getElem?_getD, List.getElem?_set_ne (Ne.symm h)]

theorem getD_of_length_le (l : List Nat) (i : Nat) (h : l.length ≤ i) : l.getD i 0 = 0 := by
  rw [List.getD_eq_getElem?_getD, List.getElem?_eq_none h]
  rfl

theorem getD_set_self (l : List Nat) (i a : Nat) :
    (l.set i a).getD i 0 = if i < l.length then a else 0 := by
  by_cases h : i < l.length
  · rw [if_pos h, List.getD_eq_getElem _ _ (by simpa using h), List.getElem_set_self]
  · rw [if_neg h]
    exact getD_of_length_le _ _ (by simpa using h)

theorem store16_getD_ne (buf : List Nat) (off v j : Nat) (h0 : j ≠ off) (h1 : j ≠ off + 1) :
    (store16 buf off v).getD j 0 = buf.getD j 0 := by
  unfold store16
  rw [getD_set_ne _ _ _ _ h1, getD_set_ne _ _ _ _ h0]

theorem store16_getD_lo (buf : List Nat) (off v : Nat) :
    (store16 buf off v).getD off 0 = if off < buf.length then v % 256 else 0 := by
  unfold store16
  rw [getD_set_ne _ _ _ _ (by omega), getD_set_self]

theorem store16_getD_hi (buf : List Nat) (off v : Nat) :
    (store16 buf off v).getD (off + 1) 0 = if off + 1 < buf.length then v / 256 % 256 else 0 := by
  unfold store16
  rw [getD_set_self, List.length_set]

theorem store32_getD_ne (buf : List Nat) (off v j : Nat)
    (h : j < off ∨ off + 4 ≤ j) : (store32 buf off v).getD j 0 = buf.getD j 0 := by
  unfold store32
  rw [getD_set_ne _ _ _ _ (by omega), getD_set_ne _ _ _ _ (by omega),
    getD_set_ne _ _ _ _ (by omega), getD_set_ne _ _ _ _ (by omega)]

theorem valid_cluster_bounds (volume : fat_volume_t) (c : Nat)
    (hT : FAT_FIRST_VALID_CLUSTER + volume.total_clusters ≤ 0x0FFFFFF7)
    (hc : is_valid_cluster volume c = true) : 2 ≤ c ∧ c < 0x0FFFFFF7 := by
  unfold is_valid_cluster at hc
  simp only [Bool.and_eq_true, decide_eq_true_eq] at hc
  unfold FAT_FIRST_VALID_CLUSTER u32 at hc
  unfold FAT_FIRST_VALID_CLUSTER at hT
  omega

theorem load16_store16_disjoint (buf : List Nat) (off v off' : Nat)
    (h : off' + 1 < off ∨ off + 1 < off') :
    load16 (store16 buf off v) off' = load16 buf off' := by
  unfold load16
  rw [store16_getD_ne _ _ _ _ (by omega) (by omega),
    store16_getD_ne _ _ _ _ (by omega) (by omega)]

theorem load32_store32_disjoint (buf : List Nat) (off v off' : Nat)
    (h : off' + 3 < off ∨ off + 3 < off') :
    load32 (store32 buf off v) off' = load32 buf off' := by
  unfold load32
  rw [store32_getD_ne _ _ _ _ (by omega), store32_getD_ne _ _ _ _ (by omega),
    store32_getD_ne _ _ _ _ (by omega), store32_getD_ne _ _ _ _ (by omega)]

/-- The FAT12 entry word `fat_write_entry` stores for cluster `c`. -/
theorem fat_write_entry_fat12 (volume : fat_volume_t) (c v : Nat)
    (hty : volume.type = FAT_TYPE_FAT12) (hc : is_valid_cluster volume c = true) :
    fat_write_entry volume c v = .ok { volume with
      fat_cache := store16 volume.fat_cache (u32 (c * 3) / 2)
        (if c &&& 1 ≠ 0 then
          u16 ((load16 volume.fat_cache (u32 (c * 3) / 2) &&& 0x0FFF)
            ||| u32 ((v &&& 0x0FFF) <<< 4))
        else u16 ((load16 volume.fat_cache (u32 (c * 3) / 2) &&& 0xF000) ||| (v &&& 0x0FFF))),
      fat_dirty := true } := by
  unfold fat_write_entry
  simp only [hc, hty, Bool.not_true, Bool.false_eq_true, if_false]

theorem fat_write_entry_fat16 (volume : fat_volume_t) (c v : Nat)
    (hty : volume.type = FAT_TYPE_FAT16) (hc : is_valid_cluster volume c = true) :
    fat_write_entry volume c v = .ok { volume with
      fat_cache := store16 volume.fat_cache (u32 (c * 2)) (u16 (v &&& 0xFFFF)),
      fat_dirty := true } := by
  unfold fat_write_entry
  simp only [hc, hty, Bool.not_true, Bool.false_eq_true, if_false]

theorem fat_write_entry_fat32 (volume : fat_volume_t) (c v : Nat)
    (hty : volume.type = FAT_TYPE_FAT32) (hc : is_valid_cluster volume c = true) :
    fat_write_entry volume c v = .ok { volume with
      fat_cache := store32 volume.fat_cache (u32 (c * 4))
        ((load32 volume.fat_cache (u32 (c * 4)) &&& 0x0FFFFFFF) ||| (v &&& 0x0FFFFFFF)),
      fat_dirty := true } := by
  unfold fat_write_entry
  simp only [hc, hty, Bool.not_true, Bool.false_eq_true, if_false]

theorem fat_read_entry_fat12 (volume : fat_volume_t) (c : Nat)
    (hty : volume.type = FAT_TYPE_FAT12) (hc : is_valid_cluster volume c = true) :
    fat_read_entry volume c = .ok (if c &&& 1 ≠ 0
      then load16 volume.fat_cache (u32 (c * 3) / 2) >>> 4
      else load16 volume.fat_cache (u32 (c * 3) / 2) &&& 0x0FFF) := by
  unfold fat_read_entry
  simp only [hc, hty, Bool.not_true, Bool.false_eq_true, if_false]
  split <;> rfl

theorem fat_read_entry_fat16 (volume : fat_volume_t) (c : Nat)
    (hty : volume.type = FAT_TYPE_FAT16) (hc : is_valid_cluster volume c = true) :
    fat_read_entry volume c = .ok (load16 volume.fat_cache (u32 (c * 2))) := by
  unfold fat_read_entry
  simp only [hc, hty, Bool.not_true, Bool.false_eq_true, if_false]

theorem fat_read_entry_fat32 (volume : fat_volume_t) (c : Nat)
    (hty : volume.type = FAT_TYPE_FAT32) (hc : is_valid_cluster volume c = true) :
    fat_read_entry volume c = .ok (load32 volume.fat_cache (u32 (c * 4)) &&& 0x0FFFFFFF) := by
  unfold fat_read_entry
  simp only [hc, hty, Bool.not_true, Bool.false_eq_true, if_false]

theorem fat_write_entry_frame_16 (volume : fat_volume_t) (c v c' : Nat)
    (hty : volume.type = FAT_TYPE_FAT16)
    (hT : FAT_FIRST_VALID_CLUSTER + volume.total_clusters ≤ 0x0FFFFFF7)
    (hc : is_valid_cluster volume c = true) (hc' : is_valid_cluster volume c' = true)
    (hne : c' ≠ c) :
    ∃ volume', fat_write_entry volume c v = .ok volume' ∧
      fat_read_entry volume' c' = fat_read_entry volume c' ∧ volume'.fat_dirty = true := by
  have b := valid_cluster_bounds volume c hT hc
  have b' := valid_cluster_bounds volume c' hT hc'
  refine ⟨_, fat_write_entry_fat16 volume c v hty hc, ?_, rfl⟩
  rw [fat_read_entry_fat16 volume c' hty hc', fat_read_entry_fat16 { volume with fat_cache := _, fat_dirty := true } c' hty hc']
  congr 1
  apply load16_store16_disjoint
  unfold u32
  omega

theorem fat_write_entry_frame_32 (volume : fat_volume_t) (c v c' : Nat)
    (hty : volume.type = FAT_TYPE_FAT32)
    (hT : FAT_FIRST_VALID_CLUSTER + volume.total_clusters ≤ 0x0FFFFFF7)
    (hc : is_valid_cluster volume c = true) (hc' : is_valid_cluster volume c' = true)
    (hne : c' ≠ c) :
    ∃ volume', fat_write_entry volume c v = .ok volume' ∧
      fat_read_entry volume' c' = fat_read_entry volume c' ∧ volume'.fat_dirty = true := by
  have b := valid_cluster_bounds volume c hT hc
  have b' := valid_cluster_bounds volume c' hT hc'
  refine ⟨_, fat_write_entry_fat32 volume c v hty hc, ?_, rfl⟩
  rw [fat_read_entry_fat32 volume c' hty hc', fat_read_entry_fat32 { volume with fat_cache := _, fat_dirty := true } c' hty hc']
  congr 2
  apply load32_store32_disjoint
  unfold u32
  omega

theorem fat12_even_keeps_high_nibble (cache : List Nat) (hb : ∀ b ∈ cache, b < 256)
    (o v : Nat) :
    (store16 cache o (u16 ((load16 cache o &&& 0xF000) ||| (v &&& 0x0FFF)))).getD (o + 1) 0 / 16
      = cache.getD (o + 1) 0 / 16 := by
  rw [store16_getD_hi, fat12_even_entry]
  have h0 := getD_lt_of_bytes cache hb o
  have h1 := getD_lt_of_bytes cache hb (o + 1)
  by_cases hlen : o + 1 < cache.length
  · rw [if_pos hlen]
    unfold load16
    omega
  · rw [if_neg hlen, getD_of_length_le _ _ (by omega)]

theorem fat12_odd_keeps_low_nibble (cache : List Nat) (o v : Nat) :
    (store16 cache o
      (u16 ((load16 cache o &&& 0x0FFF) ||| u32 ((v &&& 0x0FFF) <<< 4)))).getD o 0 % 16
      = cache.getD o 0 % 16 := by
  rw [store16_getD_lo]
  have h := fat12_odd_entry_mod16 (load16 cache o) v
  by_cases hlen : o < cache.length
  · rw [if_pos hlen]
    unfold load16 at h ⊢
    omega
  · rw [if_neg hlen, getD_of_length_le _ _ (by omega)]

theorem fat_write_entry_frame_12 (volume : fat_volume_t) (c v c' : Nat)
    (hty : volume.type = FAT_TYPE_FAT12)
    (hb : ∀ b ∈ volume.fat_cache, b < 256)
    (hT : FAT_FIRST_VALID_CLUSTER + volume.total_clusters ≤ 0x0FFFFFF7)
    (hc : is_valid_cluster volume c = true) (hc' : is_valid_cluster volume c' = true)
    (hne : c' ≠ c) :
    ∃ volume', fat_write_entry volume c v = .ok volume' ∧
      fat_read_entry volume' c' = fat_read_entry volume c' ∧ volume'.fat_dirty = true := by
  have b := valid_cluster_bounds volume c hT hc
  have b' := valid_cluster_bounds volume c' hT hc'
  have ho : u32 (c * 3) / 2 = c * 3 / 2 := by unfold u32; omega
  have ho' : u32 (c' * 3) / 2 = c' * 3 / 2 := by unfold u32; omega
  refine ⟨_, fat_write_entry_fat12 volume c v hty hc, ?_, rfl⟩
  rw [fat_read_entry_fat12 volume c' hty hc',
    fat_read_entry_fat12 { volume with fat_cache := _, fat_dirty := true } c' hty hc']
  simp only [ho, ho', Nat.and_one_is_mod, ne_eq]
  congr 1
  by_cases hdis : c' * 3 / 2 + 1 < c * 3 / 2 ∨ c * 3 / 2 + 1 < c' * 3 / 2
  · rw [load16_store16_disjoint _ _ _ _ hdis]
  · by_cases hpar : c % 2 = 0
    · have hc1 : c' = c + 1 := by omega
      subst hc1
      have hoff : (c + 1) * 3 / 2 = c * 3 / 2 + 1 := by omega
      simp only [hpar, show (c + 1) % 2 ≠ 0 by omega, not_true_eq_false, not_false_eq_true,
        if_true, if_false, hoff]
      have key := fat12_even_keeps_high_nibble volume.fat_cache hb (c * 3 / 2) v
      rw [Nat.shiftRight_eq_div_pow, Nat.shiftRight_eq_div_pow]
      unfold load16 at key ⊢
      rw [store16_getD_ne _ _ _ (c * 3 / 2 + 1 + 1) (by omega) (by omega)]
      omega
    · obtain ⟨d, rfl⟩ : ∃ d, c = d + 1 := ⟨c - 1, by omega⟩
      have hc1 : c' = d := by omega
      subst hc1
      have hoff : (c' + 1) * 3 / 2 = c' * 3 / 2 + 1 := by omega
      simp only [show (c' + 1) % 2 ≠ 0 by omega, show c' % 2 = 0 by omega, not_true_eq_false,
        not_false_eq_true, if_true, if_false, hoff]
      have key := fat12_odd_keeps_low_nibble volume.fat_cache (c' * 3 / 2 + 1) v
      generalize u16 ((load16 volume.fat_cache (c' * 3 / 2 + 1) &&& 0x0FFF)
        ||| u32 ((v &&& 0x0FFF) <<< 4)) = word at key ⊢
      rw [and_0FFF, and_0FFF]
      unfold load16
      rw [store16_getD_ne _ _ _ (c' * 3 / 2) (by omega) (by omega)]
      omega

/-- C24: for every FAT type, every FAT cache content (an array of bytes), every valid
cluster c and every value v, on a volume whose cluster numbers lie below the bad-cluster
marker 0x0FFFFFF7 (2 + T <= 0x0FFFFFF7, so that no byte offset wraps):
`fat_write_entry(c, v)` returns Ok, leaves `fat_read_entry(c')` unchanged for every valid
cluster c' other than c, and sets `fat_dirty`. On FAT12 the write touches only the two
bytes at offset 3c/2, and of these it keeps the nibble of the neighbouring entry: the high
nibble of the second byte for even c, the low nibble of the first byte for odd c. -/
theorem fat_write_entry_frame (volume : fat_volume_t) (c v c' : Nat)
    (hb : ∀ b ∈ volume.fat_cache, b < 256)
    (hT : FAT_FIRST_VALID_CLUSTER + volume.total_clusters ≤ 0x0FFFFFF7)
    (hc : is_valid_cluster volume c = true) (hc' : is_valid_cluster volume c' = true)
    (hne : c' ≠ c) :
    ∃ volume', fat_write_entry volume c v = .ok volume' ∧
      fat_read_entry volume' c' = fat_read_entry volume c' ∧
      volume'.fat_dirty = true ∧
      (volume.type = FAT_TYPE_FAT12 →
        (∀ j, j ≠ c * 3 / 2 → j ≠ c * 3 / 2 + 1 →
          volume'.fat_cache.getD j 0 = volume.fat_cache.getD j 0) ∧
        (c % 2 = 0 → volume'.fat_cache.getD (c * 3 / 2 + 1) 0 / 16
          = volume.fat_cache.getD (c * 3 / 2 + 1) 0 / 16) ∧
        (c % 2 = 1 → volume'.fat_cache.getD (c * 3 / 2) 0 % 16
          = volume.fat_cache.getD (c * 3 / 2) 0 % 16)) := by
  have main : ∃ volume', fat_write_entry volume c v = .ok volume' ∧
      fat_read_entry volume' c' = fat_read_entry volume c' ∧ volume'.fat_dirty = true := by
    cases hty : volume.type with
    | FAT_TYPE_FAT12 => exact fat_write_entry_frame_12 volume c v c' hty hb hT hc hc' hne
    | FAT_TYPE_FAT16 => exact fat_write_entry_frame_16 volume c v c' hty hT hc hc' hne
    | FAT_TYPE_FAT32 => exact fat_write_entry_frame_32 volume c v c' hty hT hc hc' hne
  obtain ⟨volume', hw, hread, hdirty⟩ := main
  refine ⟨volume', hw, hread, hdirty, ?_⟩
  intro hty
  have b := valid_cluster_bounds volume c hT hc
  have ho : u32 (c * 3) / 2 = c * 3 / 2 := by unfold u32; omega
  have h12 := fat_write_entry_fat12 volume c v hty hc
  rw [hw] at h12
  injection h12 with h12
  subst h12
  simp only [ho, Nat.and_one_is_mod, ne_eq]
  refine ⟨?_, ?_, ?_⟩
  · intro j h0 h1
    exact store16_getD_ne _ _ _ _ h0 h1
  · intro hpar
    simp only [hpar, not_true_eq_false, if_false]
    exact fat12_even_keeps_high_nibble volume.fat_cache hb (c * 3 / 2) v
  · intro hpar
    simp only [hpar, show (1 : Nat) ≠ 0 by decide, not_false_eq_true, if_true]
    exact fat12_odd_keeps_low_nibble volume.fat_cache (c * 3 / 2) v

theorem fat_write_entry_frame_witness :
    ∃ volume', fat_write_entry volume_fat12 3 0x123 = .ok volume' ∧
      fat_read_entry volume' 2 = fat_read_entry volume_fat12 2 ∧
      volume'.fat_dirty = true ∧
      (volume_fat12.type = FAT_TYPE_FAT12 →
        (∀ j, j ≠ 3 * 3 / 2 → j ≠ 3 * 3 / 2 + 1 →
          volume'.fat_cache.getD j 0 = volume_fat12.fat_cache.getD j 0) ∧
        (3 % 2 = 0 → volume'.fat_cache.getD (3 * 3 / 2 + 1) 0 / 16
          = volume_fat12.fat_cache.getD (3 * 3 / 2 + 1) 0 / 16) ∧
        (3 % 2 = 1 → volume'.fat_cache.getD (3 * 3 / 2) 0 % 16
          = volume_fat12.fat_cache.getD (3 * 3 / 2) 0 % 16)) :=
  fat_write_entry_frame volume_fat12 3 0x123 2 (by decide) (by decide) (by decide) (by decide)
    (by decide)

/-! ## FAT12 packing of two neighbouring entries -/

/-- C23 (counterexample): on the freshly formatted FAT12 volume `volume_fat12_fresh`
(T = 2, entries 2 and 3 free), after `fat_write_entry(2, 0xABC)` and
`fat_write_entry(3, 0x123)` the cache bytes at offsets 3, 4, 5 are 0xBC, 0x3A, 0x12: the
byte at offset 4 is 0x3A, not 0xCA; both entries read back as written. -/
theorem fat12_two_entries_bytes_fresh :
    (write_two_entries volume_fat12_fresh).map (fun cache => (cache.getD 3 0, cache.getD 4 0,
      cache.getD 5 0)) = some (0xBC, 0x3A, 0x12) ∧
    (0xBC, 0x3A, 0x12) ≠ ((0xBC, 0xCA, 0x12) : Nat × Nat × Nat) ∧
    (write_two_entries volume_fat12_fresh).map (fun cache =>
      (fat_read_entry { volume_fat12_fresh with fat_cache := cache } 2,
       fat_read_entry { volume_fat12_fresh with fat_cache := cache } 3))
      = some (.ok 0xABC, .ok 0x123) := by
  decide

/-- C23 (amended): on a FAT12 volume with T >= 2 (and 2 + T < 2^32) whose FAT cache is an
array of at least 6 bytes in which entry 3 is 0 before the writes: after
`fat_write_entry(2, 0xABC)` followed by `fat_write_entry(3, 0x123)`, both of which return
Ok, the three cache bytes at offsets 3, 4 and 5 are exactly 0xBC, 0x3A, 0x12. -/
theorem fat12_two_entries_bytes (volume : fat_volume_t)
    (hty : volume.type = FAT_TYPE_FAT12) (hT : 2 ≤ volume.total_clusters)
    (hT' : 2 + volume.total_clusters < 4294967296)
    (hlen : 6 ≤ volume.fat_cache.length) (hb : ∀ b ∈ volume.fat_cache, b < 256)
    (h3 : fat_read_entry volume 3 = .ok 0) :
    ∃ cache, write_two_entries volume = some cache ∧
      cache.getD 3 0 = 0xBC ∧ cache.getD 4 0 = 0x3A ∧ cache.getD 5 0 = 0x12 := by
  have hv : ∀ c, 2 ≤ c → c < 4 → is_valid_cluster volume c = true := by
    intro c h2 h4
    unfold is_valid_cluster FAT_FIRST_VALID_CLUSTER u32
    simp only [Bool.and_eq_true, decide_eq_true_eq]
    omega
  have hb3 := getD_lt_of_bytes volume.fat_cache hb 3
  rw [fat_read_entry_fat12 volume 3 hty (hv 3 (by omega) (by omega))] at h3
  have h3' : load16 volume.fat_cache 4 >>> 4 = 0 := by
    have : (if 3 &&& 1 ≠ 0 then load16 volume.fat_cache (u32 (3 * 3) / 2) >>> 4
        else load16 volume.fat_cache (u32 (3 * 3) / 2) &&& 0x0FFF)
        = load16 volume.fat_cache 4 >>> 4 := rfl
    rw [this] at h3
    injection h3
  rw [Nat.shiftRight_eq_div_pow] at h3'
  unfold load16 at h3'
  have h3'' : (volume.fat_cache.getD 4 0 + 256 * volume.fat_cache.getD 5 0) / 16 = 0 := h3'
  have hb4 : volume.fat_cache.getD 4 0 < 16 := by omega
  have hb5 : volume.fat_cache.getD 5 0 = 0 := by omega
  have hw1 : load16 volume.fat_cache 3 &&& 0xF000 = 0 := by
    rw [and_F000]
    have : load16 volume.fat_cache 3
        = volume.fat_cache.getD 3 0 + 256 * volume.fat_cache.getD 4 0 := rfl
    omega
  have e1 : fat_write_entry volume 2 0xABC = .ok { volume with
      fat_cache := store16 volume.fat_cache 3 0xABC, fat_dirty := true } := by
    rw [fat_write_entry_fat12 volume 2 0xABC hty (hv 2 (by omega) (by omega))]
    have : (if 2 &&& 1 ≠ 0 then
          u16 ((load16 volume.fat_cache (u32 (2 * 3) / 2) &&& 0x0FFF)
            ||| u32 ((0xABC &&& 0x0FFF) <<< 4))
        else u16 ((load16 volume.fat_cache (u32 (2 * 3) / 2) &&& 0xF000) ||| (0xABC &&& 0x0FFF)))
        = u16 ((load16 volume.fat_cache 3 &&& 0xF000) ||| 0xABC) := rfl
    rw [this, hw1]
    rfl
  have hl4 : load16 (store16 volume.fat_cache 3 0xABC) 4 = 0x0A := by
    unfold load16
    have h4 : (store16 volume.fat_cache 3 0xABC).getD 4 0 = 0x0A := by
      rw [store16_getD_hi, if_pos (by omega)]
    have h5 : (store16 volume.fat_cache 3 0xABC).getD 5 0 = 0 := by
      rw [store16_getD_ne _ _ _ 5 (by omega) (by omega), hb5]
    show (store16 volume.fat_cache 3 0xABC).getD 4 0
      + 256 * (store16 volume.fat_cache 3 0xABC).getD 5 0 = 0x0A
    rw [h4, h5]
  have e2 : fat_write_entry { volume with
        fat_cache := store16 volume.fat_cache 3 0xABC, fat_dirty := true } 3 0x123
      = .ok { volume with
        fat_cache := store16 (store16 volume.fat_cache 3 0xABC) 4 0x123A, fat_dirty := true } := by
    rw [fat_write_entry_fat12 { volume with
      fat_cache := store16 volume.fat_cache 3 0xABC, fat_dirty := true } 3 0x123 hty
      (hv 3 (by omega) (by omega))]
    have : (if 3 &&& 1 ≠ 0 then
          u16 ((load16 (store16 volume.fat_cache 3 0xABC) (u32 (3 * 3) / 2) &&& 0x0FFF)
            ||| u32 ((0x123 &&& 0x0FFF) <<< 4))
        else u16 ((load16 (store16 volume.fat_cache 3 0xABC) (u32 (3 * 3) / 2) &&& 0xF000)
          ||| (0x123 &&& 0x0FFF)))
        = u16 ((load16 (store16 volume.fat_cache 3 0xABC) 4 &&& 0x0FFF) ||| u32 (0x123 <<< 4)) :=
      rfl
    simp only [this, hl4]
    rfl
  refine ⟨store16 (store16 volume.fat_cache 3 0xABC) 4 0x123A, ?_, ?_, ?_, ?_⟩
  · unfold write_two_entries
    simp only [e1, e2]
  · rw [store16_getD_ne _ _ _ 3 (by omega) (by omega), store16_getD_lo, if_pos (by omega)]
  · rw [store16_getD_lo, if_pos (by simp [store16]; omega)]
  · rw [store16_getD_hi, if_pos (by simp [store16]; omega)]

theorem fat12_two_entries_bytes_witness :
    ∃ cache, write_two_entries volume_fat12_fresh = some cache ∧
      cache.getD 3 0 = 0xBC ∧ cache.getD 4 0 = 0x3A ∧ cache.getD 5 0 = 0x12 :=
  fat12_two_entries_bytes volume_fat12_fresh (by decide) (by decide) (by decide) (by decide)
    (by decide) (by decide)

/-! ## Sequential reads -/

/-- C31 (code defect): on `handle_8192` (an 8192-byte file in the well-formed chain
2 -> 3 -> EOC of 4096-byte clusters, cluster 2 filled with 0xAA and cluster 3 with 0xBB,
working device, position 0) one `fat_read(8192)` delivers 8192 bytes whose byte 4096 is 0xBB,
while `fat_read(4096)` followed by `fat_read(4096)` delivers 0xAA bytes in the second call:
both ways end at position 8192, but the second call of the pair reads cluster 2 again. The
first call leaves `current_cluster` on the cluster it has just finished (the loop advances
only while bytes remain), and `fat_seek_to_position` then takes the cached cluster for the
one of index position / bytes_per_cluster. -/
theorem fat_read_split_differs :
    fat_read_entry volume_two_clusters 2 = .ok 3 ∧
    fat_read_entry volume_two_clusters 3 = .ok 0xFFFF ∧
    read_outcome (fat_read handle_8192 8192 2) = some (.ok 8192, 8192, 8192, 0xAA, 0xBB) ∧
    (fat_read handle_8192 8192 2).map (fun r => r.2.2.getD 4096 0) = some 0xBB ∧
    read_outcome (fat_read handle_8192 4096 2) = some (.ok 4096, 4096, 4096, 0xAA, 0xAA) ∧
    read_outcome (read_twice handle_8192 4096 4096 2)
      = some (.ok 4096, 8192, 4096, 0xAA, 0xAA) := by
  refine ⟨by decide, by decide, by decide!, by decide!, by decide!, by decide!⟩

/-! ## Extending a chain -/

/-- C33 (code defect): `fat_find_last_cluster` returns `FAT_ERR_INVALID_PARAM` for the start
cluster 2 of the well-formed chain 2 -> 3 -> EOC of `volume_full`, for every amount of
fuel: its parameter check `|| start_cluster` rejects every non-zero start cluster. The loop
behind the check would return cluster 3. -/
theorem fat_find_last_cluster_rejects_start :
    fat_read_entry volume_full 2 = .ok 3 ∧
    fat_read_entry volume_full 3 = .ok 0xFFFF ∧
    (∀ fuel, fat_find_last_cluster volume_full 2 fuel = some (.error FAT_ERR_INVALID_PARAM)) ∧
    fat_find_last_cluster_loop volume_full 2 2 = some (.ok 3) := by
  refine ⟨by decide, by decide, ?_, by decide⟩
  intro fuel
  rfl

/-- C34 (code defect): on `volume_two_used` (clusters 2 and 3 both hold 0xFFFF, clusters 4
and 5 are free) `fat_allocate_and_link_cluster(3)` returns Ok with `new_cluster` = 2, a
cluster whose entry was 0xFFFF, not 0, before the call; on `volume_one_cluster` (only
cluster 2 in use) `fat_allocate_and_link_cluster(2)` returns Ok with `new_cluster` = 2 =
`prev`, and afterwards the entry of cluster 2 is 2, not an end-of-chain marker. -/
theorem fat_allocate_and_link_cluster_takes_used_cluster :
    fat_read_entry volume_two_used 3 = .ok 0xFFFF ∧
    fat_read_entry volume_two_used 2 = .ok 0xFFFF ∧
    fat_read_entry volume_two_used 4 = .ok 0 ∧
    (fat_allocate_and_link_cluster volume_two_used 3).2 = .ok 2 ∧
    fat_read_entry (fat_allocate_and_link_cluster volume_two_used 3).1 3 = .ok 2 ∧
    fat_read_entry volume_one_cluster 2 = .ok 0xFFFF ∧
    (fat_allocate_and_link_cluster volume_one_cluster 2).2 = .ok 2 ∧
    fat_read_entry (fat_allocate_and_link_cluster volume_one_cluster 2).1 2 = .ok 2 ∧
    fat_is_eoc volume_one_cluster 2 = false := by
  decide

/-- C35 (code defect): for `handle_empty` (first cluster 0, file size 0, on a volume whose
clusters 3, 4, 5 are free) `fat_extend_file(file, 13)` returns `FAT_OK` without allocating:
afterwards the entry's first cluster and `current_cluster` are still 0 and the FAT cache is
the old one. `fat_calculate_clusters_needed` counts 1 cluster for the empty file and 1 for
13 bytes, so the function returns at `clusters_needed <= current_clusters`. -/
theorem fat_extend_file_empty_file_no_cluster :
    fat_get_entry_cluster handle_empty.volume handle_empty.dir_entry = 0 ∧
    handle_empty.dir_entry.file_size = 0 ∧
    fat_read_entry handle_empty.volume 3 = .ok 0 ∧
    fat_calculate_clusters_needed handle_empty.volume 0 = 1 ∧
    fat_calculate_clusters_needed handle_empty.volume 13 = 1 ∧
    ∀ fuel, (fat_extend_file handle_empty 13 fuel).map
        (fun r => (r.1, fat_get_entry_cluster r.2.volume r.2.dir_entry, r.2.current_cluster,
          r.2.volume.fat_cache))
      = some (FAT_OK, 0, 0, handle_empty.volume.fat_cache) := by
  refine ⟨by decide, by decide, by decide, by decide, by decide, ?_⟩
  intro fuel
  rfl

/-! ## Long-name runs, tombstones and entry counts -/

/-- C36 (code defect): the fixed root of `volume_lfn_root` holds a valid LFN run for the
owner at index 3 (slot 2: sequence number 1 and the first 13 characters, slot 1: sequence
number 2 with bit 0x40 and the last character, both with attr 0x0F and the owner's
checksum), and `fat_read_lfn_sequence` called with `*entry_index` = 3 and that checksum
returns `FAT_ERR_INVALID_PARAM`: it passes the slot number within the sector (2), not the
byte offset (64), to `fat_read_dir_entry`. -/
theorem fat_read_lfn_sequence_fails_on_valid_run :
    fat_read_dir_entry volume_lfn_root 19 96 = .ok (example_entry name_ABCDEF_1 0x20 5 10) ∧
    (fat_read_dir_entry volume_lfn_root 19 64).toOption.map
        (fun e => (e.attr, e.order, e.checksum, fat_parse_lfn e))
      = some (0x0F, 0x01, fat_calculate_lfn_checksum name_ABCDEF_1,
          .ok (name_14_chars.take 13)) ∧
    (fat_read_dir_entry volume_lfn_root 19 32).toOption.map
        (fun e => (e.attr, e.order, e.checksum, fat_parse_lfn e))
      = some (0x0F, 0x42, fat_calculate_lfn_checksum name_ABCDEF_1, .ok [0x4E]) ∧
    fat_read_lfn_sequence volume_lfn_root 0 3 256 (fat_calculate_lfn_checksum name_ABCDEF_1)
      = .error FAT_ERR_INVALID_PARAM := by
  refine ⟨by decide!, by decide!, by decide!, by decide!⟩

/-- C37 (code defect): in the cluster-chained directory at cluster 2 of `volume_subdir_16`
(512-byte sectors, 8 sectors per cluster, working device) slot 16 is the first slot of the
second sector; `fat_delete_directory_entries(2, 16, false)` returns
`FAT_ERR_INVALID_PARAM` and the first name byte of the slot is still `H`, not 0xE5: the
byte offset 16 * 32 = 512 is taken from the start of the cluster and handed to
`fat_read_dir_entry`, which accepts offsets below `bytes_per_sector` only. In the fixed
root of `volume_root_16` the same call for slot 16 returns `FAT_OK` and stores 0xE5. -/
theorem fat_delete_directory_entries_fails_past_first_sector :
    fat_read_dir_entry volume_subdir_16 34 0 = .ok entry_hello ∧
    (fat_delete_directory_entries volume_subdir_16 2 16 false).1 = FAT_ERR_INVALID_PARAM ∧
    (fat_delete_directory_entries volume_subdir_16 2 16 false).2.device.data (34 * 512)
      = 0x48 ∧
    (fat_delete_directory_entries volume_root_16 0 16 false).1 = FAT_OK ∧
    (fat_delete_directory_entries volume_root_16 0 16 false).2.device.data (20 * 512)
      = 0xE5 := by
  refine ⟨by decide!, by decide!, by decide!, by decide!, by decide!⟩

/-- C38 (code defect): `fat_calculate_entries_needed` returns 1 for the 12-character
dot-less name `ABCDEFGHIJKL` and for the two-dot name `a.b.c`, neither of which is an 8.3
name; ceil(L/13) + 1 is 2 for both. Without a dot the length of the base is not tested, and
the test `dot == strchr(filename, '.')` compares the first dot with itself. -/
theorem fat_calculate_entries_needed_long_base_and_two_dots :
    fat_calculate_entries_needed name_12_chars = 1 ∧
    (name_12_chars.length + 12) / 13 + 1 = 2 ∧
    fat_calculate_entries_needed name_a_b_c = 1 ∧
    (name_a_b_c.length + 12) / 13 + 1 = 2 := by
  decide

/-- C39 (code defect): on the FAT32 volume `volume_fat32_eoc`, whose slot of cluster 2 holds
0x0FFFFFF8, `fat_write_entry(2, 0)` returns Ok and `fat_read_entry(2)` then returns
0x0FFFFFF8, not 0: the new slot is `(current_entry & 0x0FFFFFFF) | value`, which keeps the
old 28 value bits. -/
theorem fat32_write_then_read_keeps_old_bits :
    fat_read_entry volume_fat32_eoc 2 = .ok 0x0FFFFFF8 ∧
    (fat_write_entry volume_fat32_eoc 2 0).toOption.map (fun v => fat_read_entry v 2)
      = some (.ok 0x0FFFFFF8) ∧
    (0 : Nat) &&& 0x0FFFFFFF ≠ 0x0FFFFFF8 := by
  decide

/-! ## Seek as a refinement of the chain walk -/

theorem fat_walk_cluster_chain_loop_add (volume : fat_volume_t) (b : Nat) :
    ∀ (a start c : Nat), fat_walk_cluster_chain_loop volume a start = .ok c →
      fat_walk_cluster_chain_loop volume (a + b) start
        = fat_walk_cluster_chain_loop volume b c := by
  intro a
  induction a with
  | zero =>
    intro start c h
    rw [fat_walk_cluster_chain_loop] at h
    injection h with h
    rw [Nat.zero_add, h]
  | succ a ih =>
    intro start c h
    rw [show a + 1 + b = (a + b) + 1 by omega]
    rw [fat_walk_cluster_chain_loop] at h ⊢
    split at h
    · cases h
    · split at h
      · cases h
      · rename_i h1 h2
        rw [if_neg h1, if_neg h2]
        cases hn : fat_get_next_cluster volume start with
        | error e => rw [hn] at h; cases h
        | ok n =>
          rw [hn] at h
          exact ih n c h

/-- C32: for every handle whose cached `current_cluster` is the cluster that the
unoptimised walk from the entry's first cluster reaches at chain index
position / bytes_per_cluster, and every target <= file_size (bytes_per_cluster > 0):
`fat_seek_to_position(file, target)` returns the status of
`fat_walk_cluster_chain(first_cluster, target / bytes_per_cluster)`, and when that walk
returns Ok with cluster c the handle afterwards is the old one with `current_cluster` = c,
`cluster_offset` = target mod bytes_per_cluster and `position` = target; on an error the
handle is the old one. -/
theorem fat_seek_to_position_refines_walk (file : fat_file_t) (target : Nat)
    (_hbpc : 0 < file.volume.bytes_per_cluster)
    (hcur : fat_walk_cluster_chain file.volume
        (fat_get_entry_cluster file.volume file.dir_entry)
        (file.position / file.volume.bytes_per_cluster) = .ok file.current_cluster)
    (htarget : target ≤ file.dir_entry.file_size) :
    (fat_seek_to_position file target).1
      = status (fat_walk_cluster_chain file.volume
          (fat_get_entry_cluster file.volume file.dir_entry)
          (target / file.volume.bytes_per_cluster)) ∧
    (∀ c, fat_walk_cluster_chain file.volume
          (fat_get_entry_cluster file.volume file.dir_entry)
          (target / file.volume.bytes_per_cluster) = .ok c →
      (fat_seek_to_position file target).2
        = { file with position := target, current_cluster := c,
                      cluster_offset := target % file.volume.bytes_per_cluster }) ∧
    (∀ err, fat_walk_cluster_chain file.volume
          (fat_get_entry_cluster file.volume file.dir_entry)
          (target / file.volume.bytes_per_cluster) = .error err →
      (fat_seek_to_position file target).2 = file) := by
  have hwalk : (if target / file.volume.bytes_per_cluster
          = file.position / file.volume.bytes_per_cluster then
        (.ok file.current_cluster : Except fat_error_t Nat)
      else if target / file.volume.bytes_per_cluster
          > file.position / file.volume.bytes_per_cluster then
        fat_walk_cluster_chain file.volume file.current_cluster
          (target / file.volume.bytes_per_cluster
            - file.position / file.volume.bytes_per_cluster)
      else
        fat_walk_cluster_chain file.volume
          (fat_get_entry_cluster file.volume file.dir_entry)
          (target / file.volume.bytes_per_cluster))
      = fat_walk_cluster_chain file.volume
          (fat_get_entry_cluster file.volume file.dir_entry)
          (target / file.volume.bytes_per_cluster) := by
    by_cases h1 : target / file.volume.bytes_per_cluster
        = file.position / file.volume.bytes_per_cluster
    · rw [if_pos h1, h1, hcur]
    · rw [if_neg h1]
      by_cases h2 : target / file.volume.bytes_per_cluster
          > file.position / file.volume.bytes_per_cluster
      · rw [if_pos h2]
        unfold fat_walk_cluster_chain at hcur ⊢
        have := fat_walk_cluster_chain_loop_add file.volume
          (target / file.volume.bytes_per_cluster
            - file.position / file.volume.bytes_per_cluster) _ _ _ hcur
        rw [← this]
        congr 1
        omega
      · rw [if_neg h2]
  have hseek : fat_seek_to_position file target
      = match fat_walk_cluster_chain file.volume
          (fat_get_entry_cluster file.volume file.dir_entry)
          (target / file.volume.bytes_per_cluster) with
        | .error err => (err, file)
        | .ok c =>
          (FAT_OK,
            { file with
              position := target, current_cluster := c,
              cluster_offset := target % file.volume.bytes_per_cluster }) := by
    unfold fat_seek_to_position
    rw [if_neg (by omega)]
    simp only [fat_calculate_cluster_position]
    rw [hwalk]
  rw [hseek]
  cases hw : fat_walk_cluster_chain file.volume
      (fat_get_entry_cluster file.volume file.dir_entry)
      (target / file.volume.bytes_per_cluster) with
  | error err =>
    refine ⟨rfl, ?_, ?_⟩
    · intro c hc; cases hc
    · intro e _; rfl
  | ok c =>
    refine ⟨rfl, ?_, ?_⟩
    · intro c' hc'
      injection hc' with hc'
      subst hc'
      rfl
    · intro e he; cases he

theorem fat_seek_to_position_refines_walk_witness :
    (fat_seek_to_position handle_8192 5000).1
      = status (fat_walk_cluster_chain handle_8192.volume
          (fat_get_entry_cluster handle_8192.volume handle_8192.dir_entry)
          (5000 / handle_8192.volume.bytes_per_cluster)) ∧
    (∀ c, fat_walk_cluster_chain handle_8192.volume
          (fat_get_entry_cluster handle_8192.volume handle_8192.dir_entry)
          (5000 / handle_8192.volume.bytes_per_cluster) = .ok c →
      (fat_seek_to_position handle_8192 5000).2
        = { handle_8192 with
            position := 5000, current_cluster := c,
            cluster_offset := 5000 % handle_8192.volume.bytes_per_cluster }) ∧
    (∀ err, fat_walk_cluster_chain handle_8192.volume
          (fat_get_entry_cluster handle_8192.volume handle_8192.dir_entry)
          (5000 / handle_8192.volume.bytes_per_cluster) = .error err →
      (fat_seek_to_position handle_8192 5000).2 = handle_8192) :=
  fat_seek_to_position_refines_walk handle_8192 5000 (by decide) (by decide) (by decide)

/-! ## Termination of `fat_validate_chain` -/

theorem valid_of_in_range (volume : fat_volume_t) (c : Nat)
    (h : (decide (c < FAT_FIRST_VALID_CLUSTER) ||
      decide (c ≥ u32 (FAT_FIRST_VALID_CLUSTER + volume.total_clusters))) = false) :
    is_valid_cluster volume c = true := by
  unfold is_valid_cluster
  simp only [Bool.or_eq_false_iff, decide_eq_false_iff_not] at h
  simp only [Bool.and_eq_true, decide_eq_true_eq]
  omega

theorem chain_next_of_read (volume : fat_volume_t) (c v : Nat)
    (hr : fat_read_entry volume c = .ok v) (he : fat_is_eoc volume v = false) :
    chain_next volume c = some v := by
  unfold chain_next
  rw [hr]
  simp only [he, Bool.false_eq_true, if_false]

/-- One iteration of the tortoise/hare loop either returns, or tortoise and hare have
moved one and two links inside the valid range and the loop goes on from there. -/
theorem fat_validate_chain_loop_returns_or_steps (volume : fat_volume_t) (fuel t h : Nat) :
    (∃ r, fat_validate_chain_loop volume (fuel + 1) t h = some r) ∨
    ∃ t' h1 h', chain_next volume t = some t' ∧ chain_next volume h = some h1 ∧
      chain_next volume h1 = some h' ∧ is_valid_cluster volume t' = true ∧
      is_valid_cluster volume h1 = true ∧ is_valid_cluster volume h' = true ∧
      fat_validate_chain_loop volume (fuel + 1) t h
        = fat_validate_chain_loop volume fuel t' h' := by
  rw [fat_validate_chain_loop]
  cases r1 : fat_read_entry volume t with
  | error e => exact Or.inl ⟨e, rfl⟩
  | ok t' =>
    simp only []
    by_cases e1 : fat_is_eoc volume t' = true
    · simp only [e1, if_true]; exact Or.inl ⟨_, rfl⟩
    · simp only [e1, if_false]
      by_cases o1 : (decide (t' < FAT_FIRST_VALID_CLUSTER) ||
          decide (t' ≥ u32 (FAT_FIRST_VALID_CLUSTER + volume.total_clusters))) = true
      · simp only [o1, if_true]; exact Or.inl ⟨_, rfl⟩
      · simp only [o1, if_false]
        cases r2 : fat_read_entry volume h with
        | error e => exact Or.inl ⟨e, rfl⟩
        | ok h1 =>
          simp only []
          by_cases e2 : fat_is_eoc volume h1 = true
          · simp only [e2, if_true]; exact Or.inl ⟨_, rfl⟩
          · simp only [e2, if_false]
            by_cases o2 : (decide (h1 < FAT_FIRST_VALID_CLUSTER) ||
                decide (h1 ≥ u32 (FAT_FIRST_VALID_CLUSTER + volume.total_clusters))) = true
            · simp only [o2, if_true]; exact Or.inl ⟨_, rfl⟩
            · simp only [o2, if_false]
              cases r3 : fat_read_entry volume h1 with
              | error e => exact Or.inl ⟨e, rfl⟩
              | ok h' =>
                simp only []
                by_cases e3 : fat_is_eoc volume h' = true
                · simp only [e3, if_true]; exact Or.inl ⟨_, rfl⟩
                · simp only [e3, if_false]
                  by_cases o3 : (decide (h' < FAT_FIRST_VALID_CLUSTER) ||
                      decide (h' ≥ u32 (FAT_FIRST_VALID_CLUSTER + volume.total_clusters)))
                      = true
                  · simp only [o3, if_true]; exact Or.inl ⟨_, rfl⟩
                  · simp only [o3, if_false]
                    by_cases hm : t' = h'
                    · simp only [hm, if_true]; exact Or.inl ⟨_, rfl⟩
                    · simp only [hm, if_false]
                      refine Or.inr ⟨t', h1, h', chain_next_of_read _ _ _ r1 (by simpa using e1),
                        chain_next_of_read _ _ _ r2 (by simpa using e2),
                        chain_next_of_read _ _ _ r3 (by simpa using e3),
                        valid_of_in_range _ _ (by simpa using o1),
                        valid_of_in_range _ _ (by simpa using o2),
                        valid_of_in_range _ _ (by simpa using o3), rfl⟩

/-- While the loop has not returned, every chain position the hare has passed holds a
cluster of the valid range. -/
theorem fat_validate_chain_loop_none_in_range (volume : fat_volume_t) (start : Nat) :
    ∀ fuel k t h, chain_at volume start k = some t → chain_at volume start (2 * k) = some h →
      (∀ m, m ≤ 2 * k → ∃ c, chain_at volume start m = some c ∧
        is_valid_cluster volume c = true) →
      fat_validate_chain_loop volume fuel t h = none →
      ∀ m, m ≤ 2 * (k + fuel) → ∃ c, chain_at volume start m = some c ∧
        is_valid_cluster volume c = true := by
  intro fuel
  induction fuel with
  | zero => intro k t h _ _ hgood _ m hm; exact hgood m (by omega)
  | succ fuel ih =>
    intro k t h hk h2k hgood hnone m hm
    rcases fat_validate_chain_loop_returns_or_steps volume fuel t h with ⟨r, hr⟩ |
      ⟨t', h1, h', s1, s2, s3, v1, v2, v3, hstep⟩
    · rw [hr] at hnone; cases hnone
    · have c1 : chain_at volume start (k + 1) = some t' := by
        rw [chain_at_succ, hk]; exact s1
      have c2 : chain_at volume start (2 * k + 1) = some h1 := by
        rw [chain_at_succ, h2k]; exact s2
      have c3 : chain_at volume start (2 * k + 1 + 1) = some h' := by
        rw [chain_at_succ, c2]; exact s3
      rw [hstep] at hnone
      refine ih (k + 1) t' h' c1 (by rw [show 2 * (k + 1) = 2 * k + 1 + 1 by omega]; exact c3)
        ?_ hnone m (by omega)
      intro m' hm'
      by_cases h1' : m' ≤ 2 * k
      · exact hgood m' h1'
      · by_cases h2' : m' = 2 * k + 1
        · subst h2'; exact ⟨h1, c2, v2⟩
        · have : m' = 2 * k + 1 + 1 := by omega
          subst this; exact ⟨h', c3, v3⟩

/-- On an endless chain inside the valid range the loop returns: two positions hold the
same cluster, and tortoise and hare then meet. -/
theorem fat_validate_chain_loop_endless (volume : fat_volume_t) (start : Nat)
    (hall : ∀ k, ∃ c', chain_at volume start k = some c' ∧ is_valid_cluster volume c' = true) :
    ∃ n, ∀ fuel, n ≤ fuel →
      fat_validate_chain_loop volume fuel start start = some FAT_ERR_CORRUPTED := by
  choose g hg using hall
  have hlt : ∀ m, g m < u32 (FAT_FIRST_VALID_CLUSTER + volume.total_clusters) := by
    intro m
    have := (hg m).2
    unfold is_valid_cluster at this
    simp only [Bool.and_eq_true, decide_eq_true_eq] at this
    exact this.2
  obtain ⟨x, y, hxy, hf⟩ := Fintype.exists_ne_map_eq_of_card_lt
    (fun x : Fin (u32 (FAT_FIRST_VALID_CLUSTER + volume.total_clusters) + 1) =>
      (⟨g x, hlt x⟩ : Fin (u32 (FAT_FIRST_VALID_CLUSTER + volume.total_clusters))))
    (by simp)
  have hgxy : g x = g y := by
    have := congrArg Fin.val hf
    simpa using this
  have key : ∀ i j : Nat, i < j → g i = g j → ∃ n, ∀ fuel, n ≤ fuel →
      fat_validate_chain_loop volume fuel start start = some FAT_ERR_CORRUPTED := by
    intro i j hij hgij
    have heq : chain_at volume start i = chain_at volume start j := by
      rw [(hg i).1, (hg j).1, hgij]
    refine ⟨(j - i) * (i + 1), fun fuel hfuel => ?_⟩
    have hpos : 0 < (j - i) * (i + 1) := Nat.mul_pos (by omega) (by omega)
    have hge : i ≤ (j - i) * (i + 1) := by
      calc i ≤ 1 * (i + 1) := by omega
        _ ≤ (j - i) * (i + 1) := Nat.mul_le_mul_right _ (by omega)
    have hmeet := chain_cycle_period volume start i j hij heq ((j - i) * (i + 1)) hge (i + 1)
    rw [show (j - i) * (i + 1) + (j - i) * (i + 1) = 2 * ((j - i) * (i + 1)) by omega] at hmeet
    exact fat_validate_chain_loop_meets volume start (fun k => ⟨g k, hg k⟩)
      ((j - i) * (i + 1)) 0 start start ((j - i) * (i + 1)) fuel rfl rfl hpos (by omega)
      hmeet.symm hfuel
  have hne : (x : Nat) ≠ (y : Nat) := fun h => hxy (Fin.ext h)
  rcases Nat.lt_or_gt_of_ne hne with h | h
  · exact key x y h hgxy
  · exact key y x h hgxy.symm

/-- C40: for every FAT type, every FAT cache content and every start cluster,
`fat_validate_chain(start)` terminates: there is a number of iterations n such that with n
or more units of fuel the loop has reached a return. -/
theorem fat_validate_chain_terminates (volume : fat_volume_t) (start : Nat) :
    ∃ n, ∀ fuel, n ≤ fuel → ∃ r, fat_validate_chain volume start fuel = some r := by
  unfold fat_validate_chain
  by_cases hstart : (decide (start < FAT_FIRST_VALID_CLUSTER) ||
      decide (start ≥ u32 (FAT_FIRST_VALID_CLUSTER + volume.total_clusters))) = true
  · exact ⟨0, fun fuel _ => ⟨FAT_ERR_INVALID_CLUSTER, by simp only [hstart, if_true]⟩⟩
  · simp only [hstart, if_false]
    have hvalid : is_valid_cluster volume start = true :=
      valid_of_in_range _ _ (by simpa using hstart)
    by_cases hall : ∀ k, ∃ c', chain_at volume start k = some c' ∧
        is_valid_cluster volume c' = true
    · obtain ⟨n, hn⟩ := fat_validate_chain_loop_endless volume start hall
      exact ⟨n, fun fuel hfuel => ⟨_, hn fuel hfuel⟩⟩
    · obtain ⟨m, hm⟩ := not_forall.mp hall
      refine ⟨m, fun fuel hfuel => ?_⟩
      cases hloop : fat_validate_chain_loop volume fuel start start with
      | some r => exact ⟨r, rfl⟩
      | none =>
        exfalso
        apply hm
        refine fat_validate_chain_loop_none_in_range volume start fuel 0 start start rfl rfl
          ?_ hloop m (by omega)
        intro m' hm'
        have : m' = 0 := by omega
        subst this
        exact ⟨start, rfl, hvalid⟩

end Fat
